import Mathlib
set_option linter.unusedVariables false
set_option maxRecDepth 40000

/-!
Verification of the field arithmetic in `toy-ed25519` (`src/lib.rs`, `src/field.rs`):
a 16-limb, base-2^16 implementation of arithmetic modulo p = 2^255 - 19.

Limb arrays (`FieldElement<i64, 16>`) are embedded as functions `Fin 16 → ℤ`,
byte arrays (`FieldElement<u8, 32>`) as functions `Fin 32 → ℤ` whose entries lie
in [0, 256).  All i64 values occurring in the code stay far from the i64
overflow boundary on the domains considered here, so `ℤ` is an exact model.
Rust's arithmetic right shift `>> k`, left shift `<< k`, masking `& m`, xor and
bitwise not on `i64` are embedded by `Int.shiftRight` (`>>>`), `Int.shiftLeft`
(`<<<`), `Int.land`, `Int.xor` and `Int.lnot`, which agree with the
two's-complement operations once no overflow occurs; bridge lemmas below
restate the shifts and masks as Euclidean `/`, `*` and `%` so that `omega` can
reason about them.
-/

namespace Toy

/-- The field modulus p = 2^255 - 19 as an integer. -/
def P : ℤ := 2 ^ 255 - 19

/-- The field modulus as a natural number (for `ZMod`). -/
def pN : ℕ := 2 ^ 255 - 19

/-- A 16-limb element, the embedding of `FieldElement<i64, 16>`. -/
abbrev F : Type := Fin 16 → ℤ

/-- A 32-byte element, the embedding of `FieldElement<u8, 32>`; entries are
the byte values as integers. -/
abbrev Bytes : Type := Fin 32 → ℤ

/-- Build a 16-limb element from its 16 entries. -/
def mk16 (a0 a1 a2 a3 a4 a5 a6 a7 a8 a9 a10 a11 a12 a13 a14 a15 : ℤ) : F :=
  fun i =>
    match i with
    | ⟨0, _⟩ => a0
    | ⟨1, _⟩ => a1
    | ⟨2, _⟩ => a2
    | ⟨3, _⟩ => a3
    | ⟨4, _⟩ => a4
    | ⟨5, _⟩ => a5
    | ⟨6, _⟩ => a6
    | ⟨7, _⟩ => a7
    | ⟨8, _⟩ => a8
    | ⟨9, _⟩ => a9
    | ⟨10, _⟩ => a10
    | ⟨11, _⟩ => a11
    | ⟨12, _⟩ => a12
    | ⟨13, _⟩ => a13
    | ⟨14, _⟩ => a14
    | ⟨15, _⟩ => a15
    | ⟨n + 16, h⟩ => absurd h (by omega)

theorem mk16_0 (a0 a1 a2 a3 a4 a5 a6 a7 a8 a9 a10 a11 a12 a13 a14 a15 : ℤ) :
    mk16 a0 a1 a2 a3 a4 a5 a6 a7 a8 a9 a10 a11 a12 a13 a14 a15 0 = a0 := rfl

theorem mk16_1 (a0 a1 a2 a3 a4 a5 a6 a7 a8 a9 a10 a11 a12 a13 a14 a15 : ℤ) :
    mk16 a0 a1 a2 a3 a4 a5 a6 a7 a8 a9 a10 a11 a12 a13 a14 a15 1 = a1 := rfl

theorem mk16_2 (a0 a1 a2 a3 a4 a5 a6 a7 a8 a9 a10 a11 a12 a13 a14 a15 : ℤ) :
    mk16 a0 a1 a2 a3 a4 a5 a6 a7 a8 a9 a10 a11 a12 a13 a14 a15 2 = a2 := rfl

theorem mk16_3 (a0 a1 a2 a3 a4 a5 a6 a7 a8 a9 a10 a11 a12 a13 a14 a15 : ℤ) :
    mk16 a0 a1 a2 a3 a4 a5 a6 a7 a8 a9 a10 a11 a12 a13 a14 a15 3 = a3 := rfl

theorem mk16_4 (a0 a1 a2 a3 a4 a5 a6 a7 a8 a9 a10 a11 a12 a13 a14 a15 : ℤ) :
    mk16 a0 a1 a2 a3 a4 a5 a6 a7 a8 a9 a10 a11 a12 a13 a14 a15 4 = a4 := rfl

theorem mk16_5 (a0 a1 a2 a3 a4 a5 a6 a7 a8 a9 a10 a11 a12 a13 a14 a15 : ℤ) :
    mk16 a0 a1 a2 a3 a4 a5 a6 a7 a8 a9 a10 a11 a12 a13 a14 a15 5 = a5 := rfl

theorem mk16_6 (a0 a1 a2 a3 a4 a5 a6 a7 a8 a9 a10 a11 a12 a13 a14 a15 : ℤ) :
    mk16 a0 a1 a2 a3 a4 a5 a6 a7 a8 a9 a10 a11 a12 a13 a14 a15 6 = a6 := rfl

theorem mk16_7 (a0 a1 a2 a3 a4 a5 a6 a7 a8 a9 a10 a11 a12 a13 a14 a15 : ℤ) :
    mk16 a0 a1 a2 a3 a4 a5 a6 a7 a8 a9 a10 a11 a12 a13 a14 a15 7 = a7 := rfl

theorem mk16_8 (a0 a1 a2 a3 a4 a5 a6 a7 a8 a9 a10 a11 a12 a13 a14 a15 : ℤ) :
    mk16 a0 a1 a2 a3 a4 a5 a6 a7 a8 a9 a10 a11 a12 a13 a14 a15 8 = a8 := rfl

theorem mk16_9 (a0 a1 a2 a3 a4 a5 a6 a7 a8 a9 a10 a11 a12 a13 a14 a15 : ℤ) :
    mk16 a0 a1 a2 a3 a4 a5 a6 a7 a8 a9 a10 a11 a12 a13 a14 a15 9 = a9 := rfl

theorem mk16_10 (a0 a1 a2 a3 a4 a5 a6 a7 a8 a9 a10 a11 a12 a13 a14 a15 : ℤ) :
    mk16 a0 a1 a2 a3 a4 a5 a6 a7 a8 a9 a10 a11 a12 a13 a14 a15 10 = a10 := rfl

theorem mk16_11 (a0 a1 a2 a3 a4 a5 a6 a7 a8 a9 a10 a11 a12 a13 a14 a15 : ℤ) :
    mk16 a0 a1 a2 a3 a4 a5 a6 a7 a8 a9 a10 a11 a12 a13 a14 a15 11 = a11 := rfl

theorem mk16_12 (a0 a1 a2 a3 a4 a5 a6 a7 a8 a9 a10 a11 a12 a13 a14 a15 : ℤ) :
    mk16 a0 a1 a2 a3 a4 a5 a6 a7 a8 a9 a10 a11 a12 a13 a14 a15 12 = a12 := rfl

theorem mk16_13 (a0 a1 a2 a3 a4 a5 a6 a7 a8 a9 a10 a11 a12 a13 a14 a15 : ℤ) :
    mk16 a0 a1 a2 a3 a4 a5 a6 a7 a8 a9 a10 a11 a12 a13 a14 a15 13 = a13 := rfl

theorem mk16_14 (a0 a1 a2 a3 a4 a5 a6 a7 a8 a9 a10 a11 a12 a13 a14 a15 : ℤ) :
    mk16 a0 a1 a2 a3 a4 a5 a6 a7 a8 a9 a10 a11 a12 a13 a14 a15 14 = a14 := rfl

theorem mk16_15 (a0 a1 a2 a3 a4 a5 a6 a7 a8 a9 a10 a11 a12 a13 a14 a15 : ℤ) :
    mk16 a0 a1 a2 a3 a4 a5 a6 a7 a8 a9 a10 a11 a12 a13 a14 a15 15 = a15 := rfl

/-- Build a 32-byte element from its 32 entries. -/
def mk32 (b0 b1 b2 b3 b4 b5 b6 b7 b8 b9 b10 b11 b12 b13 b14 b15 b16 b17 b18 b19 b20 b21 b22 b23 b24 b25 b26 b27 b28 b29 b30 b31 : ℤ) : Bytes :=
  fun i =>
    match i with
    | ⟨0, _⟩ => b0
    | ⟨1, _⟩ => b1
    | ⟨2, _⟩ => b2
    | ⟨3, _⟩ => b3
    | ⟨4, _⟩ => b4
    | ⟨5, _⟩ => b5
    | ⟨6, _⟩ => b6
    | ⟨7, _⟩ => b7
    | ⟨8, _⟩ => b8
    | ⟨9, _⟩ => b9
    | ⟨10, _⟩ => b10
    | ⟨11, _⟩ => b11
    | ⟨12, _⟩ => b12
    | ⟨13, _⟩ => b13
    | ⟨14, _⟩ => b14
    | ⟨15, _⟩ => b15
    | ⟨16, _⟩ => b16
    | ⟨17, _⟩ => b17
    | ⟨18, _⟩ => b18
    | ⟨19, _⟩ => b19
    | ⟨20, _⟩ => b20
    | ⟨21, _⟩ => b21
    | ⟨22, _⟩ => b22
    | ⟨23, _⟩ => b23
    | ⟨24, _⟩ => b24
    | ⟨25, _⟩ => b25
    | ⟨26, _⟩ => b26
    | ⟨27, _⟩ => b27
    | ⟨28, _⟩ => b28
    | ⟨29, _⟩ => b29
    | ⟨30, _⟩ => b30
    | ⟨31, _⟩ => b31
    | ⟨n + 32, h⟩ => absurd h (by omega)

theorem mk32_0 (b0 b1 b2 b3 b4 b5 b6 b7 b8 b9 b10 b11 b12 b13 b14 b15 b16 b17 b18 b19 b20 b21 b22 b23 b24 b25 b26 b27 b28 b29 b30 b31 : ℤ) :
    mk32 b0 b1 b2 b3 b4 b5 b6 b7 b8 b9 b10 b11 b12 b13 b14 b15 b16 b17 b18 b19 b20 b21 b22 b23 b24 b25 b26 b27 b28 b29 b30 b31 0 = b0 := rfl

theorem mk32_1 (b0 b1 b2 b3 b4 b5 b6 b7 b8 b9 b10 b11 b12 b13 b14 b15 b16 b17 b18 b19 b20 b21 b22 b23 b24 b25 b26 b27 b28 b29 b30 b31 : ℤ) :
    mk32 b0 b1 b2 b3 b4 b5 b6 b7 b8 b9 b10 b11 b12 b13 b14 b15 b16 b17 b18 b19 b20 b21 b22 b23 b24 b25 b26 b27 b28 b29 b30 b31 1 = b1 := rfl

theorem mk32_2 (b0 b1 b2 b3 b4 b5 b6 b7 b8 b9 b10 b11 b12 b13 b14 b15 b16 b17 b18 b19 b20 b21 b22 b23 b24 b25 b26 b27 b28 b29 b30 b31 : ℤ) :
    mk32 b0 b1 b2 b3 b4 b5 b6 b7 b8 b9 b10 b11 b12 b13 b14 b15 b16 b17 b18 b19 b20 b21 b22 b23 b24 b25 b26 b27 b28 b29 b30 b31 2 = b2 := rfl

theorem mk32_3 (b0 b1 b2 b3 b4 b5 b6 b7 b8 b9 b10 b11 b12 b13 b14 b15 b16 b17 b18 b19 b20 b21 b22 b23 b24 b25 b26 b27 b28 b29 b30 b31 : ℤ) :
    mk32 b0 b1 b2 b3 b4 b5 b6 b7 b8 b9 b10 b11 b12 b13 b14 b15 b16 b17 b18 b19 b20 b21 b22 b23 b24 b25 b26 b27 b28 b29 b30 b31 3 = b3 := rfl

theorem mk32_4 (b0 b1 b2 b3 b4 b5 b6 b7 b8 b9 b10 b11 b12 b13 b14 b15 b16 b17 b18 b19 b20 b21 b22 b23 b24 b25 b26 b27 b28 b29 b30 b31 : ℤ) :
    mk32 b0 b1 b2 b3 b4 b5 b6 b7 b8 b9 b10 b11 b12 b13 b14 b15 b16 b17 b18 b19 b20 b21 b22 b23 b24 b25 b26 b27 b28 b29 b30 b31 4 = b4 := rfl

theorem mk32_5 (b0 b1 b2 b3 b4 b5 b6 b7 b8 b9 b10 b11 b12 b13 b14 b15 b16 b17 b18 b19 b20 b21 b22 b23 b24 b25 b26 b27 b28 b29 b30 b31 : ℤ) :
    mk32 b0 b1 b2 b3 b4 b5 b6 b7 b8 b9 b10 b11 b12 b13 b14 b15 b16 b17 b18 b19 b20 b21 b22 b23 b24 b25 b26 b27 b28 b29 b30 b31 5 = b5 := rfl

theorem mk32_6 (b0 b1 b2 b3 b4 b5 b6 b7 b8 b9 b10 b11 b12 b13 b14 b15 b16 b17 b18 b19 b20 b21 b22 b23 b24 b25 b26 b27 b28 b29 b30 b31 : ℤ) :
    mk32 b0 b1 b2 b3 b4 b5 b6 b7 b8 b9 b10 b11 b12 b13 b14 b15 b16 b17 b18 b19 b20 b21 b22 b23 b24 b25 b26 b27 b28 b29 b30 b31 6 = b6 := rfl

theorem mk32_7 (b0 b1 b2 b3 b4 b5 b6 b7 b8 b9 b10 b11 b12 b13 b14 b15 b16 b17 b18 b19 b20 b21 b22 b23 b24 b25 b26 b27 b28 b29 b30 b31 : ℤ) :
    mk32 b0 b1 b2 b3 b4 b5 b6 b7 b8 b9 b10 b11 b12 b13 b14 b15 b16 b17 b18 b19 b20 b21 b22 b23 b24 b25 b26 b27 b28 b29 b30 b31 7 = b7 := rfl

theorem mk32_8 (b0 b1 b2 b3 b4 b5 b6 b7 b8 b9 b10 b11 b12 b13 b14 b15 b16 b17 b18 b19 b20 b21 b22 b23 b24 b25 b26 b27 b28 b29 b30 b31 : ℤ) :
    mk32 b0 b1 b2 b3 b4 b5 b6 b7 b8 b9 b10 b11 b12 b13 b14 b15 b16 b17 b18 b19 b20 b21 b22 b23 b24 b25 b26 b27 b28 b29 b30 b31 8 = b8 := rfl

theorem mk32_9 (b0 b1 b2 b3 b4 b5 b6 b7 b8 b9 b10 b11 b12 b13 b14 b15 b16 b17 b18 b19 b20 b21 b22 b23 b24 b25 b26 b27 b28 b29 b30 b31 : ℤ) :
    mk32 b0 b1 b2 b3 b4 b5 b6 b7 b8 b9 b10 b11 b12 b13 b14 b15 b16 b17 b18 b19 b20 b21 b22 b23 b24 b25 b26 b27 b28 b29 b30 b31 9 = b9 := rfl

theorem mk32_10 (b0 b1 b2 b3 b4 b5 b6 b7 b8 b9 b10 b11 b12 b13 b14 b15 b16 b17 b18 b19 b20 b21 b22 b23 b24 b25 b26 b27 b28 b29 b30 b31 : ℤ) :
    mk32 b0 b1 b2 b3 b4 b5 b6 b7 b8 b9 b10 b11 b12 b13 b14 b15 b16 b17 b18 b19 b20 b21 b22 b23 b24 b25 b26 b27 b28 b29 b30 b31 10 = b10 := rfl

theorem mk32_11 (b0 b1 b2 b3 b4 b5 b6 b7 b8 b9 b10 b11 b12 b13 b14 b15 b16 b17 b18 b19 b20 b21 b22 b23 b24 b25 b26 b27 b28 b29 b30 b31 : ℤ) :
    mk32 b0 b1 b2 b3 b4 b5 b6 b7 b8 b9 b10 b11 b12 b13 b14 b15 b16 b17 b18 b19 b20 b21 b22 b23 b24 b25 b26 b27 b28 b29 b30 b31 11 = b11 := rfl

theorem mk32_12 (b0 b1 b2 b3 b4 b5 b6 b7 b8 b9 b10 b11 b12 b13 b14 b15 b16 b17 b18 b19 b20 b21 b22 b23 b24 b25 b26 b27 b28 b29 b30 b31 : ℤ) :
    mk32 b0 b1 b2 b3 b4 b5 b6 b7 b8 b9 b10 b11 b12 b13 b14 b15 b16 b17 b18 b19 b20 b21 b22 b23 b24 b25 b26 b27 b28 b29 b30 b31 12 = b12 := rfl

theorem mk32_13 (b0 b1 b2 b3 b4 b5 b6 b7 b8 b9 b10 b11 b12 b13 b14 b15 b16 b17 b18 b19 b20 b21 b22 b23 b24 b25 b26 b27 b28 b29 b30 b31 : ℤ) :
    mk32 b0 b1 b2 b3 b4 b5 b6 b7 b8 b9 b10 b11 b12 b13 b14 b15 b16 b17 b18 b19 b20 b21 b22 b23 b24 b25 b26 b27 b28 b29 b30 b31 13 = b13 := rfl

theorem mk32_14 (b0 b1 b2 b3 b4 b5 b6 b7 b8 b9 b10 b11 b12 b13 b14 b15 b16 b17 b18 b19 b20 b21 b22 b23 b24 b25 b26 b27 b28 b29 b30 b31 : ℤ) :
    mk32 b0 b1 b2 b3 b4 b5 b6 b7 b8 b9 b10 b11 b12 b13 b14 b15 b16 b17 b18 b19 b20 b21 b22 b23 b24 b25 b26 b27 b28 b29 b30 b31 14 = b14 := rfl

theorem mk32_15 (b0 b1 b2 b3 b4 b5 b6 b7 b8 b9 b10 b11 b12 b13 b14 b15 b16 b17 b18 b19 b20 b21 b22 b23 b24 b25 b26 b27 b28 b29 b30 b31 : ℤ) :
    mk32 b0 b1 b2 b3 b4 b5 b6 b7 b8 b9 b10 b11 b12 b13 b14 b15 b16 b17 b18 b19 b20 b21 b22 b23 b24 b25 b26 b27 b28 b29 b30 b31 15 = b15 := rfl

theorem mk32_16 (b0 b1 b2 b3 b4 b5 b6 b7 b8 b9 b10 b11 b12 b13 b14 b15 b16 b17 b18 b19 b20 b21 b22 b23 b24 b25 b26 b27 b28 b29 b30 b31 : ℤ) :
    mk32 b0 b1 b2 b3 b4 b5 b6 b7 b8 b9 b10 b11 b12 b13 b14 b15 b16 b17 b18 b19 b20 b21 b22 b23 b24 b25 b26 b27 b28 b29 b30 b31 16 = b16 := rfl

theorem mk32_17 (b0 b1 b2 b3 b4 b5 b6 b7 b8 b9 b10 b11 b12 b13 b14 b15 b16 b17 b18 b19 b20 b21 b22 b23 b24 b25 b26 b27 b28 b29 b30 b31 : ℤ) :
    mk32 b0 b1 b2 b3 b4 b5 b6 b7 b8 b9 b10 b11 b12 b13 b14 b15 b16 b17 b18 b19 b20 b21 b22 b23 b24 b25 b26 b27 b28 b29 b30 b31 17 = b17 := rfl

theorem mk32_18 (b0 b1 b2 b3 b4 b5 b6 b7 b8 b9 b10 b11 b12 b13 b14 b15 b16 b17 b18 b19 b20 b21 b22 b23 b24 b25 b26 b27 b28 b29 b30 b31 : ℤ) :
    mk32 b0 b1 b2 b3 b4 b5 b6 b7 b8 b9 b10 b11 b12 b13 b14 b15 b16 b17 b18 b19 b20 b21 b22 b23 b24 b25 b26 b27 b28 b29 b30 b31 18 = b18 := rfl

theorem mk32_19 (b0 b1 b2 b3 b4 b5 b6 b7 b8 b9 b10 b11 b12 b13 b14 b15 b16 b17 b18 b19 b20 b21 b22 b23 b24 b25 b26 b27 b28 b29 b30 b31 : ℤ) :
    mk32 b0 b1 b2 b3 b4 b5 b6 b7 b8 b9 b10 b11 b12 b13 b14 b15 b16 b17 b18 b19 b20 b21 b22 b23 b24 b25 b26 b27 b28 b29 b30 b31 19 = b19 := rfl

theorem mk32_20 (b0 b1 b2 b3 b4 b5 b6 b7 b8 b9 b10 b11 b12 b13 b14 b15 b16 b17 b18 b19 b20 b21 b22 b23 b24 b25 b26 b27 b28 b29 b30 b31 : ℤ) :
    mk32 b0 b1 b2 b3 b4 b5 b6 b7 b8 b9 b10 b11 b12 b13 b14 b15 b16 b17 b18 b19 b20 b21 b22 b23 b24 b25 b26 b27 b28 b29 b30 b31 20 = b20 := rfl

theorem mk32_21 (b0 b1 b2 b3 b4 b5 b6 b7 b8 b9 b10 b11 b12 b13 b14 b15 b16 b17 b18 b19 b20 b21 b22 b23 b24 b25 b26 b27 b28 b29 b30 b31 : ℤ) :
    mk32 b0 b1 b2 b3 b4 b5 b6 b7 b8 b9 b10 b11 b12 b13 b14 b15 b16 b17 b18 b19 b20 b21 b22 b23 b24 b25 b26 b27 b28 b29 b30 b31 21 = b21 := rfl

theorem mk32_22 (b0 b1 b2 b3 b4 b5 b6 b7 b8 b9 b10 b11 b12 b13 b14 b15 b16 b17 b18 b19 b20 b21 b22 b23 b24 b25 b26 b27 b28 b29 b30 b31 : ℤ) :
    mk32 b0 b1 b2 b3 b4 b5 b6 b7 b8 b9 b10 b11 b12 b13 b14 b15 b16 b17 b18 b19 b20 b21 b22 b23 b24 b25 b26 b27 b28 b29 b30 b31 22 = b22 := rfl

theorem mk32_23 (b0 b1 b2 b3 b4 b5 b6 b7 b8 b9 b10 b11 b12 b13 b14 b15 b16 b17 b18 b19 b20 b21 b22 b23 b24 b25 b26 b27 b28 b29 b30 b31 : ℤ) :
    mk32 b0 b1 b2 b3 b4 b5 b6 b7 b8 b9 b10 b11 b12 b13 b14 b15 b16 b17 b18 b19 b20 b21 b22 b23 b24 b25 b26 b27 b28 b29 b30 b31 23 = b23 := rfl

theorem mk32_24 (b0 b1 b2 b3 b4 b5 b6 b7 b8 b9 b10 b11 b12 b13 b14 b15 b16 b17 b18 b19 b20 b21 b22 b23 b24 b25 b26 b27 b28 b29 b30 b31 : ℤ) :
    mk32 b0 b1 b2 b3 b4 b5 b6 b7 b8 b9 b10 b11 b12 b13 b14 b15 b16 b17 b18 b19 b20 b21 b22 b23 b24 b25 b26 b27 b28 b29 b30 b31 24 = b24 := rfl

theorem mk32_25 (b0 b1 b2 b3 b4 b5 b6 b7 b8 b9 b10 b11 b12 b13 b14 b15 b16 b17 b18 b19 b20 b21 b22 b23 b24 b25 b26 b27 b28 b29 b30 b31 : ℤ) :
    mk32 b0 b1 b2 b3 b4 b5 b6 b7 b8 b9 b10 b11 b12 b13 b14 b15 b16 b17 b18 b19 b20 b21 b22 b23 b24 b25 b26 b27 b28 b29 b30 b31 25 = b25 := rfl

theorem mk32_26 (b0 b1 b2 b3 b4 b5 b6 b7 b8 b9 b10 b11 b12 b13 b14 b15 b16 b17 b18 b19 b20 b21 b22 b23 b24 b25 b26 b27 b28 b29 b30 b31 : ℤ) :
    mk32 b0 b1 b2 b3 b4 b5 b6 b7 b8 b9 b10 b11 b12 b13 b14 b15 b16 b17 b18 b19 b20 b21 b22 b23 b24 b25 b26 b27 b28 b29 b30 b31 26 = b26 := rfl

theorem mk32_27 (b0 b1 b2 b3 b4 b5 b6 b7 b8 b9 b10 b11 b12 b13 b14 b15 b16 b17 b18 b19 b20 b21 b22 b23 b24 b25 b26 b27 b28 b29 b30 b31 : ℤ) :
    mk32 b0 b1 b2 b3 b4 b5 b6 b7 b8 b9 b10 b11 b12 b13 b14 b15 b16 b17 b18 b19 b20 b21 b22 b23 b24 b25 b26 b27 b28 b29 b30 b31 27 = b27 := rfl

theorem mk32_28 (b0 b1 b2 b3 b4 b5 b6 b7 b8 b9 b10 b11 b12 b13 b14 b15 b16 b17 b18 b19 b20 b21 b22 b23 b24 b25 b26 b27 b28 b29 b30 b31 : ℤ) :
    mk32 b0 b1 b2 b3 b4 b5 b6 b7 b8 b9 b10 b11 b12 b13 b14 b15 b16 b17 b18 b19 b20 b21 b22 b23 b24 b25 b26 b27 b28 b29 b30 b31 28 = b28 := rfl

theorem mk32_29 (b0 b1 b2 b3 b4 b5 b6 b7 b8 b9 b10 b11 b12 b13 b14 b15 b16 b17 b18 b19 b20 b21 b22 b23 b24 b25 b26 b27 b28 b29 b30 b31 : ℤ) :
    mk32 b0 b1 b2 b3 b4 b5 b6 b7 b8 b9 b10 b11 b12 b13 b14 b15 b16 b17 b18 b19 b20 b21 b22 b23 b24 b25 b26 b27 b28 b29 b30 b31 29 = b29 := rfl

theorem mk32_30 (b0 b1 b2 b3 b4 b5 b6 b7 b8 b9 b10 b11 b12 b13 b14 b15 b16 b17 b18 b19 b20 b21 b22 b23 b24 b25 b26 b27 b28 b29 b30 b31 : ℤ) :
    mk32 b0 b1 b2 b3 b4 b5 b6 b7 b8 b9 b10 b11 b12 b13 b14 b15 b16 b17 b18 b19 b20 b21 b22 b23 b24 b25 b26 b27 b28 b29 b30 b31 30 = b30 := rfl

theorem mk32_31 (b0 b1 b2 b3 b4 b5 b6 b7 b8 b9 b10 b11 b12 b13 b14 b15 b16 b17 b18 b19 b20 b21 b22 b23 b24 b25 b26 b27 b28 b29 b30 b31 : ℤ) :
    mk32 b0 b1 b2 b3 b4 b5 b6 b7 b8 b9 b10 b11 b12 b13 b14 b15 b16 b17 b18 b19 b20 b21 b22 b23 b24 b25 b26 b27 b28 b29 b30 b31 31 = b31 := rfl

/-- The integer represented by a 16-limb element in base-2^16 positional
notation: value = Σ limb i · 2^(16 i). -/
def val (f : F) : ℤ :=
  f 0 + f 1 * 2 ^ 16 + f 2 * 2 ^ 32 + f 3 * 2 ^ 48 + f 4 * 2 ^ 64 +
    f 5 * 2 ^ 80 + f 6 * 2 ^ 96 + f 7 * 2 ^ 112 + f 8 * 2 ^ 128 +
    f 9 * 2 ^ 144 + f 10 * 2 ^ 160 + f 11 * 2 ^ 176 + f 12 * 2 ^ 192 +
    f 13 * 2 ^ 208 + f 14 * 2 ^ 224 + f 15 * 2 ^ 240

/-- The integer represented by a 32-byte array, read little-endian. -/
def bval (b : Bytes) : ℤ :=
  b 0 + b 1 * 2 ^ 8 + b 2 * 2 ^ 16 + b 3 * 2 ^ 24 + b 4 * 2 ^ 32 +
    b 5 * 2 ^ 40 + b 6 * 2 ^ 48 + b 7 * 2 ^ 56 + b 8 * 2 ^ 64 +
    b 9 * 2 ^ 72 + b 10 * 2 ^ 80 + b 11 * 2 ^ 88 + b 12 * 2 ^ 96 +
    b 13 * 2 ^ 104 + b 14 * 2 ^ 112 + b 15 * 2 ^ 120 + b 16 * 2 ^ 128 +
    b 17 * 2 ^ 136 + b 18 * 2 ^ 144 + b 19 * 2 ^ 152 + b 20 * 2 ^ 160 +
    b 21 * 2 ^ 168 + b 22 * 2 ^ 176 + b 23 * 2 ^ 184 + b 24 * 2 ^ 192 +
    b 25 * 2 ^ 200 + b 26 * 2 ^ 208 + b 27 * 2 ^ 216 + b 28 * 2 ^ 224 +
    b 29 * 2 ^ 232 + b 30 * 2 ^ 240 + b 31 * 2 ^ 248

/-- All entries of a byte array are genuine byte values. -/
def IsBytes (b : Bytes) : Prop := ∀ i : Fin 32, 0 ≤ b i ∧ b i < 256

instance decIsBytes (b : Bytes) : Decidable (IsBytes b) :=
  inferInstanceAs (Decidable (∀ i : Fin 32, 0 ≤ b i ∧ b i < 256))

/-! ### Bridge lemmas: two's-complement shifts and masks as `/`, `*`, `%`. -/

theorem shiftRight_eq_ediv (x : ℤ) (n : ℕ) : x >>> (n : ℤ) = x / 2 ^ n := by
  rcases x with m | m
  · rw [Int.ofNat_eq_natCast, Int.shiftRight_coe_nat, Nat.shiftRight_eq_div_pow]
    push_cast
    rfl
  · rw [Int.shiftRight_negSucc, Nat.shiftRight_eq_div_pow,
      Int.negSucc_ediv _ (by positivity)]
    have h2 : ((2 : ℤ) ^ n) = ((2 ^ n : ℕ) : ℤ) := by push_cast; rfl
    rw [h2]
    rw [show Int.ediv (m : ℤ) ((2 ^ n : ℕ) : ℤ) = ((m / 2 ^ n : ℕ) : ℤ) from rfl]
    simp [Int.negSucc_eq]

theorem shiftLeft_eq_mul (x : ℤ) (n : ℕ) : x <<< (n : ℤ) = x * 2 ^ n := by
  rw [Int.shiftLeft_eq_mul_pow]
  push_cast
  rfl

theorem land_zero_right (x : ℤ) : Int.land x 0 = 0 := by
  rcases x with m | m
  · show ((m &&& 0 : ℕ) : ℤ) = 0
    simp
  · show ((Nat.ldiff 0 m : ℕ) : ℤ) = 0
    have h : Nat.ldiff 0 m = 0 := by
      unfold Nat.ldiff
      unfold Nat.bitwise
      simp
    simp [h]

theorem two_in_emod (k : ℕ) (x : ℤ) (c : ℤ) (hc : 0 ≤ c ∧ c < 2) :
    (2 * x + c) % (2 * 2 ^ k) = 2 * (x % 2 ^ k) + c := by
  have hpos : (0 : ℤ) < 2 ^ k := by positivity
  have hmod := Int.emod_nonneg x (by positivity : (2 : ℤ) ^ k ≠ 0)
  have hmodlt := Int.emod_lt_of_pos x hpos
  have hdecomp := Int.ediv_add_emod x (2 ^ k)
  have hsplit : 2 * x + c = (2 * (x % 2 ^ k) + c) + (2 * 2 ^ k) * (x / 2 ^ k) := by
    linear_combination 2 * hdecomp.symm
  rw [hsplit, Int.add_mul_emod_self_left]
  exact Int.emod_eq_of_lt (by omega) (by omega)

theorem land_mask (k : ℕ) (x : ℤ) : Int.land x (2 ^ k - 1) = x % 2 ^ k := by
  induction k generalizing x with
  | zero => simpa using land_zero_right x
  | succ k ih =>
    induction x using Int.bitCasesOn with
    | h b x =>
      have hmask : (2 ^ (k + 1) - 1 : ℤ) = Int.bit true (2 ^ k - 1) := by
        rw [Int.bit_val]
        simp [cond]
        ring
      rw [hmask, Int.land_bit, ih]
      rw [Int.bit_val, Int.bit_val]
      have h2 : (2 : ℤ) ^ (k + 1) = 2 * 2 ^ k := by ring
      rw [h2]
      rcases b with _ | _ <;>
        simp only [Bool.and_true, Bool.and_false, cond_false, cond_true] <;>
        rw [two_in_emod k x _ (by norm_num)]

theorem land_mask_ffff (x : ℤ) : Int.land x 0xffff = x % 65536 := land_mask 16 x

theorem land_mask_one (x : ℤ) : Int.land x 1 = x % 2 := land_mask 1 x

theorem land_mask_ff (x : ℤ) : Int.land x 0xff = x % 256 := land_mask 8 x

theorem land_mask_7fff (x : ℤ) : Int.land x 0x7fff = x % 32768 := land_mask 15 x

theorem land_neg_one (z : ℤ) : Int.land (-1) z = z := by
  rcases z with n | n
  · show ((Nat.ldiff n 0 : ℕ) : ℤ) = Int.ofNat n
    congr 1
    apply Nat.eq_of_testBit_eq
    intro i
    simp [Nat.testBit_ldiff]
  · show Int.negSucc (0 ||| n) = Int.negSucc n
    simp

theorem xor_zero_right (x : ℤ) : Int.xor x 0 = x := by
  rcases x with m | m
  · show ((m ^^^ 0 : ℕ) : ℤ) = Int.ofNat m
    simp
  · show Int.negSucc (m ^^^ 0) = Int.negSucc m
    simp

theorem xor_cancel_left_int (x y : ℤ) : Int.xor x (Int.xor x y) = y := by
  rcases x with m | m <;> rcases y with n | n <;>
    simp only [Int.xor] <;> simp [Nat.xor_cancel_left]

theorem xor_comm_int (x y : ℤ) : Int.xor x y = Int.xor y x := by
  rcases x with m | m <;> rcases y with n | n <;>
    simp only [Int.xor] <;> simp [Nat.xor_comm]

/-! ### The operations of `lib.rs`. -/

/-- Embedding of `FieldElement::<i64,16>::swap` (lib.rs lines 109-116): the
branchless conditional swap.  `c = !(b - 1)` is all-ones when `b = 1` and zero
when `b = 0`; each limb pair is blended through `t = c & (p[i] ^ q[i])`. -/
def swap (f g : F) (b : ℤ) : F × F :=
  let c := Int.lnot (b - 1)
  (fun i => Int.xor (f i) (Int.land c (Int.xor (f i) (g i))),
   fun i => Int.xor (g i) (Int.land c (Int.xor (f i) (g i))))

/-- Embedding of `FieldElement::<u8,32>::unpack` (lib.rs lines 30-37): limb i is
byte 2i+1 shifted left by 8 plus byte 2i; limb 15 is masked with 0x7fff. -/
def unpack (b : Bytes) : F :=
  mk16
    (b 1 <<< (8:ℤ) + b 0)
    (b 3 <<< (8:ℤ) + b 2)
    (b 5 <<< (8:ℤ) + b 4)
    (b 7 <<< (8:ℤ) + b 6)
    (b 9 <<< (8:ℤ) + b 8)
    (b 11 <<< (8:ℤ) + b 10)
    (b 13 <<< (8:ℤ) + b 12)
    (b 15 <<< (8:ℤ) + b 14)
    (b 17 <<< (8:ℤ) + b 16)
    (b 19 <<< (8:ℤ) + b 18)
    (b 21 <<< (8:ℤ) + b 20)
    (b 23 <<< (8:ℤ) + b 22)
    (b 25 <<< (8:ℤ) + b 24)
    (b 27 <<< (8:ℤ) + b 26)
    (b 29 <<< (8:ℤ) + b 28)
    (Int.land (b 31 <<< (8:ℤ) + b 30) 0x7fff)

/-- Embedding of `FieldElement::<i64,16>::carry` (lib.rs lines 123-135): one
left-to-right ripple pass; the final carry is folded back into limb 0 scaled by 38. -/
def carry (f : F) : F :=
  let c0 := f 0 >>> (16:ℤ)
  let a0 := f 0 - c0 <<< (16:ℤ)
  let x1 := f 1 + c0
  let c1 := x1 >>> (16:ℤ)
  let a1 := x1 - c1 <<< (16:ℤ)
  let x2 := f 2 + c1
  let c2 := x2 >>> (16:ℤ)
  let a2 := x2 - c2 <<< (16:ℤ)
  let x3 := f 3 + c2
  let c3 := x3 >>> (16:ℤ)
  let a3 := x3 - c3 <<< (16:ℤ)
  let x4 := f 4 + c3
  let c4 := x4 >>> (16:ℤ)
  let a4 := x4 - c4 <<< (16:ℤ)
  let x5 := f 5 + c4
  let c5 := x5 >>> (16:ℤ)
  let a5 := x5 - c5 <<< (16:ℤ)
  let x6 := f 6 + c5
  let c6 := x6 >>> (16:ℤ)
  let a6 := x6 - c6 <<< (16:ℤ)
  let x7 := f 7 + c6
  let c7 := x7 >>> (16:ℤ)
  let a7 := x7 - c7 <<< (16:ℤ)
  let x8 := f 8 + c7
  let c8 := x8 >>> (16:ℤ)
  let a8 := x8 - c8 <<< (16:ℤ)
  let x9 := f 9 + c8
  let c9 := x9 >>> (16:ℤ)
  let a9 := x9 - c9 <<< (16:ℤ)
  let x10 := f 10 + c9
  let c10 := x10 >>> (16:ℤ)
  let a10 := x10 - c10 <<< (16:ℤ)
  let x11 := f 11 + c10
  let c11 := x11 >>> (16:ℤ)
  let a11 := x11 - c11 <<< (16:ℤ)
  let x12 := f 12 + c11
  let c12 := x12 >>> (16:ℤ)
  let a12 := x12 - c12 <<< (16:ℤ)
  let x13 := f 13 + c12
  let c13 := x13 >>> (16:ℤ)
  let a13 := x13 - c13 <<< (16:ℤ)
  let x14 := f 14 + c13
  let c14 := x14 >>> (16:ℤ)
  let a14 := x14 - c14 <<< (16:ℤ)
  let x15 := f 15 + c14
  let c15 := x15 >>> (16:ℤ)
  let a15 := x15 - c15 <<< (16:ℤ)
  mk16 (a0 + 38 * c15) a1 a2 a3 a4 a5 a6 a7 a8 a9 a10 a11 a12 a13 a14 a15

/-- The convolution and fold-back part of `mul` (lib.rs lines 60-73): schoolbook
product `product[i+j] += a[i]*b[j]`, fold-back `product[i] += 38*product[i+16]`
for i < 15, then truncation to the low 16 limbs. -/
def mulFold (a b : F) : F :=
  let p0 := a 0 * b 0
  let p1 := a 0 * b 1 + a 1 * b 0
  let p2 := a 0 * b 2 + a 1 * b 1 + a 2 * b 0
  let p3 := a 0 * b 3 + a 1 * b 2 + a 2 * b 1 + a 3 * b 0
  let p4 := a 0 * b 4 + a 1 * b 3 + a 2 * b 2 + a 3 * b 1 + a 4 * b 0
  let p5 := a 0 * b 5 + a 1 * b 4 + a 2 * b 3 + a 3 * b 2 + a 4 * b 1 + a 5 * b 0
  let p6 := a 0 * b 6 + a 1 * b 5 + a 2 * b 4 + a 3 * b 3 + a 4 * b 2 + a 5 * b 1 + a 6 * b 0
  let p7 := a 0 * b 7 + a 1 * b 6 + a 2 * b 5 + a 3 * b 4 + a 4 * b 3 + a 5 * b 2 + a 6 * b 1 + a 7 * b 0
  let p8 := a 0 * b 8 + a 1 * b 7 + a 2 * b 6 + a 3 * b 5 + a 4 * b 4 + a 5 * b 3 + a 6 * b 2 + a 7 * b 1 + a 8 * b 0
  let p9 := a 0 * b 9 + a 1 * b 8 + a 2 * b 7 + a 3 * b 6 + a 4 * b 5 + a 5 * b 4 + a 6 * b 3 + a 7 * b 2 + a 8 * b 1 + a 9 * b 0
  let p10 := a 0 * b 10 + a 1 * b 9 + a 2 * b 8 + a 3 * b 7 + a 4 * b 6 + a 5 * b 5 + a 6 * b 4 + a 7 * b 3 + a 8 * b 2 + a 9 * b 1 + a 10 * b 0
  let p11 := a 0 * b 11 + a 1 * b 10 + a 2 * b 9 + a 3 * b 8 + a 4 * b 7 + a 5 * b 6 + a 6 * b 5 + a 7 * b 4 + a 8 * b 3 + a 9 * b 2 + a 10 * b 1 + a 11 * b 0
  let p12 := a 0 * b 12 + a 1 * b 11 + a 2 * b 10 + a 3 * b 9 + a 4 * b 8 + a 5 * b 7 + a 6 * b 6 + a 7 * b 5 + a 8 * b 4 + a 9 * b 3 + a 10 * b 2 + a 11 * b 1 + a 12 * b 0
  let p13 := a 0 * b 13 + a 1 * b 12 + a 2 * b 11 + a 3 * b 10 + a 4 * b 9 + a 5 * b 8 + a 6 * b 7 + a 7 * b 6 + a 8 * b 5 + a 9 * b 4 + a 10 * b 3 + a 11 * b 2 + a 12 * b 1 + a 13 * b 0
  let p14 := a 0 * b 14 + a 1 * b 13 + a 2 * b 12 + a 3 * b 11 + a 4 * b 10 + a 5 * b 9 + a 6 * b 8 + a 7 * b 7 + a 8 * b 6 + a 9 * b 5 + a 10 * b 4 + a 11 * b 3 + a 12 * b 2 + a 13 * b 1 + a 14 * b 0
  let p15 := a 0 * b 15 + a 1 * b 14 + a 2 * b 13 + a 3 * b 12 + a 4 * b 11 + a 5 * b 10 + a 6 * b 9 + a 7 * b 8 + a 8 * b 7 + a 9 * b 6 + a 10 * b 5 + a 11 * b 4 + a 12 * b 3 + a 13 * b 2 + a 14 * b 1 + a 15 * b 0
  let p16 := a 1 * b 15 + a 2 * b 14 + a 3 * b 13 + a 4 * b 12 + a 5 * b 11 + a 6 * b 10 + a 7 * b 9 + a 8 * b 8 + a 9 * b 7 + a 10 * b 6 + a 11 * b 5 + a 12 * b 4 + a 13 * b 3 + a 14 * b 2 + a 15 * b 1
  let p17 := a 2 * b 15 + a 3 * b 14 + a 4 * b 13 + a 5 * b 12 + a 6 * b 11 + a 7 * b 10 + a 8 * b 9 + a 9 * b 8 + a 10 * b 7 + a 11 * b 6 + a 12 * b 5 + a 13 * b 4 + a 14 * b 3 + a 15 * b 2
  let p18 := a 3 * b 15 + a 4 * b 14 + a 5 * b 13 + a 6 * b 12 + a 7 * b 11 + a 8 * b 10 + a 9 * b 9 + a 10 * b 8 + a 11 * b 7 + a 12 * b 6 + a 13 * b 5 + a 14 * b 4 + a 15 * b 3
  let p19 := a 4 * b 15 + a 5 * b 14 + a 6 * b 13 + a 7 * b 12 + a 8 * b 11 + a 9 * b 10 + a 10 * b 9 + a 11 * b 8 + a 12 * b 7 + a 13 * b 6 + a 14 * b 5 + a 15 * b 4
  let p20 := a 5 * b 15 + a 6 * b 14 + a 7 * b 13 + a 8 * b 12 + a 9 * b 11 + a 10 * b 10 + a 11 * b 9 + a 12 * b 8 + a 13 * b 7 + a 14 * b 6 + a 15 * b 5
  let p21 := a 6 * b 15 + a 7 * b 14 + a 8 * b 13 + a 9 * b 12 + a 10 * b 11 + a 11 * b 10 + a 12 * b 9 + a 13 * b 8 + a 14 * b 7 + a 15 * b 6
  let p22 := a 7 * b 15 + a 8 * b 14 + a 9 * b 13 + a 10 * b 12 + a 11 * b 11 + a 12 * b 10 + a 13 * b 9 + a 14 * b 8 + a 15 * b 7
  let p23 := a 8 * b 15 + a 9 * b 14 + a 10 * b 13 + a 11 * b 12 + a 12 * b 11 + a 13 * b 10 + a 14 * b 9 + a 15 * b 8
  let p24 := a 9 * b 15 + a 10 * b 14 + a 11 * b 13 + a 12 * b 12 + a 13 * b 11 + a 14 * b 10 + a 15 * b 9
  let p25 := a 10 * b 15 + a 11 * b 14 + a 12 * b 13 + a 13 * b 12 + a 14 * b 11 + a 15 * b 10
  let p26 := a 11 * b 15 + a 12 * b 14 + a 13 * b 13 + a 14 * b 12 + a 15 * b 11
  let p27 := a 12 * b 15 + a 13 * b 14 + a 14 * b 13 + a 15 * b 12
  let p28 := a 13 * b 15 + a 14 * b 14 + a 15 * b 13
  let p29 := a 14 * b 15 + a 15 * b 14
  let p30 := a 15 * b 15
  mk16 (p0 + 38 * p16) (p1 + 38 * p17) (p2 + 38 * p18) (p3 + 38 * p19) (p4 + 38 * p20) (p5 + 38 * p21) (p6 + 38 * p22) (p7 + 38 * p23) (p8 + 38 * p24) (p9 + 38 * p25) (p10 + 38 * p26) (p11 + 38 * p27) (p12 + 38 * p28) (p13 + 38 * p29) (p14 + 38 * p30) p15

/-- Embedding of `FieldElement::<i64,16>::mul` (lib.rs lines 59-78): the
convolution with fold-back, then two carry passes. -/
def mul (a b : F) : F := carry (carry (mulFold a b))

/-- The borrow-propagating subtraction of p inside one `pack` round (lib.rs
lines 146-159): returns the candidate limbs `temp` (limbs 0..14 masked to 16
bits, limb 15 unmasked) together with the final borrow bit `carry`. -/
def packRoundSub (f : F) : F × ℤ :=
  let t0 := f 0 - 0xffed
  let t1 := f 1 - 0xffff - Int.land (t0 >>> (16:ℤ)) 1
  let m0 := Int.land t0 0xffff
  let t2 := f 2 - 0xffff - Int.land (t1 >>> (16:ℤ)) 1
  let m1 := Int.land t1 0xffff
  let t3 := f 3 - 0xffff - Int.land (t2 >>> (16:ℤ)) 1
  let m2 := Int.land t2 0xffff
  let t4 := f 4 - 0xffff - Int.land (t3 >>> (16:ℤ)) 1
  let m3 := Int.land t3 0xffff
  let t5 := f 5 - 0xffff - Int.land (t4 >>> (16:ℤ)) 1
  let m4 := Int.land t4 0xffff
  let t6 := f 6 - 0xffff - Int.land (t5 >>> (16:ℤ)) 1
  let m5 := Int.land t5 0xffff
  let t7 := f 7 - 0xffff - Int.land (t6 >>> (16:ℤ)) 1
  let m6 := Int.land t6 0xffff
  let t8 := f 8 - 0xffff - Int.land (t7 >>> (16:ℤ)) 1
  let m7 := Int.land t7 0xffff
  let t9 := f 9 - 0xffff - Int.land (t8 >>> (16:ℤ)) 1
  let m8 := Int.land t8 0xffff
  let t10 := f 10 - 0xffff - Int.land (t9 >>> (16:ℤ)) 1
  let m9 := Int.land t9 0xffff
  let t11 := f 11 - 0xffff - Int.land (t10 >>> (16:ℤ)) 1
  let m10 := Int.land t10 0xffff
  let t12 := f 12 - 0xffff - Int.land (t11 >>> (16:ℤ)) 1
  let m11 := Int.land t11 0xffff
  let t13 := f 13 - 0xffff - Int.land (t12 >>> (16:ℤ)) 1
  let m12 := Int.land t12 0xffff
  let t14 := f 14 - 0xffff - Int.land (t13 >>> (16:ℤ)) 1
  let m13 := Int.land t13 0xffff
  let t15 := f 15 - 0x7fff - Int.land (t14 >>> (16:ℤ)) 1
  let cb := Int.land (t15 >>> (16:ℤ)) 1
  let m14 := Int.land t14 0xffff
  (mk16 m0 m1 m2 m3 m4 m5 m6 m7 m8 m9 m10 m11 m12 m13 m14 t15, cb)

/-- One round of the conditional subtraction of p inside `pack` (lib.rs lines
143-161): keep the subtracted candidate exactly when no final borrow occurred,
via the branchless swap keyed on `1 - carry`. -/
def packRound (f : F) : F :=
  (swap f (packRoundSub f).1 (1 - (packRoundSub f).2)).1

/-- The serialization step at the end of `pack` (lib.rs lines 163-168): each
limb becomes two little-endian bytes; the `as u8` casts keep the low 8 bits. -/
def serialize (h : F) : Bytes :=
  mk32
    (Int.land (h 0) 0xff) (Int.land (h 0 >>> (8:ℤ)) 0xff)
    (Int.land (h 1) 0xff) (Int.land (h 1 >>> (8:ℤ)) 0xff)
    (Int.land (h 2) 0xff) (Int.land (h 2 >>> (8:ℤ)) 0xff)
    (Int.land (h 3) 0xff) (Int.land (h 3 >>> (8:ℤ)) 0xff)
    (Int.land (h 4) 0xff) (Int.land (h 4 >>> (8:ℤ)) 0xff)
    (Int.land (h 5) 0xff) (Int.land (h 5 >>> (8:ℤ)) 0xff)
    (Int.land (h 6) 0xff) (Int.land (h 6 >>> (8:ℤ)) 0xff)
    (Int.land (h 7) 0xff) (Int.land (h 7 >>> (8:ℤ)) 0xff)
    (Int.land (h 8) 0xff) (Int.land (h 8 >>> (8:ℤ)) 0xff)
    (Int.land (h 9) 0xff) (Int.land (h 9 >>> (8:ℤ)) 0xff)
    (Int.land (h 10) 0xff) (Int.land (h 10 >>> (8:ℤ)) 0xff)
    (Int.land (h 11) 0xff) (Int.land (h 11 >>> (8:ℤ)) 0xff)
    (Int.land (h 12) 0xff) (Int.land (h 12 >>> (8:ℤ)) 0xff)
    (Int.land (h 13) 0xff) (Int.land (h 13 >>> (8:ℤ)) 0xff)
    (Int.land (h 14) 0xff) (Int.land (h 14 >>> (8:ℤ)) 0xff)
    (Int.land (h 15) 0xff) (Int.land (h 15 >>> (8:ℤ)) 0xff)

/-- Embedding of `FieldElement::<i64,16>::pack` (lib.rs lines 137-169): three
carry passes, two conditional-subtraction rounds, then serialization. -/
def pack (f : F) : Bytes :=
  serialize (packRound (packRound (carry (carry (carry f)))))

/-- Embedding of the loop body of `inverse` (lib.rs lines 97-102) at loop
index `i`: square the accumulator, and multiply by the original input unless
`i` is 2 or 4. -/
def inverseStep (a : F) (i : ℕ) (r : F) : F :=
  let s := mul r r
  if i ≠ 2 ∧ i ≠ 4 then mul s a else s

/-- The `for i in (0..=253).rev()` loop of `inverse`: `inverseLoop a n r` runs
the body for i = n-1, n-2, ..., 0 starting from accumulator `r`. -/
def inverseLoop (a : F) : ℕ → F → F
  | 0, r => r
  | n + 1, r => inverseLoop a n (inverseStep a n r)

/-- Embedding of `FieldElement::<i64,16>::inverse` (lib.rs lines 95-105):
square-and-multiply for the exponent p - 2 = 2^255 - 21, with the accumulator
initialised to the input itself. -/
def inverse (a : F) : F := inverseLoop a 254 a

/-! ### Characterisation of the branchless swap, and numeral bridge lemmas. -/

theorem land_zero_left (z : ℤ) : Int.land 0 z = 0 := by
  rcases z with n | n
  · show ((0 &&& n : ℕ) : ℤ) = 0
    simp
  · show ((Nat.ldiff 0 n : ℕ) : ℤ) = 0
    have h : Nat.ldiff 0 n = 0 := by
      unfold Nat.ldiff
      unfold Nat.bitwise
      simp
    simp [h]

/-- With bit 0 the conditional swap leaves both elements unchanged. -/
theorem swap_zero (f g : F) : swap f g 0 = (f, g) := by
  unfold swap
  have hc : Int.lnot (0 - 1 : ℤ) = 0 := by decide
  rw [hc]
  refine Prod.ext ?_ ?_ <;> funext i <;>
    simp [land_zero_left, xor_zero_right]

/-- With bit 1 the conditional swap exchanges the two elements. -/
theorem swap_one (f g : F) : swap f g 1 = (g, f) := by
  unfold swap
  have hc : Int.lnot (1 - 1 : ℤ) = -1 := by decide
  rw [hc]
  refine Prod.ext ?_ ?_ <;> funext i <;>
    simp only [land_neg_one]
  · exact xor_cancel_left_int _ _
  · rw [xor_comm_int (f i) (g i)]
    exact xor_cancel_left_int _ _

theorem sr16 (x : ℤ) : x >>> (16:ℤ) = x / 65536 := by
  have h := shiftRight_eq_ediv x 16
  norm_num at h
  exact h

theorem sr8 (x : ℤ) : x >>> (8:ℤ) = x / 256 := by
  have h := shiftRight_eq_ediv x 8
  norm_num at h
  exact h

theorem sl16 (x : ℤ) : x <<< (16:ℤ) = x * 65536 := by
  have h := shiftLeft_eq_mul x 16
  norm_num at h
  exact h

theorem sl8 (x : ℤ) : x <<< (8:ℤ) = x * 256 := by
  have h := shiftLeft_eq_mul x 8
  norm_num at h
  exact h

/-! ### Limb-range domains and the normalization analysis. -/

/-- Every limb lies in [0, 2^16): the fully normalized range, as produced by
`unpack` and by a completed `carry` cascade. -/
def InD0 (f : F) : Prop :=
  (0 ≤ f 0 ∧ f 0 < 65536) ∧
    (0 ≤ f 1 ∧ f 1 < 65536) ∧
    (0 ≤ f 2 ∧ f 2 < 65536) ∧
    (0 ≤ f 3 ∧ f 3 < 65536) ∧
    (0 ≤ f 4 ∧ f 4 < 65536) ∧
    (0 ≤ f 5 ∧ f 5 < 65536) ∧
    (0 ≤ f 6 ∧ f 6 < 65536) ∧
    (0 ≤ f 7 ∧ f 7 < 65536) ∧
    (0 ≤ f 8 ∧ f 8 < 65536) ∧
    (0 ≤ f 9 ∧ f 9 < 65536) ∧
    (0 ≤ f 10 ∧ f 10 < 65536) ∧
    (0 ≤ f 11 ∧ f 11 < 65536) ∧
    (0 ≤ f 12 ∧ f 12 < 65536) ∧
    (0 ≤ f 13 ∧ f 13 < 65536) ∧
    (0 ≤ f 14 ∧ f 14 < 65536) ∧
    (0 ≤ f 15 ∧ f 15 < 65536)

/-- Limb 0 lies in [0, 2^16 + 38) and all other limbs in [0, 2^16): the shape
produced by the two carry passes at the end of `mul`. -/
def InD1 (f : F) : Prop :=
  (0 ≤ f 0 ∧ f 0 < 65574) ∧
    (0 ≤ f 1 ∧ f 1 < 65536) ∧
    (0 ≤ f 2 ∧ f 2 < 65536) ∧
    (0 ≤ f 3 ∧ f 3 < 65536) ∧
    (0 ≤ f 4 ∧ f 4 < 65536) ∧
    (0 ≤ f 5 ∧ f 5 < 65536) ∧
    (0 ≤ f 6 ∧ f 6 < 65536) ∧
    (0 ≤ f 7 ∧ f 7 < 65536) ∧
    (0 ≤ f 8 ∧ f 8 < 65536) ∧
    (0 ≤ f 9 ∧ f 9 < 65536) ∧
    (0 ≤ f 10 ∧ f 10 < 65536) ∧
    (0 ≤ f 11 ∧ f 11 < 65536) ∧
    (0 ≤ f 12 ∧ f 12 < 65536) ∧
    (0 ≤ f 13 ∧ f 13 < 65536) ∧
    (0 ≤ f 14 ∧ f 14 < 65536) ∧
    (0 ≤ f 15 ∧ f 15 < 65536)

theorem InD0_to_InD1 (f : F) (h : InD0 f) : InD1 f := by
  unfold InD0 at h
  unfold InD1
  omega

/-- After the convolution fold-back, every limb of a product of two `InD1`
elements is bounded by 2^43; one carry pass then brings limbs 1..15 into
[0, 2^16) and limb 0 below 2^16 + 38·2^28. -/
theorem carry_fold_shape (f : F)
    (h : (0 ≤ f 0 ∧ f 0 < 8796093022208) ∧
    (0 ≤ f 1 ∧ f 1 < 8796093022208) ∧
    (0 ≤ f 2 ∧ f 2 < 8796093022208) ∧
    (0 ≤ f 3 ∧ f 3 < 8796093022208) ∧
    (0 ≤ f 4 ∧ f 4 < 8796093022208) ∧
    (0 ≤ f 5 ∧ f 5 < 8796093022208) ∧
    (0 ≤ f 6 ∧ f 6 < 8796093022208) ∧
    (0 ≤ f 7 ∧ f 7 < 8796093022208) ∧
    (0 ≤ f 8 ∧ f 8 < 8796093022208) ∧
    (0 ≤ f 9 ∧ f 9 < 8796093022208) ∧
    (0 ≤ f 10 ∧ f 10 < 8796093022208) ∧
    (0 ≤ f 11 ∧ f 11 < 8796093022208) ∧
    (0 ≤ f 12 ∧ f 12 < 8796093022208) ∧
    (0 ≤ f 13 ∧ f 13 < 8796093022208) ∧
    (0 ≤ f 14 ∧ f 14 < 8796093022208) ∧
    (0 ≤ f 15 ∧ f 15 < 8796093022208)) :
    (0 ≤ carry f 0 ∧ carry f 0 < 65536 + 38 * 268435456) ∧
    (0 ≤ carry f 1 ∧ carry f 1 < 65536) ∧
    (0 ≤ carry f 2 ∧ carry f 2 < 65536) ∧
    (0 ≤ carry f 3 ∧ carry f 3 < 65536) ∧
    (0 ≤ carry f 4 ∧ carry f 4 < 65536) ∧
    (0 ≤ carry f 5 ∧ carry f 5 < 65536) ∧
    (0 ≤ carry f 6 ∧ carry f 6 < 65536) ∧
    (0 ≤ carry f 7 ∧ carry f 7 < 65536) ∧
    (0 ≤ carry f 8 ∧ carry f 8 < 65536) ∧
    (0 ≤ carry f 9 ∧ carry f 9 < 65536) ∧
    (0 ≤ carry f 10 ∧ carry f 10 < 65536) ∧
    (0 ≤ carry f 11 ∧ carry f 11 < 65536) ∧
    (0 ≤ carry f 12 ∧ carry f 12 < 65536) ∧
    (0 ≤ carry f 13 ∧ carry f 13 < 65536) ∧
    (0 ≤ carry f 14 ∧ carry f 14 < 65536) ∧
    (0 ≤ carry f 15 ∧ carry f 15 < 65536) := by
  simp only [carry, mk16_0, mk16_1, mk16_2, mk16_3, mk16_4, mk16_5, mk16_6, mk16_7, mk16_8, mk16_9, mk16_10, mk16_11, mk16_12, mk16_13, mk16_14, mk16_15]
  simp only [sr16, sl16]
  omega

/-- A second carry pass on the shape produced by `carry_fold_shape` lands in `InD1`. -/
theorem carry_shapeA (f : F)
    (h : (0 ≤ f 0 ∧ f 0 < 65536 + 38 * 268435456) ∧
    (0 ≤ f 1 ∧ f 1 < 65536) ∧
    (0 ≤ f 2 ∧ f 2 < 65536) ∧
    (0 ≤ f 3 ∧ f 3 < 65536) ∧
    (0 ≤ f 4 ∧ f 4 < 65536) ∧
    (0 ≤ f 5 ∧ f 5 < 65536) ∧
    (0 ≤ f 6 ∧ f 6 < 65536) ∧
    (0 ≤ f 7 ∧ f 7 < 65536) ∧
    (0 ≤ f 8 ∧ f 8 < 65536) ∧
    (0 ≤ f 9 ∧ f 9 < 65536) ∧
    (0 ≤ f 10 ∧ f 10 < 65536) ∧
    (0 ≤ f 11 ∧ f 11 < 65536) ∧
    (0 ≤ f 12 ∧ f 12 < 65536) ∧
    (0 ≤ f 13 ∧ f 13 < 65536) ∧
    (0 ≤ f 14 ∧ f 14 < 65536) ∧
    (0 ≤ f 15 ∧ f 15 < 65536)) :
    InD1 (carry f) := by
  unfold InD1
  simp only [carry, mk16_0, mk16_1, mk16_2, mk16_3, mk16_4, mk16_5, mk16_6, mk16_7, mk16_8, mk16_9, mk16_10, mk16_11, mk16_12, mk16_13, mk16_14, mk16_15]
  simp only [sr16, sl16]
  omega

/-- One carry pass on an `InD1` element is fully normalizing: the wrap-around
term 38·c15 can only hit limb 0 when limb 0 has itself just been reduced, so
the result is in `InD0`. -/
theorem carry_D1 (f : F) (h : InD1 f) : InD0 (carry f) := by
  unfold InD1 at h
  unfold InD0
  simp only [carry, mk16_0, mk16_1, mk16_2, mk16_3, mk16_4, mk16_5, mk16_6, mk16_7, mk16_8, mk16_9, mk16_10, mk16_11, mk16_12, mk16_13, mk16_14, mk16_15]
  simp only [sr16, sl16]
  omega

/-- The carry pass is the identity on fully normalized elements. -/
theorem carry_D0_id (f : F) (h : InD0 f) : carry f = f := by
  unfold InD0 at h
  have key : carry f 0 = f 0 ∧
    carry f 1 = f 1 ∧
    carry f 2 = f 2 ∧
    carry f 3 = f 3 ∧
    carry f 4 = f 4 ∧
    carry f 5 = f 5 ∧
    carry f 6 = f 6 ∧
    carry f 7 = f 7 ∧
    carry f 8 = f 8 ∧
    carry f 9 = f 9 ∧
    carry f 10 = f 10 ∧
    carry f 11 = f 11 ∧
    carry f 12 = f 12 ∧
    carry f 13 = f 13 ∧
    carry f 14 = f 14 ∧
    carry f 15 = f 15 := by
    simp only [carry, mk16_0, mk16_1, mk16_2, mk16_3, mk16_4, mk16_5, mk16_6, mk16_7, mk16_8, mk16_9, mk16_10, mk16_11, mk16_12, mk16_13, mk16_14, mk16_15]
    simp only [sr16, sl16]
    omega
  funext i
  fin_cases i
  exacts [key.1, key.2.1, key.2.2.1, key.2.2.2.1, key.2.2.2.2.1, key.2.2.2.2.2.1, key.2.2.2.2.2.2.1, key.2.2.2.2.2.2.2.1, key.2.2.2.2.2.2.2.2.1, key.2.2.2.2.2.2.2.2.2.1, key.2.2.2.2.2.2.2.2.2.2.1, key.2.2.2.2.2.2.2.2.2.2.2.1, key.2.2.2.2.2.2.2.2.2.2.2.2.1, key.2.2.2.2.2.2.2.2.2.2.2.2.2.1, key.2.2.2.2.2.2.2.2.2.2.2.2.2.2.1, key.2.2.2.2.2.2.2.2.2.2.2.2.2.2.2]


theorem packRoundSub_bit (f : F) :
    (packRoundSub f).2 = 0 ∨ (packRoundSub f).2 = 1 := by
  simp only [packRoundSub, land_mask_one, land_mask_ffff, sr16]
  omega

theorem packRound_eq (f : F) :
    ((packRoundSub f).2 = 0 → packRound f = (packRoundSub f).1) ∧
    ((packRoundSub f).2 = 1 → packRound f = f) := by
  constructor <;> intro h <;> unfold packRound <;> rw [h] <;> norm_num
  · rw [swap_one]
  · rw [swap_zero]

set_option maxHeartbeats 2000000 in
/-- The borrow-chain subtraction inside a `pack` round computes exactly
`val f - p` when no final borrow occurs, and a final borrow occurs exactly
when `val f < p`. -/
theorem packRoundSub_spec (f : F) (h : InD0 f) :
    ((packRoundSub f).2 = 0 →
      InD0 ((packRoundSub f).1) ∧ val ((packRoundSub f).1) = val f - P ∧ P ≤ val f) ∧
    ((packRoundSub f).2 = 1 → val f < P) := by
  unfold InD0 at h ⊢
  unfold val P
  simp only [packRoundSub, land_mask_one, land_mask_ffff, sr16, mk16_0, mk16_1, mk16_2, mk16_3, mk16_4, mk16_5, mk16_6, mk16_7, mk16_8, mk16_9, mk16_10, mk16_11, mk16_12, mk16_13, mk16_14, mk16_15]
  generalize hm0 : (f 0 - 65517) % 65536 = m0
  generalize hb0 : (f 0 - 65517) / 65536 % 2 = b0
  generalize hm1 : (f 1 - 65535 - b0) % 65536 = m1
  generalize hb1 : (f 1 - 65535 - b0) / 65536 % 2 = b1
  generalize hm2 : (f 2 - 65535 - b1) % 65536 = m2
  generalize hb2 : (f 2 - 65535 - b1) / 65536 % 2 = b2
  generalize hm3 : (f 3 - 65535 - b2) % 65536 = m3
  generalize hb3 : (f 3 - 65535 - b2) / 65536 % 2 = b3
  generalize hm4 : (f 4 - 65535 - b3) % 65536 = m4
  generalize hb4 : (f 4 - 65535 - b3) / 65536 % 2 = b4
  generalize hm5 : (f 5 - 65535 - b4) % 65536 = m5
  generalize hb5 : (f 5 - 65535 - b4) / 65536 % 2 = b5
  generalize hm6 : (f 6 - 65535 - b5) % 65536 = m6
  generalize hb6 : (f 6 - 65535 - b5) / 65536 % 2 = b6
  generalize hm7 : (f 7 - 65535 - b6) % 65536 = m7
  generalize hb7 : (f 7 - 65535 - b6) / 65536 % 2 = b7
  generalize hm8 : (f 8 - 65535 - b7) % 65536 = m8
  generalize hb8 : (f 8 - 65535 - b7) / 65536 % 2 = b8
  generalize hm9 : (f 9 - 65535 - b8) % 65536 = m9
  generalize hb9 : (f 9 - 65535 - b8) / 65536 % 2 = b9
  generalize hm10 : (f 10 - 65535 - b9) % 65536 = m10
  generalize hb10 : (f 10 - 65535 - b9) / 65536 % 2 = b10
  generalize hm11 : (f 11 - 65535 - b10) % 65536 = m11
  generalize hb11 : (f 11 - 65535 - b10) / 65536 % 2 = b11
  generalize hm12 : (f 12 - 65535 - b11) % 65536 = m12
  generalize hb12 : (f 12 - 65535 - b11) / 65536 % 2 = b12
  generalize hm13 : (f 13 - 65535 - b12) % 65536 = m13
  generalize hb13 : (f 13 - 65535 - b12) / 65536 % 2 = b13
  generalize hm14 : (f 14 - 65535 - b13) % 65536 = m14
  generalize hb14 : (f 14 - 65535 - b13) / 65536 % 2 = b14
  generalize hb15 : (f 15 - 32767 - b14) / 65536 % 2 = b15
  have k0 : 0 ≤ b0 ∧ b0 ≤ 1 ∧ m0 = (f 0 - 65517) + 65536 * b0 ∧ 0 ≤ m0 ∧ m0 < 65536 := by
    omega
  clear hm0 hb0
  have k1 : 0 ≤ b1 ∧ b1 ≤ 1 ∧ m1 = (f 1 - 65535 - b0) + 65536 * b1 ∧ 0 ≤ m1 ∧ m1 < 65536 := by
    omega
  clear hm1 hb1
  have k2 : 0 ≤ b2 ∧ b2 ≤ 1 ∧ m2 = (f 2 - 65535 - b1) + 65536 * b2 ∧ 0 ≤ m2 ∧ m2 < 65536 := by
    omega
  clear hm2 hb2
  have k3 : 0 ≤ b3 ∧ b3 ≤ 1 ∧ m3 = (f 3 - 65535 - b2) + 65536 * b3 ∧ 0 ≤ m3 ∧ m3 < 65536 := by
    omega
  clear hm3 hb3
  have k4 : 0 ≤ b4 ∧ b4 ≤ 1 ∧ m4 = (f 4 - 65535 - b3) + 65536 * b4 ∧ 0 ≤ m4 ∧ m4 < 65536 := by
    omega
  clear hm4 hb4
  have k5 : 0 ≤ b5 ∧ b5 ≤ 1 ∧ m5 = (f 5 - 65535 - b4) + 65536 * b5 ∧ 0 ≤ m5 ∧ m5 < 65536 := by
    omega
  clear hm5 hb5
  have k6 : 0 ≤ b6 ∧ b6 ≤ 1 ∧ m6 = (f 6 - 65535 - b5) + 65536 * b6 ∧ 0 ≤ m6 ∧ m6 < 65536 := by
    omega
  clear hm6 hb6
  have k7 : 0 ≤ b7 ∧ b7 ≤ 1 ∧ m7 = (f 7 - 65535 - b6) + 65536 * b7 ∧ 0 ≤ m7 ∧ m7 < 65536 := by
    omega
  clear hm7 hb7
  have k8 : 0 ≤ b8 ∧ b8 ≤ 1 ∧ m8 = (f 8 - 65535 - b7) + 65536 * b8 ∧ 0 ≤ m8 ∧ m8 < 65536 := by
    omega
  clear hm8 hb8
  have k9 : 0 ≤ b9 ∧ b9 ≤ 1 ∧ m9 = (f 9 - 65535 - b8) + 65536 * b9 ∧ 0 ≤ m9 ∧ m9 < 65536 := by
    omega
  clear hm9 hb9
  have k10 : 0 ≤ b10 ∧ b10 ≤ 1 ∧ m10 = (f 10 - 65535 - b9) + 65536 * b10 ∧ 0 ≤ m10 ∧ m10 < 65536 := by
    omega
  clear hm10 hb10
  have k11 : 0 ≤ b11 ∧ b11 ≤ 1 ∧ m11 = (f 11 - 65535 - b10) + 65536 * b11 ∧ 0 ≤ m11 ∧ m11 < 65536 := by
    omega
  clear hm11 hb11
  have k12 : 0 ≤ b12 ∧ b12 ≤ 1 ∧ m12 = (f 12 - 65535 - b11) + 65536 * b12 ∧ 0 ≤ m12 ∧ m12 < 65536 := by
    omega
  clear hm12 hb12
  have k13 : 0 ≤ b13 ∧ b13 ≤ 1 ∧ m13 = (f 13 - 65535 - b12) + 65536 * b13 ∧ 0 ≤ m13 ∧ m13 < 65536 := by
    omega
  clear hm13 hb13
  have k14 : 0 ≤ b14 ∧ b14 ≤ 1 ∧ m14 = (f 14 - 65535 - b13) + 65536 * b14 ∧ 0 ≤ m14 ∧ m14 < 65536 := by
    omega
  clear hm14 hb14
  have k15 : 0 ≤ b15 ∧ b15 ≤ 1 ∧ 0 ≤ (f 15 - 32767 - b14) + 65536 * b15 ∧ (f 15 - 32767 - b14) + 65536 * b15 < 65536 := by
    omega
  clear hb15
  omega

/-- One `pack` round maps `InD0` into `InD0` and either subtracts p (when
`val f` is at least p) or leaves the value unchanged. -/
theorem packRound_spec (f : F) (h : InD0 f) :
    InD0 (packRound f) ∧
    ((P ≤ val f ∧ val (packRound f) = val f - P) ∨
      (val f < P ∧ val (packRound f) = val f)) := by
  rcases packRoundSub_bit f with hb | hb
  · have h1 := (packRound_eq f).1 hb
    have h2 := (packRoundSub_spec f h).1 hb
    rw [h1]
    exact ⟨h2.1, Or.inl ⟨h2.2.2, h2.2.1⟩⟩
  · have h1 := (packRound_eq f).2 hb
    have h2 := (packRoundSub_spec f h).2 hb
    rw [h1]
    exact ⟨h, Or.inr ⟨h2, rfl⟩⟩


/-- The canonical 32-byte little-endian encoding of an integer: byte i is
`v / 256^i % 256`. -/
def canonEnc (v : ℤ) : Bytes :=
  mk32 (v % 256)
    (v / 256 % 256)
    (v / 65536 % 256)
    (v / 16777216 % 256)
    (v / 4294967296 % 256)
    (v / 1099511627776 % 256)
    (v / 281474976710656 % 256)
    (v / 72057594037927936 % 256)
    (v / 18446744073709551616 % 256)
    (v / 4722366482869645213696 % 256)
    (v / 1208925819614629174706176 % 256)
    (v / 309485009821345068724781056 % 256)
    (v / 79228162514264337593543950336 % 256)
    (v / 20282409603651670423947251286016 % 256)
    (v / 5192296858534827628530496329220096 % 256)
    (v / 1329227995784915872903807060280344576 % 256)
    (v / 340282366920938463463374607431768211456 % 256)
    (v / 87112285931760246646623899502532662132736 % 256)
    (v / 22300745198530623141535718272648361505980416 % 256)
    (v / 5708990770823839524233143877797980545530986496 % 256)
    (v / 1461501637330902918203684832716283019655932542976 % 256)
    (v / 374144419156711147060143317175368453031918731001856 % 256)
    (v / 95780971304118053647396689196894323976171195136475136 % 256)
    (v / 24519928653854221733733552434404946937899825954937634816 % 256)
    (v / 6277101735386680763835789423207666416102355444464034512896 % 256)
    (v / 1606938044258990275541962092341162602522202993782792835301376 % 256)
    (v / 411376139330301510538742295639337626245683966408394965837152256 % 256)
    (v / 105312291668557186697918027683670432318895095400549111254310977536 % 256)
    (v / 26959946667150639794667015087019630673637144422540572481103610249216 % 256)
    (v / 6901746346790563787434755862277025452451108972170386555162524223799296 % 256)
    (v / 1766847064778384329583297500742918515827483896875618958121606201292619776 % 256)
    (v / 452312848583266388373324160190187140051835877600158453279131187530910662656 % 256)

set_option maxHeartbeats 1000000 in
set_option maxRecDepth 8000 in
/-- On fully normalized limbs, the serialization step of `pack` produces the
canonical little-endian encoding of the represented value. -/
theorem serialize_canonEnc (h : F) (hd : InD0 h) : serialize h = canonEnc (val h) := by
  have key : serialize h 0 = canonEnc (val h) 0 ∧
      serialize h 1 = canonEnc (val h) 1 ∧
      serialize h 2 = canonEnc (val h) 2 ∧
      serialize h 3 = canonEnc (val h) 3 ∧
      serialize h 4 = canonEnc (val h) 4 ∧
      serialize h 5 = canonEnc (val h) 5 ∧
      serialize h 6 = canonEnc (val h) 6 ∧
      serialize h 7 = canonEnc (val h) 7 ∧
      serialize h 8 = canonEnc (val h) 8 ∧
      serialize h 9 = canonEnc (val h) 9 ∧
      serialize h 10 = canonEnc (val h) 10 ∧
      serialize h 11 = canonEnc (val h) 11 ∧
      serialize h 12 = canonEnc (val h) 12 ∧
      serialize h 13 = canonEnc (val h) 13 ∧
      serialize h 14 = canonEnc (val h) 14 ∧
      serialize h 15 = canonEnc (val h) 15 ∧
      serialize h 16 = canonEnc (val h) 16 ∧
      serialize h 17 = canonEnc (val h) 17 ∧
      serialize h 18 = canonEnc (val h) 18 ∧
      serialize h 19 = canonEnc (val h) 19 ∧
      serialize h 20 = canonEnc (val h) 20 ∧
      serialize h 21 = canonEnc (val h) 21 ∧
      serialize h 22 = canonEnc (val h) 22 ∧
      serialize h 23 = canonEnc (val h) 23 ∧
      serialize h 24 = canonEnc (val h) 24 ∧
      serialize h 25 = canonEnc (val h) 25 ∧
      serialize h 26 = canonEnc (val h) 26 ∧
      serialize h 27 = canonEnc (val h) 27 ∧
      serialize h 28 = canonEnc (val h) 28 ∧
      serialize h 29 = canonEnc (val h) 29 ∧
      serialize h 30 = canonEnc (val h) 30 ∧
      serialize h 31 = canonEnc (val h) 31 := by
    unfold InD0 at hd
    unfold canonEnc val
    simp only [serialize, land_mask_ff, sr8, mk32_0, mk32_1, mk32_2, mk32_3, mk32_4, mk32_5, mk32_6, mk32_7, mk32_8, mk32_9, mk32_10, mk32_11, mk32_12, mk32_13, mk32_14, mk32_15, mk32_16, mk32_17, mk32_18, mk32_19, mk32_20, mk32_21, mk32_22, mk32_23, mk32_24, mk32_25, mk32_26, mk32_27, mk32_28, mk32_29, mk32_30, mk32_31]
    omega
  funext i
  fin_cases i
  exacts [key.1, key.2.1, key.2.2.1, key.2.2.2.1, key.2.2.2.2.1, key.2.2.2.2.2.1, key.2.2.2.2.2.2.1, key.2.2.2.2.2.2.2.1, key.2.2.2.2.2.2.2.2.1, key.2.2.2.2.2.2.2.2.2.1, key.2.2.2.2.2.2.2.2.2.2.1, key.2.2.2.2.2.2.2.2.2.2.2.1, key.2.2.2.2.2.2.2.2.2.2.2.2.1, key.2.2.2.2.2.2.2.2.2.2.2.2.2.1, key.2.2.2.2.2.2.2.2.2.2.2.2.2.2.1, key.2.2.2.2.2.2.2.2.2.2.2.2.2.2.2.1, key.2.2.2.2.2.2.2.2.2.2.2.2.2.2.2.2.1, key.2.2.2.2.2.2.2.2.2.2.2.2.2.2.2.2.2.1, key.2.2.2.2.2.2.2.2.2.2.2.2.2.2.2.2.2.2.1, key.2.2.2.2.2.2.2.2.2.2.2.2.2.2.2.2.2.2.2.1, key.2.2.2.2.2.2.2.2.2.2.2.2.2.2.2.2.2.2.2.2.1, key.2.2.2.2.2.2.2.2.2.2.2.2.2.2.2.2.2.2.2.2.2.1, key.2.2.2.2.2.2.2.2.2.2.2.2.2.2.2.2.2.2.2.2.2.2.1, key.2.2.2.2.2.2.2.2.2.2.2.2.2.2.2.2.2.2.2.2.2.2.2.1, key.2.2.2.2.2.2.2.2.2.2.2.2.2.2.2.2.2.2.2.2.2.2.2.2.1, key.2.2.2.2.2.2.2.2.2.2.2.2.2.2.2.2.2.2.2.2.2.2.2.2.2.1, key.2.2.2.2.2.2.2.2.2.2.2.2.2.2.2.2.2.2.2.2.2.2.2.2.2.2.1, key.2.2.2.2.2.2.2.2.2.2.2.2.2.2.2.2.2.2.2.2.2.2.2.2.2.2.2.1, key.2.2.2.2.2.2.2.2.2.2.2.2.2.2.2.2.2.2.2.2.2.2.2.2.2.2.2.2.1, key.2.2.2.2.2.2.2.2.2.2.2.2.2.2.2.2.2.2.2.2.2.2.2.2.2.2.2.2.2.1, key.2.2.2.2.2.2.2.2.2.2.2.2.2.2.2.2.2.2.2.2.2.2.2.2.2.2.2.2.2.2.1, key.2.2.2.2.2.2.2.2.2.2.2.2.2.2.2.2.2.2.2.2.2.2.2.2.2.2.2.2.2.2.2]

/-- Reading back the canonical encoding of v recovers v, for v in [0, 2^256). -/
theorem bval_canonEnc (v : ℤ) (h : 0 ≤ v ∧ v < 2 ^ 256) : bval (canonEnc v) = v := by
  unfold bval canonEnc
  simp only [mk32_0, mk32_1, mk32_2, mk32_3, mk32_4, mk32_5, mk32_6, mk32_7, mk32_8, mk32_9, mk32_10, mk32_11, mk32_12, mk32_13, mk32_14, mk32_15, mk32_16, mk32_17, mk32_18, mk32_19, mk32_20, mk32_21, mk32_22, mk32_23, mk32_24, mk32_25, mk32_26, mk32_27, mk32_28, mk32_29, mk32_30, mk32_31]
  omega

set_option maxHeartbeats 1000000 in
set_option maxRecDepth 8000 in
/-- The decoder lands in `InD0`, its top limb is below 2^15, and the value it
represents is the encoded integer reduced modulo 2^255 (the masking of the top
bit). -/
theorem unpack_spec (b : Bytes) (hb : IsBytes b) :
    InD0 (unpack b) ∧ unpack b 15 < 32768 ∧ val (unpack b) = bval b % 2 ^ 255 := by
  have h0 := hb 0
  have h1 := hb 1
  have h2 := hb 2
  have h3 := hb 3
  have h4 := hb 4
  have h5 := hb 5
  have h6 := hb 6
  have h7 := hb 7
  have h8 := hb 8
  have h9 := hb 9
  have h10 := hb 10
  have h11 := hb 11
  have h12 := hb 12
  have h13 := hb 13
  have h14 := hb 14
  have h15 := hb 15
  have h16 := hb 16
  have h17 := hb 17
  have h18 := hb 18
  have h19 := hb 19
  have h20 := hb 20
  have h21 := hb 21
  have h22 := hb 22
  have h23 := hb 23
  have h24 := hb 24
  have h25 := hb 25
  have h26 := hb 26
  have h27 := hb 27
  have h28 := hb 28
  have h29 := hb 29
  have h30 := hb 30
  have h31 := hb 31
  clear hb
  unfold InD0 val bval
  simp only [unpack, sl8, land_mask_7fff, mk16_0, mk16_1, mk16_2, mk16_3, mk16_4, mk16_5, mk16_6, mk16_7, mk16_8, mk16_9, mk16_10, mk16_11, mk16_12, mk16_13, mk16_14, mk16_15]
  omega


set_option maxRecDepth 8000 in
/-- One carry pass preserves the represented value modulo p: the fold-back of
the top carry uses 2^256 ≡ 38 (mod p). -/
theorem carry_modeq (f : F) : val (carry f) ≡ val f [ZMOD P] := by
  unfold Int.ModEq P
  simp only [carry, val, mk16_0, mk16_1, mk16_2, mk16_3, mk16_4, mk16_5, mk16_6, mk16_7,
    mk16_8, mk16_9, mk16_10, mk16_11, mk16_12, mk16_13, mk16_14, mk16_15]
  simp only [sr16, sl16]
  omega

/-- Values of fully normalized elements lie in [0, 2^256). -/
theorem val_D0_bounds (f : F) (h : InD0 f) : 0 ≤ val f ∧ val f < 2 ^ 256 := by
  unfold InD0 at h
  unfold val
  omega

set_option maxRecDepth 16000 in
/-- Full correctness of the encoder on the shape produced by `mul` (and a
fortiori on fully normalized elements): `pack` returns the canonical
little-endian encoding of the represented value reduced mod p. -/
theorem pack_correct (f : F) (hf : InD1 f) : pack f = canonEnc (val f % P) := by
  have hg : InD0 (carry f) := carry_D1 f hf
  have hgid : carry (carry (carry f)) = carry f := by
    rw [carry_D0_id _ hg, carry_D0_id _ hg]
  have hmod : val (carry f) % P = val f % P := carry_modeq f
  have r1 := packRound_spec (carry f) hg
  have r2 := packRound_spec (packRound (carry f)) r1.1
  have hv := val_D0_bounds (carry f) hg
  have hveq : val (packRound (packRound (carry f))) = val f % P := by
    unfold P at hmod r1 r2 ⊢
    rcases r1.2 with ⟨ha1, ha2⟩ | ⟨ha1, ha2⟩ <;> rcases r2.2 with ⟨hb1, hb2⟩ | ⟨hb1, hb2⟩ <;>
      omega
  unfold pack
  rw [hgid, serialize_canonEnc _ r2.1, hveq]

set_option maxHeartbeats 2000000 in
/-- The convolution with fold-back represents the product of the inputs
modulo p: folding `38 · product[i+16]` into limb i replaces weight 2^(256+16i)
by 38·2^(16i), and 2^256 ≡ 38 (mod p). -/
theorem mulFold_modeq (a b : F) :
    val (mulFold a b) ≡ val a * val b [ZMOD P] := by
  rw [Int.modEq_iff_dvd]
  refine ⟨2 * ((a 1 * b 15 + a 2 * b 14 + a 3 * b 13 + a 4 * b 12 + a 5 * b 11 + a 6 * b 10 + a 7 * b 9 + a 8 * b 8 + a 9 * b 7 + a 10 * b 6 + a 11 * b 5 + a 12 * b 4 + a 13 * b 3 + a 14 * b 2 + a 15 * b 1) +
        (a 2 * b 15 + a 3 * b 14 + a 4 * b 13 + a 5 * b 12 + a 6 * b 11 + a 7 * b 10 + a 8 * b 9 + a 9 * b 8 + a 10 * b 7 + a 11 * b 6 + a 12 * b 5 + a 13 * b 4 + a 14 * b 3 + a 15 * b 2) * 65536 +
        (a 3 * b 15 + a 4 * b 14 + a 5 * b 13 + a 6 * b 12 + a 7 * b 11 + a 8 * b 10 + a 9 * b 9 + a 10 * b 8 + a 11 * b 7 + a 12 * b 6 + a 13 * b 5 + a 14 * b 4 + a 15 * b 3) * 4294967296 +
        (a 4 * b 15 + a 5 * b 14 + a 6 * b 13 + a 7 * b 12 + a 8 * b 11 + a 9 * b 10 + a 10 * b 9 + a 11 * b 8 + a 12 * b 7 + a 13 * b 6 + a 14 * b 5 + a 15 * b 4) * 281474976710656 +
        (a 5 * b 15 + a 6 * b 14 + a 7 * b 13 + a 8 * b 12 + a 9 * b 11 + a 10 * b 10 + a 11 * b 9 + a 12 * b 8 + a 13 * b 7 + a 14 * b 6 + a 15 * b 5) * 18446744073709551616 +
        (a 6 * b 15 + a 7 * b 14 + a 8 * b 13 + a 9 * b 12 + a 10 * b 11 + a 11 * b 10 + a 12 * b 9 + a 13 * b 8 + a 14 * b 7 + a 15 * b 6) * 1208925819614629174706176 +
        (a 7 * b 15 + a 8 * b 14 + a 9 * b 13 + a 10 * b 12 + a 11 * b 11 + a 12 * b 10 + a 13 * b 9 + a 14 * b 8 + a 15 * b 7) * 79228162514264337593543950336 +
        (a 8 * b 15 + a 9 * b 14 + a 10 * b 13 + a 11 * b 12 + a 12 * b 11 + a 13 * b 10 + a 14 * b 9 + a 15 * b 8) * 5192296858534827628530496329220096 +
        (a 9 * b 15 + a 10 * b 14 + a 11 * b 13 + a 12 * b 12 + a 13 * b 11 + a 14 * b 10 + a 15 * b 9) * 340282366920938463463374607431768211456 +
        (a 10 * b 15 + a 11 * b 14 + a 12 * b 13 + a 13 * b 12 + a 14 * b 11 + a 15 * b 10) * 22300745198530623141535718272648361505980416 +
        (a 11 * b 15 + a 12 * b 14 + a 13 * b 13 + a 14 * b 12 + a 15 * b 11) * 1461501637330902918203684832716283019655932542976 +
        (a 12 * b 15 + a 13 * b 14 + a 14 * b 13 + a 15 * b 12) * 95780971304118053647396689196894323976171195136475136 +
        (a 13 * b 15 + a 14 * b 14 + a 15 * b 13) * 6277101735386680763835789423207666416102355444464034512896 +
        (a 14 * b 15 + a 15 * b 14) * 411376139330301510538742295639337626245683966408394965837152256 +
        (a 15 * b 15) * 26959946667150639794667015087019630673637144422540572481103610249216), ?_⟩
  unfold val mulFold P
  simp only [mk16_0, mk16_1, mk16_2, mk16_3, mk16_4, mk16_5, mk16_6, mk16_7, mk16_8, mk16_9, mk16_10, mk16_11, mk16_12, mk16_13, mk16_14, mk16_15]
  ring

theorem prod_lt_bound (x y : ℤ) (hx0 : 0 ≤ x) (hx1 : x < 65574)
    (hy0 : 0 ≤ y) (hy1 : y < 65574) : 0 ≤ x * y ∧ x * y < 4299949476 := by
  constructor
  · exact mul_nonneg hx0 hy0
  · calc x * y < 65574 * 65574 := mul_lt_mul'' hx1 hy1 hx0 hy0
    _ = 4299949476 := by norm_num

theorem entry_bound31 (x0 x1 x2 x3 x4 x5 x6 x7 x8 x9 x10 x11 x12 x13 x14 x15 y0 y1 y2 y3 y4 y5 y6 y7 y8 y9 y10 y11 y12 y13 y14 : ℤ)
    (hx0 : 0 ≤ x0 ∧ x0 < 4299949476) (hx1 : 0 ≤ x1 ∧ x1 < 4299949476) (hx2 : 0 ≤ x2 ∧ x2 < 4299949476)
    (hx3 : 0 ≤ x3 ∧ x3 < 4299949476) (hx4 : 0 ≤ x4 ∧ x4 < 4299949476) (hx5 : 0 ≤ x5 ∧ x5 < 4299949476)
    (hx6 : 0 ≤ x6 ∧ x6 < 4299949476) (hx7 : 0 ≤ x7 ∧ x7 < 4299949476) (hx8 : 0 ≤ x8 ∧ x8 < 4299949476)
    (hx9 : 0 ≤ x9 ∧ x9 < 4299949476) (hx10 : 0 ≤ x10 ∧ x10 < 4299949476) (hx11 : 0 ≤ x11 ∧ x11 < 4299949476)
    (hx12 : 0 ≤ x12 ∧ x12 < 4299949476) (hx13 : 0 ≤ x13 ∧ x13 < 4299949476) (hx14 : 0 ≤ x14 ∧ x14 < 4299949476)
    (hx15 : 0 ≤ x15 ∧ x15 < 4299949476) (hy0 : 0 ≤ y0 ∧ y0 < 4299949476) (hy1 : 0 ≤ y1 ∧ y1 < 4299949476)
    (hy2 : 0 ≤ y2 ∧ y2 < 4299949476) (hy3 : 0 ≤ y3 ∧ y3 < 4299949476) (hy4 : 0 ≤ y4 ∧ y4 < 4299949476)
    (hy5 : 0 ≤ y5 ∧ y5 < 4299949476) (hy6 : 0 ≤ y6 ∧ y6 < 4299949476) (hy7 : 0 ≤ y7 ∧ y7 < 4299949476)
    (hy8 : 0 ≤ y8 ∧ y8 < 4299949476) (hy9 : 0 ≤ y9 ∧ y9 < 4299949476) (hy10 : 0 ≤ y10 ∧ y10 < 4299949476)
    (hy11 : 0 ≤ y11 ∧ y11 < 4299949476) (hy12 : 0 ≤ y12 ∧ y12 < 4299949476) (hy13 : 0 ≤ y13 ∧ y13 < 4299949476)
    (hy14 : 0 ≤ y14 ∧ y14 < 4299949476)
    : 0 ≤ x0 + x1 + x2 + x3 + x4 + x5 + x6 + x7 + x8 + x9 + x10 + x11 + x12 + x13 + x14 + x15 + 38 * (y0 + y1 + y2 + y3 + y4 + y5 + y6 + y7 + y8 + y9 + y10 + y11 + y12 + y13 + y14) ∧ x0 + x1 + x2 + x3 + x4 + x5 + x6 + x7 + x8 + x9 + x10 + x11 + x12 + x13 + x14 + x15 + 38 * (y0 + y1 + y2 + y3 + y4 + y5 + y6 + y7 + y8 + y9 + y10 + y11 + y12 + y13 + y14) < 8796093022208 := by
  omega

set_option maxRecDepth 16000 in
/-- On `InD1` inputs every limb of the convolution fold-back is bounded by 2^43. -/
theorem mulFold_bounds (a b : F) (ha : InD1 a) (hb : InD1 b) :
    (0 ≤ mulFold a b 0 ∧ mulFold a b 0 < 8796093022208) ∧
    (0 ≤ mulFold a b 1 ∧ mulFold a b 1 < 8796093022208) ∧
    (0 ≤ mulFold a b 2 ∧ mulFold a b 2 < 8796093022208) ∧
    (0 ≤ mulFold a b 3 ∧ mulFold a b 3 < 8796093022208) ∧
    (0 ≤ mulFold a b 4 ∧ mulFold a b 4 < 8796093022208) ∧
    (0 ≤ mulFold a b 5 ∧ mulFold a b 5 < 8796093022208) ∧
    (0 ≤ mulFold a b 6 ∧ mulFold a b 6 < 8796093022208) ∧
    (0 ≤ mulFold a b 7 ∧ mulFold a b 7 < 8796093022208) ∧
    (0 ≤ mulFold a b 8 ∧ mulFold a b 8 < 8796093022208) ∧
    (0 ≤ mulFold a b 9 ∧ mulFold a b 9 < 8796093022208) ∧
    (0 ≤ mulFold a b 10 ∧ mulFold a b 10 < 8796093022208) ∧
    (0 ≤ mulFold a b 11 ∧ mulFold a b 11 < 8796093022208) ∧
    (0 ≤ mulFold a b 12 ∧ mulFold a b 12 < 8796093022208) ∧
    (0 ≤ mulFold a b 13 ∧ mulFold a b 13 < 8796093022208) ∧
    (0 ≤ mulFold a b 14 ∧ mulFold a b 14 < 8796093022208) ∧
    (0 ≤ mulFold a b 15 ∧ mulFold a b 15 < 8796093022208) := by
  unfold InD1 at ha hb
  obtain ⟨ha0, ha1, ha2, ha3, ha4, ha5, ha6, ha7, ha8, ha9, ha10, ha11, ha12, ha13, ha14, ha15⟩ := ha
  obtain ⟨hb0, hb1, hb2, hb3, hb4, hb5, hb6, hb7, hb8, hb9, hb10, hb11, hb12, hb13, hb14, hb15⟩ := hb
  have hzero : 0 ≤ (0:ℤ) ∧ (0:ℤ) < 4299949476 := by norm_num
  have Ha0 : 0 ≤ a 0 ∧ a 0 < 65574 := ha0
  have Hb0 : 0 ≤ b 0 ∧ b 0 < 65574 := hb0
  have Ha1 : 0 ≤ a 1 ∧ a 1 < 65574 := ⟨ha1.1, by omega⟩
  have Hb1 : 0 ≤ b 1 ∧ b 1 < 65574 := ⟨hb1.1, by omega⟩
  have Ha2 : 0 ≤ a 2 ∧ a 2 < 65574 := ⟨ha2.1, by omega⟩
  have Hb2 : 0 ≤ b 2 ∧ b 2 < 65574 := ⟨hb2.1, by omega⟩
  have Ha3 : 0 ≤ a 3 ∧ a 3 < 65574 := ⟨ha3.1, by omega⟩
  have Hb3 : 0 ≤ b 3 ∧ b 3 < 65574 := ⟨hb3.1, by omega⟩
  have Ha4 : 0 ≤ a 4 ∧ a 4 < 65574 := ⟨ha4.1, by omega⟩
  have Hb4 : 0 ≤ b 4 ∧ b 4 < 65574 := ⟨hb4.1, by omega⟩
  have Ha5 : 0 ≤ a 5 ∧ a 5 < 65574 := ⟨ha5.1, by omega⟩
  have Hb5 : 0 ≤ b 5 ∧ b 5 < 65574 := ⟨hb5.1, by omega⟩
  have Ha6 : 0 ≤ a 6 ∧ a 6 < 65574 := ⟨ha6.1, by omega⟩
  have Hb6 : 0 ≤ b 6 ∧ b 6 < 65574 := ⟨hb6.1, by omega⟩
  have Ha7 : 0 ≤ a 7 ∧ a 7 < 65574 := ⟨ha7.1, by omega⟩
  have Hb7 : 0 ≤ b 7 ∧ b 7 < 65574 := ⟨hb7.1, by omega⟩
  have Ha8 : 0 ≤ a 8 ∧ a 8 < 65574 := ⟨ha8.1, by omega⟩
  have Hb8 : 0 ≤ b 8 ∧ b 8 < 65574 := ⟨hb8.1, by omega⟩
  have Ha9 : 0 ≤ a 9 ∧ a 9 < 65574 := ⟨ha9.1, by omega⟩
  have Hb9 : 0 ≤ b 9 ∧ b 9 < 65574 := ⟨hb9.1, by omega⟩
  have Ha10 : 0 ≤ a 10 ∧ a 10 < 65574 := ⟨ha10.1, by omega⟩
  have Hb10 : 0 ≤ b 10 ∧ b 10 < 65574 := ⟨hb10.1, by omega⟩
  have Ha11 : 0 ≤ a 11 ∧ a 11 < 65574 := ⟨ha11.1, by omega⟩
  have Hb11 : 0 ≤ b 11 ∧ b 11 < 65574 := ⟨hb11.1, by omega⟩
  have Ha12 : 0 ≤ a 12 ∧ a 12 < 65574 := ⟨ha12.1, by omega⟩
  have Hb12 : 0 ≤ b 12 ∧ b 12 < 65574 := ⟨hb12.1, by omega⟩
  have Ha13 : 0 ≤ a 13 ∧ a 13 < 65574 := ⟨ha13.1, by omega⟩
  have Hb13 : 0 ≤ b 13 ∧ b 13 < 65574 := ⟨hb13.1, by omega⟩
  have Ha14 : 0 ≤ a 14 ∧ a 14 < 65574 := ⟨ha14.1, by omega⟩
  have Hb14 : 0 ≤ b 14 ∧ b 14 < 65574 := ⟨hb14.1, by omega⟩
  have Ha15 : 0 ≤ a 15 ∧ a 15 < 65574 := ⟨ha15.1, by omega⟩
  have Hb15 : 0 ≤ b 15 ∧ b 15 < 65574 := ⟨hb15.1, by omega⟩
  have e0 := entry_bound31 (a 0 * b 0) 0 0 0 0 0 0 0 0 0 0 0 0 0 0 0 (a 1 * b 15) (a 2 * b 14) (a 3 * b 13) (a 4 * b 12) (a 5 * b 11) (a 6 * b 10) (a 7 * b 9) (a 8 * b 8) (a 9 * b 7) (a 10 * b 6) (a 11 * b 5) (a 12 * b 4) (a 13 * b 3) (a 14 * b 2) (a 15 * b 1) (prod_lt_bound (a 0) (b 0) Ha0.1 Ha0.2 Hb0.1 Hb0.2) hzero hzero hzero hzero hzero hzero hzero hzero hzero hzero hzero hzero hzero hzero hzero (prod_lt_bound (a 1) (b 15) Ha1.1 Ha1.2 Hb15.1 Hb15.2) (prod_lt_bound (a 2) (b 14) Ha2.1 Ha2.2 Hb14.1 Hb14.2) (prod_lt_bound (a 3) (b 13) Ha3.1 Ha3.2 Hb13.1 Hb13.2) (prod_lt_bound (a 4) (b 12) Ha4.1 Ha4.2 Hb12.1 Hb12.2) (prod_lt_bound (a 5) (b 11) Ha5.1 Ha5.2 Hb11.1 Hb11.2) (prod_lt_bound (a 6) (b 10) Ha6.1 Ha6.2 Hb10.1 Hb10.2) (prod_lt_bound (a 7) (b 9) Ha7.1 Ha7.2 Hb9.1 Hb9.2) (prod_lt_bound (a 8) (b 8) Ha8.1 Ha8.2 Hb8.1 Hb8.2) (prod_lt_bound (a 9) (b 7) Ha9.1 Ha9.2 Hb7.1 Hb7.2) (prod_lt_bound (a 10) (b 6) Ha10.1 Ha10.2 Hb6.1 Hb6.2) (prod_lt_bound (a 11) (b 5) Ha11.1 Ha11.2 Hb5.1 Hb5.2) (prod_lt_bound (a 12) (b 4) Ha12.1 Ha12.2 Hb4.1 Hb4.2) (prod_lt_bound (a 13) (b 3) Ha13.1 Ha13.2 Hb3.1 Hb3.2) (prod_lt_bound (a 14) (b 2) Ha14.1 Ha14.2 Hb2.1 Hb2.2) (prod_lt_bound (a 15) (b 1) Ha15.1 Ha15.2 Hb1.1 Hb1.2)
  have e1 := entry_bound31 (a 0 * b 1) (a 1 * b 0) 0 0 0 0 0 0 0 0 0 0 0 0 0 0 (a 2 * b 15) (a 3 * b 14) (a 4 * b 13) (a 5 * b 12) (a 6 * b 11) (a 7 * b 10) (a 8 * b 9) (a 9 * b 8) (a 10 * b 7) (a 11 * b 6) (a 12 * b 5) (a 13 * b 4) (a 14 * b 3) (a 15 * b 2) 0 (prod_lt_bound (a 0) (b 1) Ha0.1 Ha0.2 Hb1.1 Hb1.2) (prod_lt_bound (a 1) (b 0) Ha1.1 Ha1.2 Hb0.1 Hb0.2) hzero hzero hzero hzero hzero hzero hzero hzero hzero hzero hzero hzero hzero hzero (prod_lt_bound (a 2) (b 15) Ha2.1 Ha2.2 Hb15.1 Hb15.2) (prod_lt_bound (a 3) (b 14) Ha3.1 Ha3.2 Hb14.1 Hb14.2) (prod_lt_bound (a 4) (b 13) Ha4.1 Ha4.2 Hb13.1 Hb13.2) (prod_lt_bound (a 5) (b 12) Ha5.1 Ha5.2 Hb12.1 Hb12.2) (prod_lt_bound (a 6) (b 11) Ha6.1 Ha6.2 Hb11.1 Hb11.2) (prod_lt_bound (a 7) (b 10) Ha7.1 Ha7.2 Hb10.1 Hb10.2) (prod_lt_bound (a 8) (b 9) Ha8.1 Ha8.2 Hb9.1 Hb9.2) (prod_lt_bound (a 9) (b 8) Ha9.1 Ha9.2 Hb8.1 Hb8.2) (prod_lt_bound (a 10) (b 7) Ha10.1 Ha10.2 Hb7.1 Hb7.2) (prod_lt_bound (a 11) (b 6) Ha11.1 Ha11.2 Hb6.1 Hb6.2) (prod_lt_bound (a 12) (b 5) Ha12.1 Ha12.2 Hb5.1 Hb5.2) (prod_lt_bound (a 13) (b 4) Ha13.1 Ha13.2 Hb4.1 Hb4.2) (prod_lt_bound (a 14) (b 3) Ha14.1 Ha14.2 Hb3.1 Hb3.2) (prod_lt_bound (a 15) (b 2) Ha15.1 Ha15.2 Hb2.1 Hb2.2) hzero
  have e2 := entry_bound31 (a 0 * b 2) (a 1 * b 1) (a 2 * b 0) 0 0 0 0 0 0 0 0 0 0 0 0 0 (a 3 * b 15) (a 4 * b 14) (a 5 * b 13) (a 6 * b 12) (a 7 * b 11) (a 8 * b 10) (a 9 * b 9) (a 10 * b 8) (a 11 * b 7) (a 12 * b 6) (a 13 * b 5) (a 14 * b 4) (a 15 * b 3) 0 0 (prod_lt_bound (a 0) (b 2) Ha0.1 Ha0.2 Hb2.1 Hb2.2) (prod_lt_bound (a 1) (b 1) Ha1.1 Ha1.2 Hb1.1 Hb1.2) (prod_lt_bound (a 2) (b 0) Ha2.1 Ha2.2 Hb0.1 Hb0.2) hzero hzero hzero hzero hzero hzero hzero hzero hzero hzero hzero hzero hzero (prod_lt_bound (a 3) (b 15) Ha3.1 Ha3.2 Hb15.1 Hb15.2) (prod_lt_bound (a 4) (b 14) Ha4.1 Ha4.2 Hb14.1 Hb14.2) (prod_lt_bound (a 5) (b 13) Ha5.1 Ha5.2 Hb13.1 Hb13.2) (prod_lt_bound (a 6) (b 12) Ha6.1 Ha6.2 Hb12.1 Hb12.2) (prod_lt_bound (a 7) (b 11) Ha7.1 Ha7.2 Hb11.1 Hb11.2) (prod_lt_bound (a 8) (b 10) Ha8.1 Ha8.2 Hb10.1 Hb10.2) (prod_lt_bound (a 9) (b 9) Ha9.1 Ha9.2 Hb9.1 Hb9.2) (prod_lt_bound (a 10) (b 8) Ha10.1 Ha10.2 Hb8.1 Hb8.2) (prod_lt_bound (a 11) (b 7) Ha11.1 Ha11.2 Hb7.1 Hb7.2) (prod_lt_bound (a 12) (b 6) Ha12.1 Ha12.2 Hb6.1 Hb6.2) (prod_lt_bound (a 13) (b 5) Ha13.1 Ha13.2 Hb5.1 Hb5.2) (prod_lt_bound (a 14) (b 4) Ha14.1 Ha14.2 Hb4.1 Hb4.2) (prod_lt_bound (a 15) (b 3) Ha15.1 Ha15.2 Hb3.1 Hb3.2) hzero hzero
  have e3 := entry_bound31 (a 0 * b 3) (a 1 * b 2) (a 2 * b 1) (a 3 * b 0) 0 0 0 0 0 0 0 0 0 0 0 0 (a 4 * b 15) (a 5 * b 14) (a 6 * b 13) (a 7 * b 12) (a 8 * b 11) (a 9 * b 10) (a 10 * b 9) (a 11 * b 8) (a 12 * b 7) (a 13 * b 6) (a 14 * b 5) (a 15 * b 4) 0 0 0 (prod_lt_bound (a 0) (b 3) Ha0.1 Ha0.2 Hb3.1 Hb3.2) (prod_lt_bound (a 1) (b 2) Ha1.1 Ha1.2 Hb2.1 Hb2.2) (prod_lt_bound (a 2) (b 1) Ha2.1 Ha2.2 Hb1.1 Hb1.2) (prod_lt_bound (a 3) (b 0) Ha3.1 Ha3.2 Hb0.1 Hb0.2) hzero hzero hzero hzero hzero hzero hzero hzero hzero hzero hzero hzero (prod_lt_bound (a 4) (b 15) Ha4.1 Ha4.2 Hb15.1 Hb15.2) (prod_lt_bound (a 5) (b 14) Ha5.1 Ha5.2 Hb14.1 Hb14.2) (prod_lt_bound (a 6) (b 13) Ha6.1 Ha6.2 Hb13.1 Hb13.2) (prod_lt_bound (a 7) (b 12) Ha7.1 Ha7.2 Hb12.1 Hb12.2) (prod_lt_bound (a 8) (b 11) Ha8.1 Ha8.2 Hb11.1 Hb11.2) (prod_lt_bound (a 9) (b 10) Ha9.1 Ha9.2 Hb10.1 Hb10.2) (prod_lt_bound (a 10) (b 9) Ha10.1 Ha10.2 Hb9.1 Hb9.2) (prod_lt_bound (a 11) (b 8) Ha11.1 Ha11.2 Hb8.1 Hb8.2) (prod_lt_bound (a 12) (b 7) Ha12.1 Ha12.2 Hb7.1 Hb7.2) (prod_lt_bound (a 13) (b 6) Ha13.1 Ha13.2 Hb6.1 Hb6.2) (prod_lt_bound (a 14) (b 5) Ha14.1 Ha14.2 Hb5.1 Hb5.2) (prod_lt_bound (a 15) (b 4) Ha15.1 Ha15.2 Hb4.1 Hb4.2) hzero hzero hzero
  have e4 := entry_bound31 (a 0 * b 4) (a 1 * b 3) (a 2 * b 2) (a 3 * b 1) (a 4 * b 0) 0 0 0 0 0 0 0 0 0 0 0 (a 5 * b 15) (a 6 * b 14) (a 7 * b 13) (a 8 * b 12) (a 9 * b 11) (a 10 * b 10) (a 11 * b 9) (a 12 * b 8) (a 13 * b 7) (a 14 * b 6) (a 15 * b 5) 0 0 0 0 (prod_lt_bound (a 0) (b 4) Ha0.1 Ha0.2 Hb4.1 Hb4.2) (prod_lt_bound (a 1) (b 3) Ha1.1 Ha1.2 Hb3.1 Hb3.2) (prod_lt_bound (a 2) (b 2) Ha2.1 Ha2.2 Hb2.1 Hb2.2) (prod_lt_bound (a 3) (b 1) Ha3.1 Ha3.2 Hb1.1 Hb1.2) (prod_lt_bound (a 4) (b 0) Ha4.1 Ha4.2 Hb0.1 Hb0.2) hzero hzero hzero hzero hzero hzero hzero hzero hzero hzero hzero (prod_lt_bound (a 5) (b 15) Ha5.1 Ha5.2 Hb15.1 Hb15.2) (prod_lt_bound (a 6) (b 14) Ha6.1 Ha6.2 Hb14.1 Hb14.2) (prod_lt_bound (a 7) (b 13) Ha7.1 Ha7.2 Hb13.1 Hb13.2) (prod_lt_bound (a 8) (b 12) Ha8.1 Ha8.2 Hb12.1 Hb12.2) (prod_lt_bound (a 9) (b 11) Ha9.1 Ha9.2 Hb11.1 Hb11.2) (prod_lt_bound (a 10) (b 10) Ha10.1 Ha10.2 Hb10.1 Hb10.2) (prod_lt_bound (a 11) (b 9) Ha11.1 Ha11.2 Hb9.1 Hb9.2) (prod_lt_bound (a 12) (b 8) Ha12.1 Ha12.2 Hb8.1 Hb8.2) (prod_lt_bound (a 13) (b 7) Ha13.1 Ha13.2 Hb7.1 Hb7.2) (prod_lt_bound (a 14) (b 6) Ha14.1 Ha14.2 Hb6.1 Hb6.2) (prod_lt_bound (a 15) (b 5) Ha15.1 Ha15.2 Hb5.1 Hb5.2) hzero hzero hzero hzero
  have e5 := entry_bound31 (a 0 * b 5) (a 1 * b 4) (a 2 * b 3) (a 3 * b 2) (a 4 * b 1) (a 5 * b 0) 0 0 0 0 0 0 0 0 0 0 (a 6 * b 15) (a 7 * b 14) (a 8 * b 13) (a 9 * b 12) (a 10 * b 11) (a 11 * b 10) (a 12 * b 9) (a 13 * b 8) (a 14 * b 7) (a 15 * b 6) 0 0 0 0 0 (prod_lt_bound (a 0) (b 5) Ha0.1 Ha0.2 Hb5.1 Hb5.2) (prod_lt_bound (a 1) (b 4) Ha1.1 Ha1.2 Hb4.1 Hb4.2) (prod_lt_bound (a 2) (b 3) Ha2.1 Ha2.2 Hb3.1 Hb3.2) (prod_lt_bound (a 3) (b 2) Ha3.1 Ha3.2 Hb2.1 Hb2.2) (prod_lt_bound (a 4) (b 1) Ha4.1 Ha4.2 Hb1.1 Hb1.2) (prod_lt_bound (a 5) (b 0) Ha5.1 Ha5.2 Hb0.1 Hb0.2) hzero hzero hzero hzero hzero hzero hzero hzero hzero hzero (prod_lt_bound (a 6) (b 15) Ha6.1 Ha6.2 Hb15.1 Hb15.2) (prod_lt_bound (a 7) (b 14) Ha7.1 Ha7.2 Hb14.1 Hb14.2) (prod_lt_bound (a 8) (b 13) Ha8.1 Ha8.2 Hb13.1 Hb13.2) (prod_lt_bound (a 9) (b 12) Ha9.1 Ha9.2 Hb12.1 Hb12.2) (prod_lt_bound (a 10) (b 11) Ha10.1 Ha10.2 Hb11.1 Hb11.2) (prod_lt_bound (a 11) (b 10) Ha11.1 Ha11.2 Hb10.1 Hb10.2) (prod_lt_bound (a 12) (b 9) Ha12.1 Ha12.2 Hb9.1 Hb9.2) (prod_lt_bound (a 13) (b 8) Ha13.1 Ha13.2 Hb8.1 Hb8.2) (prod_lt_bound (a 14) (b 7) Ha14.1 Ha14.2 Hb7.1 Hb7.2) (prod_lt_bound (a 15) (b 6) Ha15.1 Ha15.2 Hb6.1 Hb6.2) hzero hzero hzero hzero hzero
  have e6 := entry_bound31 (a 0 * b 6) (a 1 * b 5) (a 2 * b 4) (a 3 * b 3) (a 4 * b 2) (a 5 * b 1) (a 6 * b 0) 0 0 0 0 0 0 0 0 0 (a 7 * b 15) (a 8 * b 14) (a 9 * b 13) (a 10 * b 12) (a 11 * b 11) (a 12 * b 10) (a 13 * b 9) (a 14 * b 8) (a 15 * b 7) 0 0 0 0 0 0 (prod_lt_bound (a 0) (b 6) Ha0.1 Ha0.2 Hb6.1 Hb6.2) (prod_lt_bound (a 1) (b 5) Ha1.1 Ha1.2 Hb5.1 Hb5.2) (prod_lt_bound (a 2) (b 4) Ha2.1 Ha2.2 Hb4.1 Hb4.2) (prod_lt_bound (a 3) (b 3) Ha3.1 Ha3.2 Hb3.1 Hb3.2) (prod_lt_bound (a 4) (b 2) Ha4.1 Ha4.2 Hb2.1 Hb2.2) (prod_lt_bound (a 5) (b 1) Ha5.1 Ha5.2 Hb1.1 Hb1.2) (prod_lt_bound (a 6) (b 0) Ha6.1 Ha6.2 Hb0.1 Hb0.2) hzero hzero hzero hzero hzero hzero hzero hzero hzero (prod_lt_bound (a 7) (b 15) Ha7.1 Ha7.2 Hb15.1 Hb15.2) (prod_lt_bound (a 8) (b 14) Ha8.1 Ha8.2 Hb14.1 Hb14.2) (prod_lt_bound (a 9) (b 13) Ha9.1 Ha9.2 Hb13.1 Hb13.2) (prod_lt_bound (a 10) (b 12) Ha10.1 Ha10.2 Hb12.1 Hb12.2) (prod_lt_bound (a 11) (b 11) Ha11.1 Ha11.2 Hb11.1 Hb11.2) (prod_lt_bound (a 12) (b 10) Ha12.1 Ha12.2 Hb10.1 Hb10.2) (prod_lt_bound (a 13) (b 9) Ha13.1 Ha13.2 Hb9.1 Hb9.2) (prod_lt_bound (a 14) (b 8) Ha14.1 Ha14.2 Hb8.1 Hb8.2) (prod_lt_bound (a 15) (b 7) Ha15.1 Ha15.2 Hb7.1 Hb7.2) hzero hzero hzero hzero hzero hzero
  have e7 := entry_bound31 (a 0 * b 7) (a 1 * b 6) (a 2 * b 5) (a 3 * b 4) (a 4 * b 3) (a 5 * b 2) (a 6 * b 1) (a 7 * b 0) 0 0 0 0 0 0 0 0 (a 8 * b 15) (a 9 * b 14) (a 10 * b 13) (a 11 * b 12) (a 12 * b 11) (a 13 * b 10) (a 14 * b 9) (a 15 * b 8) 0 0 0 0 0 0 0 (prod_lt_bound (a 0) (b 7) Ha0.1 Ha0.2 Hb7.1 Hb7.2) (prod_lt_bound (a 1) (b 6) Ha1.1 Ha1.2 Hb6.1 Hb6.2) (prod_lt_bound (a 2) (b 5) Ha2.1 Ha2.2 Hb5.1 Hb5.2) (prod_lt_bound (a 3) (b 4) Ha3.1 Ha3.2 Hb4.1 Hb4.2) (prod_lt_bound (a 4) (b 3) Ha4.1 Ha4.2 Hb3.1 Hb3.2) (prod_lt_bound (a 5) (b 2) Ha5.1 Ha5.2 Hb2.1 Hb2.2) (prod_lt_bound (a 6) (b 1) Ha6.1 Ha6.2 Hb1.1 Hb1.2) (prod_lt_bound (a 7) (b 0) Ha7.1 Ha7.2 Hb0.1 Hb0.2) hzero hzero hzero hzero hzero hzero hzero hzero (prod_lt_bound (a 8) (b 15) Ha8.1 Ha8.2 Hb15.1 Hb15.2) (prod_lt_bound (a 9) (b 14) Ha9.1 Ha9.2 Hb14.1 Hb14.2) (prod_lt_bound (a 10) (b 13) Ha10.1 Ha10.2 Hb13.1 Hb13.2) (prod_lt_bound (a 11) (b 12) Ha11.1 Ha11.2 Hb12.1 Hb12.2) (prod_lt_bound (a 12) (b 11) Ha12.1 Ha12.2 Hb11.1 Hb11.2) (prod_lt_bound (a 13) (b 10) Ha13.1 Ha13.2 Hb10.1 Hb10.2) (prod_lt_bound (a 14) (b 9) Ha14.1 Ha14.2 Hb9.1 Hb9.2) (prod_lt_bound (a 15) (b 8) Ha15.1 Ha15.2 Hb8.1 Hb8.2) hzero hzero hzero hzero hzero hzero hzero
  have e8 := entry_bound31 (a 0 * b 8) (a 1 * b 7) (a 2 * b 6) (a 3 * b 5) (a 4 * b 4) (a 5 * b 3) (a 6 * b 2) (a 7 * b 1) (a 8 * b 0) 0 0 0 0 0 0 0 (a 9 * b 15) (a 10 * b 14) (a 11 * b 13) (a 12 * b 12) (a 13 * b 11) (a 14 * b 10) (a 15 * b 9) 0 0 0 0 0 0 0 0 (prod_lt_bound (a 0) (b 8) Ha0.1 Ha0.2 Hb8.1 Hb8.2) (prod_lt_bound (a 1) (b 7) Ha1.1 Ha1.2 Hb7.1 Hb7.2) (prod_lt_bound (a 2) (b 6) Ha2.1 Ha2.2 Hb6.1 Hb6.2) (prod_lt_bound (a 3) (b 5) Ha3.1 Ha3.2 Hb5.1 Hb5.2) (prod_lt_bound (a 4) (b 4) Ha4.1 Ha4.2 Hb4.1 Hb4.2) (prod_lt_bound (a 5) (b 3) Ha5.1 Ha5.2 Hb3.1 Hb3.2) (prod_lt_bound (a 6) (b 2) Ha6.1 Ha6.2 Hb2.1 Hb2.2) (prod_lt_bound (a 7) (b 1) Ha7.1 Ha7.2 Hb1.1 Hb1.2) (prod_lt_bound (a 8) (b 0) Ha8.1 Ha8.2 Hb0.1 Hb0.2) hzero hzero hzero hzero hzero hzero hzero (prod_lt_bound (a 9) (b 15) Ha9.1 Ha9.2 Hb15.1 Hb15.2) (prod_lt_bound (a 10) (b 14) Ha10.1 Ha10.2 Hb14.1 Hb14.2) (prod_lt_bound (a 11) (b 13) Ha11.1 Ha11.2 Hb13.1 Hb13.2) (prod_lt_bound (a 12) (b 12) Ha12.1 Ha12.2 Hb12.1 Hb12.2) (prod_lt_bound (a 13) (b 11) Ha13.1 Ha13.2 Hb11.1 Hb11.2) (prod_lt_bound (a 14) (b 10) Ha14.1 Ha14.2 Hb10.1 Hb10.2) (prod_lt_bound (a 15) (b 9) Ha15.1 Ha15.2 Hb9.1 Hb9.2) hzero hzero hzero hzero hzero hzero hzero hzero
  have e9 := entry_bound31 (a 0 * b 9) (a 1 * b 8) (a 2 * b 7) (a 3 * b 6) (a 4 * b 5) (a 5 * b 4) (a 6 * b 3) (a 7 * b 2) (a 8 * b 1) (a 9 * b 0) 0 0 0 0 0 0 (a 10 * b 15) (a 11 * b 14) (a 12 * b 13) (a 13 * b 12) (a 14 * b 11) (a 15 * b 10) 0 0 0 0 0 0 0 0 0 (prod_lt_bound (a 0) (b 9) Ha0.1 Ha0.2 Hb9.1 Hb9.2) (prod_lt_bound (a 1) (b 8) Ha1.1 Ha1.2 Hb8.1 Hb8.2) (prod_lt_bound (a 2) (b 7) Ha2.1 Ha2.2 Hb7.1 Hb7.2) (prod_lt_bound (a 3) (b 6) Ha3.1 Ha3.2 Hb6.1 Hb6.2) (prod_lt_bound (a 4) (b 5) Ha4.1 Ha4.2 Hb5.1 Hb5.2) (prod_lt_bound (a 5) (b 4) Ha5.1 Ha5.2 Hb4.1 Hb4.2) (prod_lt_bound (a 6) (b 3) Ha6.1 Ha6.2 Hb3.1 Hb3.2) (prod_lt_bound (a 7) (b 2) Ha7.1 Ha7.2 Hb2.1 Hb2.2) (prod_lt_bound (a 8) (b 1) Ha8.1 Ha8.2 Hb1.1 Hb1.2) (prod_lt_bound (a 9) (b 0) Ha9.1 Ha9.2 Hb0.1 Hb0.2) hzero hzero hzero hzero hzero hzero (prod_lt_bound (a 10) (b 15) Ha10.1 Ha10.2 Hb15.1 Hb15.2) (prod_lt_bound (a 11) (b 14) Ha11.1 Ha11.2 Hb14.1 Hb14.2) (prod_lt_bound (a 12) (b 13) Ha12.1 Ha12.2 Hb13.1 Hb13.2) (prod_lt_bound (a 13) (b 12) Ha13.1 Ha13.2 Hb12.1 Hb12.2) (prod_lt_bound (a 14) (b 11) Ha14.1 Ha14.2 Hb11.1 Hb11.2) (prod_lt_bound (a 15) (b 10) Ha15.1 Ha15.2 Hb10.1 Hb10.2) hzero hzero hzero hzero hzero hzero hzero hzero hzero
  have e10 := entry_bound31 (a 0 * b 10) (a 1 * b 9) (a 2 * b 8) (a 3 * b 7) (a 4 * b 6) (a 5 * b 5) (a 6 * b 4) (a 7 * b 3) (a 8 * b 2) (a 9 * b 1) (a 10 * b 0) 0 0 0 0 0 (a 11 * b 15) (a 12 * b 14) (a 13 * b 13) (a 14 * b 12) (a 15 * b 11) 0 0 0 0 0 0 0 0 0 0 (prod_lt_bound (a 0) (b 10) Ha0.1 Ha0.2 Hb10.1 Hb10.2) (prod_lt_bound (a 1) (b 9) Ha1.1 Ha1.2 Hb9.1 Hb9.2) (prod_lt_bound (a 2) (b 8) Ha2.1 Ha2.2 Hb8.1 Hb8.2) (prod_lt_bound (a 3) (b 7) Ha3.1 Ha3.2 Hb7.1 Hb7.2) (prod_lt_bound (a 4) (b 6) Ha4.1 Ha4.2 Hb6.1 Hb6.2) (prod_lt_bound (a 5) (b 5) Ha5.1 Ha5.2 Hb5.1 Hb5.2) (prod_lt_bound (a 6) (b 4) Ha6.1 Ha6.2 Hb4.1 Hb4.2) (prod_lt_bound (a 7) (b 3) Ha7.1 Ha7.2 Hb3.1 Hb3.2) (prod_lt_bound (a 8) (b 2) Ha8.1 Ha8.2 Hb2.1 Hb2.2) (prod_lt_bound (a 9) (b 1) Ha9.1 Ha9.2 Hb1.1 Hb1.2) (prod_lt_bound (a 10) (b 0) Ha10.1 Ha10.2 Hb0.1 Hb0.2) hzero hzero hzero hzero hzero (prod_lt_bound (a 11) (b 15) Ha11.1 Ha11.2 Hb15.1 Hb15.2) (prod_lt_bound (a 12) (b 14) Ha12.1 Ha12.2 Hb14.1 Hb14.2) (prod_lt_bound (a 13) (b 13) Ha13.1 Ha13.2 Hb13.1 Hb13.2) (prod_lt_bound (a 14) (b 12) Ha14.1 Ha14.2 Hb12.1 Hb12.2) (prod_lt_bound (a 15) (b 11) Ha15.1 Ha15.2 Hb11.1 Hb11.2) hzero hzero hzero hzero hzero hzero hzero hzero hzero hzero
  have e11 := entry_bound31 (a 0 * b 11) (a 1 * b 10) (a 2 * b 9) (a 3 * b 8) (a 4 * b 7) (a 5 * b 6) (a 6 * b 5) (a 7 * b 4) (a 8 * b 3) (a 9 * b 2) (a 10 * b 1) (a 11 * b 0) 0 0 0 0 (a 12 * b 15) (a 13 * b 14) (a 14 * b 13) (a 15 * b 12) 0 0 0 0 0 0 0 0 0 0 0 (prod_lt_bound (a 0) (b 11) Ha0.1 Ha0.2 Hb11.1 Hb11.2) (prod_lt_bound (a 1) (b 10) Ha1.1 Ha1.2 Hb10.1 Hb10.2) (prod_lt_bound (a 2) (b 9) Ha2.1 Ha2.2 Hb9.1 Hb9.2) (prod_lt_bound (a 3) (b 8) Ha3.1 Ha3.2 Hb8.1 Hb8.2) (prod_lt_bound (a 4) (b 7) Ha4.1 Ha4.2 Hb7.1 Hb7.2) (prod_lt_bound (a 5) (b 6) Ha5.1 Ha5.2 Hb6.1 Hb6.2) (prod_lt_bound (a 6) (b 5) Ha6.1 Ha6.2 Hb5.1 Hb5.2) (prod_lt_bound (a 7) (b 4) Ha7.1 Ha7.2 Hb4.1 Hb4.2) (prod_lt_bound (a 8) (b 3) Ha8.1 Ha8.2 Hb3.1 Hb3.2) (prod_lt_bound (a 9) (b 2) Ha9.1 Ha9.2 Hb2.1 Hb2.2) (prod_lt_bound (a 10) (b 1) Ha10.1 Ha10.2 Hb1.1 Hb1.2) (prod_lt_bound (a 11) (b 0) Ha11.1 Ha11.2 Hb0.1 Hb0.2) hzero hzero hzero hzero (prod_lt_bound (a 12) (b 15) Ha12.1 Ha12.2 Hb15.1 Hb15.2) (prod_lt_bound (a 13) (b 14) Ha13.1 Ha13.2 Hb14.1 Hb14.2) (prod_lt_bound (a 14) (b 13) Ha14.1 Ha14.2 Hb13.1 Hb13.2) (prod_lt_bound (a 15) (b 12) Ha15.1 Ha15.2 Hb12.1 Hb12.2) hzero hzero hzero hzero hzero hzero hzero hzero hzero hzero hzero
  have e12 := entry_bound31 (a 0 * b 12) (a 1 * b 11) (a 2 * b 10) (a 3 * b 9) (a 4 * b 8) (a 5 * b 7) (a 6 * b 6) (a 7 * b 5) (a 8 * b 4) (a 9 * b 3) (a 10 * b 2) (a 11 * b 1) (a 12 * b 0) 0 0 0 (a 13 * b 15) (a 14 * b 14) (a 15 * b 13) 0 0 0 0 0 0 0 0 0 0 0 0 (prod_lt_bound (a 0) (b 12) Ha0.1 Ha0.2 Hb12.1 Hb12.2) (prod_lt_bound (a 1) (b 11) Ha1.1 Ha1.2 Hb11.1 Hb11.2) (prod_lt_bound (a 2) (b 10) Ha2.1 Ha2.2 Hb10.1 Hb10.2) (prod_lt_bound (a 3) (b 9) Ha3.1 Ha3.2 Hb9.1 Hb9.2) (prod_lt_bound (a 4) (b 8) Ha4.1 Ha4.2 Hb8.1 Hb8.2) (prod_lt_bound (a 5) (b 7) Ha5.1 Ha5.2 Hb7.1 Hb7.2) (prod_lt_bound (a 6) (b 6) Ha6.1 Ha6.2 Hb6.1 Hb6.2) (prod_lt_bound (a 7) (b 5) Ha7.1 Ha7.2 Hb5.1 Hb5.2) (prod_lt_bound (a 8) (b 4) Ha8.1 Ha8.2 Hb4.1 Hb4.2) (prod_lt_bound (a 9) (b 3) Ha9.1 Ha9.2 Hb3.1 Hb3.2) (prod_lt_bound (a 10) (b 2) Ha10.1 Ha10.2 Hb2.1 Hb2.2) (prod_lt_bound (a 11) (b 1) Ha11.1 Ha11.2 Hb1.1 Hb1.2) (prod_lt_bound (a 12) (b 0) Ha12.1 Ha12.2 Hb0.1 Hb0.2) hzero hzero hzero (prod_lt_bound (a 13) (b 15) Ha13.1 Ha13.2 Hb15.1 Hb15.2) (prod_lt_bound (a 14) (b 14) Ha14.1 Ha14.2 Hb14.1 Hb14.2) (prod_lt_bound (a 15) (b 13) Ha15.1 Ha15.2 Hb13.1 Hb13.2) hzero hzero hzero hzero hzero hzero hzero hzero hzero hzero hzero hzero
  have e13 := entry_bound31 (a 0 * b 13) (a 1 * b 12) (a 2 * b 11) (a 3 * b 10) (a 4 * b 9) (a 5 * b 8) (a 6 * b 7) (a 7 * b 6) (a 8 * b 5) (a 9 * b 4) (a 10 * b 3) (a 11 * b 2) (a 12 * b 1) (a 13 * b 0) 0 0 (a 14 * b 15) (a 15 * b 14) 0 0 0 0 0 0 0 0 0 0 0 0 0 (prod_lt_bound (a 0) (b 13) Ha0.1 Ha0.2 Hb13.1 Hb13.2) (prod_lt_bound (a 1) (b 12) Ha1.1 Ha1.2 Hb12.1 Hb12.2) (prod_lt_bound (a 2) (b 11) Ha2.1 Ha2.2 Hb11.1 Hb11.2) (prod_lt_bound (a 3) (b 10) Ha3.1 Ha3.2 Hb10.1 Hb10.2) (prod_lt_bound (a 4) (b 9) Ha4.1 Ha4.2 Hb9.1 Hb9.2) (prod_lt_bound (a 5) (b 8) Ha5.1 Ha5.2 Hb8.1 Hb8.2) (prod_lt_bound (a 6) (b 7) Ha6.1 Ha6.2 Hb7.1 Hb7.2) (prod_lt_bound (a 7) (b 6) Ha7.1 Ha7.2 Hb6.1 Hb6.2) (prod_lt_bound (a 8) (b 5) Ha8.1 Ha8.2 Hb5.1 Hb5.2) (prod_lt_bound (a 9) (b 4) Ha9.1 Ha9.2 Hb4.1 Hb4.2) (prod_lt_bound (a 10) (b 3) Ha10.1 Ha10.2 Hb3.1 Hb3.2) (prod_lt_bound (a 11) (b 2) Ha11.1 Ha11.2 Hb2.1 Hb2.2) (prod_lt_bound (a 12) (b 1) Ha12.1 Ha12.2 Hb1.1 Hb1.2) (prod_lt_bound (a 13) (b 0) Ha13.1 Ha13.2 Hb0.1 Hb0.2) hzero hzero (prod_lt_bound (a 14) (b 15) Ha14.1 Ha14.2 Hb15.1 Hb15.2) (prod_lt_bound (a 15) (b 14) Ha15.1 Ha15.2 Hb14.1 Hb14.2) hzero hzero hzero hzero hzero hzero hzero hzero hzero hzero hzero hzero hzero
  have e14 := entry_bound31 (a 0 * b 14) (a 1 * b 13) (a 2 * b 12) (a 3 * b 11) (a 4 * b 10) (a 5 * b 9) (a 6 * b 8) (a 7 * b 7) (a 8 * b 6) (a 9 * b 5) (a 10 * b 4) (a 11 * b 3) (a 12 * b 2) (a 13 * b 1) (a 14 * b 0) 0 (a 15 * b 15) 0 0 0 0 0 0 0 0 0 0 0 0 0 0 (prod_lt_bound (a 0) (b 14) Ha0.1 Ha0.2 Hb14.1 Hb14.2) (prod_lt_bound (a 1) (b 13) Ha1.1 Ha1.2 Hb13.1 Hb13.2) (prod_lt_bound (a 2) (b 12) Ha2.1 Ha2.2 Hb12.1 Hb12.2) (prod_lt_bound (a 3) (b 11) Ha3.1 Ha3.2 Hb11.1 Hb11.2) (prod_lt_bound (a 4) (b 10) Ha4.1 Ha4.2 Hb10.1 Hb10.2) (prod_lt_bound (a 5) (b 9) Ha5.1 Ha5.2 Hb9.1 Hb9.2) (prod_lt_bound (a 6) (b 8) Ha6.1 Ha6.2 Hb8.1 Hb8.2) (prod_lt_bound (a 7) (b 7) Ha7.1 Ha7.2 Hb7.1 Hb7.2) (prod_lt_bound (a 8) (b 6) Ha8.1 Ha8.2 Hb6.1 Hb6.2) (prod_lt_bound (a 9) (b 5) Ha9.1 Ha9.2 Hb5.1 Hb5.2) (prod_lt_bound (a 10) (b 4) Ha10.1 Ha10.2 Hb4.1 Hb4.2) (prod_lt_bound (a 11) (b 3) Ha11.1 Ha11.2 Hb3.1 Hb3.2) (prod_lt_bound (a 12) (b 2) Ha12.1 Ha12.2 Hb2.1 Hb2.2) (prod_lt_bound (a 13) (b 1) Ha13.1 Ha13.2 Hb1.1 Hb1.2) (prod_lt_bound (a 14) (b 0) Ha14.1 Ha14.2 Hb0.1 Hb0.2) hzero (prod_lt_bound (a 15) (b 15) Ha15.1 Ha15.2 Hb15.1 Hb15.2) hzero hzero hzero hzero hzero hzero hzero hzero hzero hzero hzero hzero hzero hzero
  have e15 := entry_bound31 (a 0 * b 15) (a 1 * b 14) (a 2 * b 13) (a 3 * b 12) (a 4 * b 11) (a 5 * b 10) (a 6 * b 9) (a 7 * b 8) (a 8 * b 7) (a 9 * b 6) (a 10 * b 5) (a 11 * b 4) (a 12 * b 3) (a 13 * b 2) (a 14 * b 1) (a 15 * b 0) 0 0 0 0 0 0 0 0 0 0 0 0 0 0 0 (prod_lt_bound (a 0) (b 15) Ha0.1 Ha0.2 Hb15.1 Hb15.2) (prod_lt_bound (a 1) (b 14) Ha1.1 Ha1.2 Hb14.1 Hb14.2) (prod_lt_bound (a 2) (b 13) Ha2.1 Ha2.2 Hb13.1 Hb13.2) (prod_lt_bound (a 3) (b 12) Ha3.1 Ha3.2 Hb12.1 Hb12.2) (prod_lt_bound (a 4) (b 11) Ha4.1 Ha4.2 Hb11.1 Hb11.2) (prod_lt_bound (a 5) (b 10) Ha5.1 Ha5.2 Hb10.1 Hb10.2) (prod_lt_bound (a 6) (b 9) Ha6.1 Ha6.2 Hb9.1 Hb9.2) (prod_lt_bound (a 7) (b 8) Ha7.1 Ha7.2 Hb8.1 Hb8.2) (prod_lt_bound (a 8) (b 7) Ha8.1 Ha8.2 Hb7.1 Hb7.2) (prod_lt_bound (a 9) (b 6) Ha9.1 Ha9.2 Hb6.1 Hb6.2) (prod_lt_bound (a 10) (b 5) Ha10.1 Ha10.2 Hb5.1 Hb5.2) (prod_lt_bound (a 11) (b 4) Ha11.1 Ha11.2 Hb4.1 Hb4.2) (prod_lt_bound (a 12) (b 3) Ha12.1 Ha12.2 Hb3.1 Hb3.2) (prod_lt_bound (a 13) (b 2) Ha13.1 Ha13.2 Hb2.1 Hb2.2) (prod_lt_bound (a 14) (b 1) Ha14.1 Ha14.2 Hb1.1 Hb1.2) (prod_lt_bound (a 15) (b 0) Ha15.1 Ha15.2 Hb0.1 Hb0.2) hzero hzero hzero hzero hzero hzero hzero hzero hzero hzero hzero hzero hzero hzero hzero
  unfold mulFold
  simp only [mk16_0, mk16_1, mk16_2, mk16_3, mk16_4, mk16_5, mk16_6, mk16_7, mk16_8, mk16_9, mk16_10, mk16_11, mk16_12, mk16_13, mk16_14, mk16_15]
  omega

/-- `mul` represents the product of its inputs' values modulo p. -/
theorem mul_modeq (a b : F) : val (mul a b) ≡ val a * val b [ZMOD P] := by
  unfold mul
  exact (carry_modeq _).trans ((carry_modeq _).trans (mulFold_modeq a b))

/-- `mul` maps `InD1` inputs to an `InD1` result; this is the shape discipline
that makes the two carry passes inside `mul` and the three inside `pack` line up. -/
theorem mul_D1 (a b : F) (ha : InD1 a) (hb : InD1 b) : InD1 (mul a b) := by
  have h1 := mulFold_bounds a b ha hb
  have h2 := carry_fold_shape (mulFold a b) h1
  unfold mul
  exact carry_shapeA (carry (mulFold a b)) h2


/-- The exponent accumulated by the `inverse` loop after processing bit
positions n-1, ..., 0: every bit contributes 2^i except bits 2 and 4. -/
def invExp : ℕ → ℕ
  | 0 => 0
  | n + 1 => invExp n + (if n ≠ 2 ∧ n ≠ 4 then 2 ^ n else 0)

theorem invExp_eq (n : ℕ) (h : 5 ≤ n) : invExp n = 2 ^ n - 21 := by
  induction n with
  | zero => omega
  | succ n ih =>
    rcases Nat.lt_or_ge n 5 with h5 | h5
    · have hn : n = 4 := by omega
      subst hn
      decide
    · have hn : invExp n = 2 ^ n - 21 := ih h5
      have h2 : 2 ^ n ≥ 32 := by
        calc (32 : ℕ) = 2 ^ 5 := by norm_num
        _ ≤ 2 ^ n := Nat.pow_le_pow_right (by norm_num) h5
      unfold invExp
      rw [if_pos (by omega), hn]
      omega

/-- The accumulator of the `inverse` loop stays in `InD1`. -/
theorem inverseLoop_D1 (a : F) (n : ℕ) (r : F) (ha : InD1 a) (hr : InD1 r) :
    InD1 (inverseLoop a n r) := by
  induction n generalizing r with
  | zero => exact hr
  | succ n ih =>
    unfold inverseLoop inverseStep
    apply ih
    split
    · exact mul_D1 _ _ (mul_D1 _ _ hr hr) ha
    · exact mul_D1 _ _ hr hr

/-- After n steps the `inverse` loop has computed r^(2^n) · a^(invExp n) mod p. -/
theorem inverseLoop_modeq (a : F) (n : ℕ) (r : F) :
    val (inverseLoop a n r) ≡ val r ^ (2 ^ n) * val a ^ invExp n [ZMOD P] := by
  induction n generalizing r with
  | zero =>
    unfold inverseLoop invExp
    simp
  | succ n ih =>
    unfold inverseLoop inverseStep
    split
    · calc val (inverseLoop a n (mul (mul r r) a))
          ≡ val (mul (mul r r) a) ^ 2 ^ n * val a ^ invExp n [ZMOD P] := ih _
        _ ≡ (val r ^ 2 * val a) ^ 2 ^ n * val a ^ invExp n [ZMOD P] := by
            refine Int.ModEq.mul ?_ Int.ModEq.rfl
            refine Int.ModEq.pow _ ?_
            calc val (mul (mul r r) a) ≡ val (mul r r) * val a [ZMOD P] := mul_modeq _ _
              _ ≡ (val r * val r) * val a [ZMOD P] :=
                  Int.ModEq.mul (mul_modeq r r) Int.ModEq.rfl
              _ = val r ^ 2 * val a := by ring
        _ = val r ^ 2 ^ (n + 1) * val a ^ (invExp n + 2 ^ n) := by
            have e1 : 2 * 2 ^ n = 2 ^ (n + 1) := by
              rw [Nat.pow_succ]
              omega
            have e2 : 2 ^ n + invExp n = invExp n + 2 ^ n := by omega
            rw [mul_pow, ← pow_mul, mul_assoc, ← pow_add, e1, e2]
        _ = val r ^ 2 ^ (n + 1) * val a ^ invExp (n + 1) := by
            simp only [invExp]
            rw [if_pos (by assumption)]
    · calc val (inverseLoop a n (mul r r))
          ≡ val (mul r r) ^ 2 ^ n * val a ^ invExp n [ZMOD P] := ih _
        _ ≡ (val r * val r) ^ 2 ^ n * val a ^ invExp n [ZMOD P] :=
            Int.ModEq.mul (Int.ModEq.pow _ (mul_modeq r r)) Int.ModEq.rfl
        _ = val r ^ 2 ^ (n + 1) * val a ^ invExp n := by
            have e1 : 2 * 2 ^ n = 2 ^ (n + 1) := by
              rw [Nat.pow_succ]
              omega
            rw [← pow_two, ← pow_mul, e1]
        _ = val r ^ 2 ^ (n + 1) * val a ^ invExp (n + 1) := by
            simp only [invExp]
            rw [if_neg (by assumption)]
            norm_num

/-- `inverse` computes a^(p-2) mod p: the fixed chain realises the exponent
2^255 - 21. -/
theorem inverse_modeq (a : F) : val (inverse a) ≡ val a ^ (2 ^ 255 - 21) [ZMOD P] := by
  unfold inverse
  calc val (inverseLoop a 254 a)
      ≡ val a ^ 2 ^ 254 * val a ^ invExp 254 [ZMOD P] := inverseLoop_modeq a 254 a
    _ = val a ^ (2 ^ 254 + invExp 254) := by rw [pow_add]
    _ = val a ^ (2 ^ 255 - 21) := by
        have e : 2 ^ 254 + invExp 254 = 2 ^ 255 - 21 := by
          rw [invExp_eq 254 (by norm_num)]
          norm_num
        rw [e]

/-- `inverse` stays in `InD1`. -/
theorem inverse_D1 (a : F) (ha : InD1 a) : InD1 (inverse a) := by
  unfold inverse
  exact inverseLoop_D1 a 254 a ha ha

/-! ### Primality of p = 2^255 - 19, via Lucas certificates. -/

/-- Binary modular exponentiation with an explicit fuel bound, kernel-friendly. -/
def powModAux (m a : ℕ) : ℕ → ℕ → ℕ
  | 0, _ => 1 % m
  | fuel + 1, n =>
    if n = 0 then 1 % m
    else
      let r := powModAux m a fuel (n / 2)
      if n % 2 = 0 then r * r % m else r * r % m * a % m

theorem powModAux_correct (m a : ℕ) :
    ∀ fuel n, n < 2 ^ fuel → powModAux m a fuel n = a ^ n % m := by
  intro fuel
  induction fuel with
  | zero =>
    intro n hn
    have h0 : n = 0 := by omega
    subst h0
    simp [powModAux]
  | succ fuel ih =>
    intro n hn
    by_cases h0 : n = 0
    · subst h0
      simp [powModAux]
    · have hrec := ih (n / 2) (by
        have h2 : (2:ℕ) ^ (fuel + 1) = 2 ^ fuel * 2 := by rw [Nat.pow_succ]
        omega)
      show (if n = 0 then 1 % m
        else
          let r := powModAux m a fuel (n / 2)
          if n % 2 = 0 then r * r % m else r * r % m * a % m) = a ^ n % m
      rw [if_neg h0]
      show (if n % 2 = 0 then powModAux m a fuel (n / 2) * powModAux m a fuel (n / 2) % m
        else powModAux m a fuel (n / 2) * powModAux m a fuel (n / 2) % m * a % m) = a ^ n % m
      rw [hrec]
      by_cases h2 : n % 2 = 0
      · rw [if_pos h2]
        have hn2 : n = n / 2 + n / 2 := by omega
        conv_rhs => rw [hn2, pow_add, Nat.mul_mod]
      · rw [if_neg h2]
        have hn2 : n = n / 2 + n / 2 + 1 := by omega
        conv_rhs => rw [hn2, pow_add, pow_add, pow_one,
          Nat.mul_mod, Nat.mul_mod (a ^ (n / 2)) (a ^ (n / 2)) m]
        conv_lhs => rw [Nat.mul_mod]
        rw [Nat.mod_mod_of_dvd _ dvd_rfl]

theorem pow_mod_eq_of_powModAux (m a n c : ℕ) (hn : n < 2 ^ 256)
    (h : powModAux m a 256 n = c) : a ^ n % m = c := by
  rw [← powModAux_correct m a 256 n hn, h]

theorem zmod_pow_eq (N a n c : ℕ) (h : a ^ n % N = c) :
    ((a : ZMod N)) ^ n = ((c : ℕ) : ZMod N) := by
  subst h
  rw [← Nat.cast_pow, ZMod.natCast_mod]

theorem zmod_ne_one (N c : ℕ) (h1 : 1 < N) (hc : c < N) (hne : c ≠ 1) :
    ((c : ℕ) : ZMod N) ≠ 1 := by
  haveI : Fact (1 < N) := ⟨h1⟩
  intro heq
  apply hne
  have hv := congrArg ZMod.val heq
  rwa [ZMod.val_cast_of_lt hc, ZMod.val_one] at hv

/-- A prime divisor of a prime power is that prime. -/
theorem prime_eq_of_dvd_pow (q r e : ℕ) (hq : q.Prime) (hr : r.Prime)
    (h : q ∣ r ^ e) : q = r :=
  (Nat.prime_dvd_prime_iff_eq hq hr).mp (hq.dvd_of_dvd_pow h)

set_option maxRecDepth 100000 in
theorem prime_2773320623 : Nat.Prime 2773320623 := by
  refine lucas_primality 2773320623 ((5 : ℕ) : ZMod 2773320623) ?_ ?_
  · show ((5 : ℕ) : ZMod 2773320623) ^ (2773320623 - 1) = 1
    have hc : (5 : ℕ) ^ (2773320623 - 1) % 2773320623 = 1 :=
      pow_mod_eq_of_powModAux 2773320623 5 (2773320623 - 1) 1 (by norm_num) rfl
    rw [zmod_pow_eq 2773320623 5 (2773320623 - 1) 1 hc, Nat.cast_one]
  · intro q hq hd
    have hfact : 2773320623 - 1 = 2 * (2437 * (569003)) := by norm_num
    rw [hfact] at hd
    rcases (Nat.Prime.dvd_mul hq).mp hd with h | hd
    · have hqe : q = 2 := (Nat.prime_dvd_prime_iff_eq hq (by norm_num)).mp h
      subst hqe
      have he : (2773320623 - 1) / 2 = 1386660311 := by norm_num
      rw [he]
      have hc : (5 : ℕ) ^ 1386660311 % 2773320623 = 2773320622 :=
        pow_mod_eq_of_powModAux 2773320623 5 1386660311 2773320622 (by norm_num) rfl
      rw [zmod_pow_eq 2773320623 5 1386660311 2773320622 hc]
      exact zmod_ne_one 2773320623 2773320622 (by norm_num) (by norm_num) (by norm_num)
    rcases (Nat.Prime.dvd_mul hq).mp hd with h | hd
    · have hqe : q = 2437 := (Nat.prime_dvd_prime_iff_eq hq (by norm_num)).mp h
      subst hqe
      have he : (2773320623 - 1) / 2437 = 1138006 := by norm_num
      rw [he]
      have hc : (5 : ℕ) ^ 1138006 % 2773320623 = 844634197 :=
        pow_mod_eq_of_powModAux 2773320623 5 1138006 844634197 (by norm_num) rfl
      rw [zmod_pow_eq 2773320623 5 1138006 844634197 hc]
      exact zmod_ne_one 2773320623 844634197 (by norm_num) (by norm_num) (by norm_num)
    have hqe : q = 569003 := (Nat.prime_dvd_prime_iff_eq hq (by norm_num)).mp hd
    subst hqe
    have he : (2773320623 - 1) / 569003 = 4874 := by norm_num
    rw [he]
    have hc : (5 : ℕ) ^ 4874 % 2773320623 = 2420059583 :=
      pow_mod_eq_of_powModAux 2773320623 5 4874 2420059583 (by norm_num) rfl
    rw [zmod_pow_eq 2773320623 5 4874 2420059583 hc]
    exact zmod_ne_one 2773320623 2420059583 (by norm_num) (by norm_num) (by norm_num)

set_option maxRecDepth 100000 in
theorem prime_72106336199 : Nat.Prime 72106336199 := by
  refine lucas_primality 72106336199 ((7 : ℕ) : ZMod 72106336199) ?_ ?_
  · show ((7 : ℕ) : ZMod 72106336199) ^ (72106336199 - 1) = 1
    have hc : (7 : ℕ) ^ (72106336199 - 1) % 72106336199 = 1 :=
      pow_mod_eq_of_powModAux 72106336199 7 (72106336199 - 1) 1 (by norm_num) rfl
    rw [zmod_pow_eq 72106336199 7 (72106336199 - 1) 1 hc, Nat.cast_one]
  · intro q hq hd
    have hfact : 72106336199 - 1 = 2 * (13 * (2773320623)) := by norm_num
    rw [hfact] at hd
    rcases (Nat.Prime.dvd_mul hq).mp hd with h | hd
    · have hqe : q = 2 := (Nat.prime_dvd_prime_iff_eq hq (by norm_num)).mp h
      subst hqe
      have he : (72106336199 - 1) / 2 = 36053168099 := by norm_num
      rw [he]
      have hc : (7 : ℕ) ^ 36053168099 % 72106336199 = 72106336198 :=
        pow_mod_eq_of_powModAux 72106336199 7 36053168099 72106336198 (by norm_num) rfl
      rw [zmod_pow_eq 72106336199 7 36053168099 72106336198 hc]
      exact zmod_ne_one 72106336199 72106336198 (by norm_num) (by norm_num) (by norm_num)
    rcases (Nat.Prime.dvd_mul hq).mp hd with h | hd
    · have hqe : q = 13 := (Nat.prime_dvd_prime_iff_eq hq (by norm_num)).mp h
      subst hqe
      have he : (72106336199 - 1) / 13 = 5546641246 := by norm_num
      rw [he]
      have hc : (7 : ℕ) ^ 5546641246 % 72106336199 = 58700762603 :=
        pow_mod_eq_of_powModAux 72106336199 7 5546641246 58700762603 (by norm_num) rfl
      rw [zmod_pow_eq 72106336199 7 5546641246 58700762603 hc]
      exact zmod_ne_one 72106336199 58700762603 (by norm_num) (by norm_num) (by norm_num)
    have hqe : q = 2773320623 := (Nat.prime_dvd_prime_iff_eq hq prime_2773320623).mp hd
    subst hqe
    have he : (72106336199 - 1) / 2773320623 = 26 := by norm_num
    rw [he]
    have hc : (7 : ℕ) ^ 26 % 72106336199 = 28357292573 :=
      pow_mod_eq_of_powModAux 72106336199 7 26 28357292573 (by norm_num) rfl
    rw [zmod_pow_eq 72106336199 7 26 28357292573 hc]
    exact zmod_ne_one 72106336199 28357292573 (by norm_num) (by norm_num) (by norm_num)

set_option maxRecDepth 100000 in
theorem prime_31757755568855353 : Nat.Prime 31757755568855353 := by
  refine lucas_primality 31757755568855353 ((10 : ℕ) : ZMod 31757755568855353) ?_ ?_
  · show ((10 : ℕ) : ZMod 31757755568855353) ^ (31757755568855353 - 1) = 1
    have hc : (10 : ℕ) ^ (31757755568855353 - 1) % 31757755568855353 = 1 :=
      pow_mod_eq_of_powModAux 31757755568855353 10 (31757755568855353 - 1) 1 (by norm_num) rfl
    rw [zmod_pow_eq 31757755568855353 10 (31757755568855353 - 1) 1 hc, Nat.cast_one]
  · intro q hq hd
    have hfact : 31757755568855353 - 1 = 2 ^ 3 * (3 * (31 * (107 * (223 * (4153 * (430751)))))) := by norm_num
    rw [hfact] at hd
    rcases (Nat.Prime.dvd_mul hq).mp hd with h | hd
    · have hqe : q = 2 := prime_eq_of_dvd_pow q 2 3 hq (by norm_num) h
      subst hqe
      have he : (31757755568855353 - 1) / 2 = 15878877784427676 := by norm_num
      rw [he]
      have hc : (10 : ℕ) ^ 15878877784427676 % 31757755568855353 = 31757755568855352 :=
        pow_mod_eq_of_powModAux 31757755568855353 10 15878877784427676 31757755568855352 (by norm_num) rfl
      rw [zmod_pow_eq 31757755568855353 10 15878877784427676 31757755568855352 hc]
      exact zmod_ne_one 31757755568855353 31757755568855352 (by norm_num) (by norm_num) (by norm_num)
    rcases (Nat.Prime.dvd_mul hq).mp hd with h | hd
    · have hqe : q = 3 := (Nat.prime_dvd_prime_iff_eq hq (by norm_num)).mp h
      subst hqe
      have he : (31757755568855353 - 1) / 3 = 10585918522951784 := by norm_num
      rw [he]
      have hc : (10 : ℕ) ^ 10585918522951784 % 31757755568855353 = 22133410514677784 :=
        pow_mod_eq_of_powModAux 31757755568855353 10 10585918522951784 22133410514677784 (by norm_num) rfl
      rw [zmod_pow_eq 31757755568855353 10 10585918522951784 22133410514677784 hc]
      exact zmod_ne_one 31757755568855353 22133410514677784 (by norm_num) (by norm_num) (by norm_num)
    rcases (Nat.Prime.dvd_mul hq).mp hd with h | hd
    · have hqe : q = 31 := (Nat.prime_dvd_prime_iff_eq hq (by norm_num)).mp h
      subst hqe
      have he : (31757755568855353 - 1) / 31 = 1024443728027592 := by norm_num
      rw [he]
      have hc : (10 : ℕ) ^ 1024443728027592 % 31757755568855353 = 24776906756080210 :=
        pow_mod_eq_of_powModAux 31757755568855353 10 1024443728027592 24776906756080210 (by norm_num) rfl
      rw [zmod_pow_eq 31757755568855353 10 1024443728027592 24776906756080210 hc]
      exact zmod_ne_one 31757755568855353 24776906756080210 (by norm_num) (by norm_num) (by norm_num)
    rcases (Nat.Prime.dvd_mul hq).mp hd with h | hd
    · have hqe : q = 107 := (Nat.prime_dvd_prime_iff_eq hq (by norm_num)).mp h
      subst hqe
      have he : (31757755568855353 - 1) / 107 = 296801453914536 := by norm_num
      rw [he]
      have hc : (10 : ℕ) ^ 296801453914536 % 31757755568855353 = 30702321360579269 :=
        pow_mod_eq_of_powModAux 31757755568855353 10 296801453914536 30702321360579269 (by norm_num) rfl
      rw [zmod_pow_eq 31757755568855353 10 296801453914536 30702321360579269 hc]
      exact zmod_ne_one 31757755568855353 30702321360579269 (by norm_num) (by norm_num) (by norm_num)
    rcases (Nat.Prime.dvd_mul hq).mp hd with h | hd
    · have hqe : q = 223 := (Nat.prime_dvd_prime_iff_eq hq (by norm_num)).mp h
      subst hqe
      have he : (31757755568855353 - 1) / 223 = 142411459950024 := by norm_num
      rw [he]
      have hc : (10 : ℕ) ^ 142411459950024 % 31757755568855353 = 5141820974828509 :=
        pow_mod_eq_of_powModAux 31757755568855353 10 142411459950024 5141820974828509 (by norm_num) rfl
      rw [zmod_pow_eq 31757755568855353 10 142411459950024 5141820974828509 hc]
      exact zmod_ne_one 31757755568855353 5141820974828509 (by norm_num) (by norm_num) (by norm_num)
    rcases (Nat.Prime.dvd_mul hq).mp hd with h | hd
    · have hqe : q = 4153 := (Nat.prime_dvd_prime_iff_eq hq (by norm_num)).mp h
      subst hqe
      have he : (31757755568855353 - 1) / 4153 = 7646943310584 := by norm_num
      rw [he]
      have hc : (10 : ℕ) ^ 7646943310584 % 31757755568855353 = 29494927157741833 :=
        pow_mod_eq_of_powModAux 31757755568855353 10 7646943310584 29494927157741833 (by norm_num) rfl
      rw [zmod_pow_eq 31757755568855353 10 7646943310584 29494927157741833 hc]
      exact zmod_ne_one 31757755568855353 29494927157741833 (by norm_num) (by norm_num) (by norm_num)
    have hqe : q = 430751 := (Nat.prime_dvd_prime_iff_eq hq (by norm_num)).mp hd
    subst hqe
    have he : (31757755568855353 - 1) / 430751 = 73726481352 := by norm_num
    rw [he]
    have hc : (10 : ℕ) ^ 73726481352 % 31757755568855353 = 25185179080663893 :=
      pow_mod_eq_of_powModAux 31757755568855353 10 73726481352 25185179080663893 (by norm_num) rfl
    rw [zmod_pow_eq 31757755568855353 10 73726481352 25185179080663893 hc]
    exact zmod_ne_one 31757755568855353 25185179080663893 (by norm_num) (by norm_num) (by norm_num)

set_option maxRecDepth 100000 in
theorem prime_1919519569386763 : Nat.Prime 1919519569386763 := by
  refine lucas_primality 1919519569386763 ((2 : ℕ) : ZMod 1919519569386763) ?_ ?_
  · show ((2 : ℕ) : ZMod 1919519569386763) ^ (1919519569386763 - 1) = 1
    have hc : (2 : ℕ) ^ (1919519569386763 - 1) % 1919519569386763 = 1 :=
      pow_mod_eq_of_powModAux 1919519569386763 2 (1919519569386763 - 1) 1 (by norm_num) rfl
    rw [zmod_pow_eq 1919519569386763 2 (1919519569386763 - 1) 1 hc, Nat.cast_one]
  · intro q hq hd
    have hfact : 1919519569386763 - 1 = 2 * (3 * (7 * (19 * (47 ^ 2 * (127 * (8574133)))))) := by norm_num
    rw [hfact] at hd
    rcases (Nat.Prime.dvd_mul hq).mp hd with h | hd
    · have hqe : q = 2 := (Nat.prime_dvd_prime_iff_eq hq (by norm_num)).mp h
      subst hqe
      have he : (1919519569386763 - 1) / 2 = 959759784693381 := by norm_num
      rw [he]
      have hc : (2 : ℕ) ^ 959759784693381 % 1919519569386763 = 1919519569386762 :=
        pow_mod_eq_of_powModAux 1919519569386763 2 959759784693381 1919519569386762 (by norm_num) rfl
      rw [zmod_pow_eq 1919519569386763 2 959759784693381 1919519569386762 hc]
      exact zmod_ne_one 1919519569386763 1919519569386762 (by norm_num) (by norm_num) (by norm_num)
    rcases (Nat.Prime.dvd_mul hq).mp hd with h | hd
    · have hqe : q = 3 := (Nat.prime_dvd_prime_iff_eq hq (by norm_num)).mp h
      subst hqe
      have he : (1919519569386763 - 1) / 3 = 639839856462254 := by norm_num
      rw [he]
      have hc : (2 : ℕ) ^ 639839856462254 % 1919519569386763 = 1786118255295340 :=
        pow_mod_eq_of_powModAux 1919519569386763 2 639839856462254 1786118255295340 (by norm_num) rfl
      rw [zmod_pow_eq 1919519569386763 2 639839856462254 1786118255295340 hc]
      exact zmod_ne_one 1919519569386763 1786118255295340 (by norm_num) (by norm_num) (by norm_num)
    rcases (Nat.Prime.dvd_mul hq).mp hd with h | hd
    · have hqe : q = 7 := (Nat.prime_dvd_prime_iff_eq hq (by norm_num)).mp h
      subst hqe
      have he : (1919519569386763 - 1) / 7 = 274217081340966 := by norm_num
      rw [he]
      have hc : (2 : ℕ) ^ 274217081340966 % 1919519569386763 = 1124719358789780 :=
        pow_mod_eq_of_powModAux 1919519569386763 2 274217081340966 1124719358789780 (by norm_num) rfl
      rw [zmod_pow_eq 1919519569386763 2 274217081340966 1124719358789780 hc]
      exact zmod_ne_one 1919519569386763 1124719358789780 (by norm_num) (by norm_num) (by norm_num)
    rcases (Nat.Prime.dvd_mul hq).mp hd with h | hd
    · have hqe : q = 19 := (Nat.prime_dvd_prime_iff_eq hq (by norm_num)).mp h
      subst hqe
      have he : (1919519569386763 - 1) / 19 = 101027345757198 := by norm_num
      rw [he]
      have hc : (2 : ℕ) ^ 101027345757198 % 1919519569386763 = 602275051902557 :=
        pow_mod_eq_of_powModAux 1919519569386763 2 101027345757198 602275051902557 (by norm_num) rfl
      rw [zmod_pow_eq 1919519569386763 2 101027345757198 602275051902557 hc]
      exact zmod_ne_one 1919519569386763 602275051902557 (by norm_num) (by norm_num) (by norm_num)
    rcases (Nat.Prime.dvd_mul hq).mp hd with h | hd
    · have hqe : q = 47 := prime_eq_of_dvd_pow q 47 2 hq (by norm_num) h
      subst hqe
      have he : (1919519569386763 - 1) / 47 = 40840841901846 := by norm_num
      rw [he]
      have hc : (2 : ℕ) ^ 40840841901846 % 1919519569386763 = 621931926534591 :=
        pow_mod_eq_of_powModAux 1919519569386763 2 40840841901846 621931926534591 (by norm_num) rfl
      rw [zmod_pow_eq 1919519569386763 2 40840841901846 621931926534591 hc]
      exact zmod_ne_one 1919519569386763 621931926534591 (by norm_num) (by norm_num) (by norm_num)
    rcases (Nat.Prime.dvd_mul hq).mp hd with h | hd
    · have hqe : q = 127 := (Nat.prime_dvd_prime_iff_eq hq (by norm_num)).mp h
      subst hqe
      have he : (1919519569386763 - 1) / 127 = 15114327318006 := by norm_num
      rw [he]
      have hc : (2 : ℕ) ^ 15114327318006 % 1919519569386763 = 576774792492622 :=
        pow_mod_eq_of_powModAux 1919519569386763 2 15114327318006 576774792492622 (by norm_num) rfl
      rw [zmod_pow_eq 1919519569386763 2 15114327318006 576774792492622 hc]
      exact zmod_ne_one 1919519569386763 576774792492622 (by norm_num) (by norm_num) (by norm_num)
    have hqe : q = 8574133 := (Nat.prime_dvd_prime_iff_eq hq (by norm_num)).mp hd
    subst hqe
    have he : (1919519569386763 - 1) / 8574133 = 223873314 := by norm_num
    rw [he]
    have hc : (2 : ℕ) ^ 223873314 % 1919519569386763 = 1059928654987441 :=
      pow_mod_eq_of_powModAux 1919519569386763 2 223873314 1059928654987441 (by norm_num) rfl
    rw [zmod_pow_eq 1919519569386763 2 223873314 1059928654987441 hc]
    exact zmod_ne_one 1919519569386763 1059928654987441 (by norm_num) (by norm_num) (by norm_num)

set_option maxRecDepth 100000 in
theorem prime_75445702479781427272750846543864801 : Nat.Prime 75445702479781427272750846543864801 := by
  refine lucas_primality 75445702479781427272750846543864801 ((7 : ℕ) : ZMod 75445702479781427272750846543864801) ?_ ?_
  · show ((7 : ℕ) : ZMod 75445702479781427272750846543864801) ^ (75445702479781427272750846543864801 - 1) = 1
    have hc : (7 : ℕ) ^ (75445702479781427272750846543864801 - 1) % 75445702479781427272750846543864801 = 1 :=
      pow_mod_eq_of_powModAux 75445702479781427272750846543864801 7 (75445702479781427272750846543864801 - 1) 1 (by norm_num) rfl
    rw [zmod_pow_eq 75445702479781427272750846543864801 7 (75445702479781427272750846543864801 - 1) 1 hc, Nat.cast_one]
  · intro q hq hd
    have hfact : 75445702479781427272750846543864801 - 1 = 2 ^ 5 * (3 ^ 2 * (5 ^ 2 * (75707 * (72106336199 * (1919519569386763))))) := by norm_num
    rw [hfact] at hd
    rcases (Nat.Prime.dvd_mul hq).mp hd with h | hd
    · have hqe : q = 2 := prime_eq_of_dvd_pow q 2 5 hq (by norm_num) h
      subst hqe
      have he : (75445702479781427272750846543864801 - 1) / 2 = 37722851239890713636375423271932400 := by norm_num
      rw [he]
      have hc : (7 : ℕ) ^ 37722851239890713636375423271932400 % 75445702479781427272750846543864801 = 75445702479781427272750846543864800 :=
        pow_mod_eq_of_powModAux 75445702479781427272750846543864801 7 37722851239890713636375423271932400 75445702479781427272750846543864800 (by norm_num) rfl
      rw [zmod_pow_eq 75445702479781427272750846543864801 7 37722851239890713636375423271932400 75445702479781427272750846543864800 hc]
      exact zmod_ne_one 75445702479781427272750846543864801 75445702479781427272750846543864800 (by norm_num) (by norm_num) (by norm_num)
    rcases (Nat.Prime.dvd_mul hq).mp hd with h | hd
    · have hqe : q = 3 := prime_eq_of_dvd_pow q 3 2 hq (by norm_num) h
      subst hqe
      have he : (75445702479781427272750846543864801 - 1) / 3 = 25148567493260475757583615514621600 := by norm_num
      rw [he]
      have hc : (7 : ℕ) ^ 25148567493260475757583615514621600 % 75445702479781427272750846543864801 = 17027744575660264744512945715121884 :=
        pow_mod_eq_of_powModAux 75445702479781427272750846543864801 7 25148567493260475757583615514621600 17027744575660264744512945715121884 (by norm_num) rfl
      rw [zmod_pow_eq 75445702479781427272750846543864801 7 25148567493260475757583615514621600 17027744575660264744512945715121884 hc]
      exact zmod_ne_one 75445702479781427272750846543864801 17027744575660264744512945715121884 (by norm_num) (by norm_num) (by norm_num)
    rcases (Nat.Prime.dvd_mul hq).mp hd with h | hd
    · have hqe : q = 5 := prime_eq_of_dvd_pow q 5 2 hq (by norm_num) h
      subst hqe
      have he : (75445702479781427272750846543864801 - 1) / 5 = 15089140495956285454550169308772960 := by norm_num
      rw [he]
      have hc : (7 : ℕ) ^ 15089140495956285454550169308772960 % 75445702479781427272750846543864801 = 52755092631156469601217826477970212 :=
        pow_mod_eq_of_powModAux 75445702479781427272750846543864801 7 15089140495956285454550169308772960 52755092631156469601217826477970212 (by norm_num) rfl
      rw [zmod_pow_eq 75445702479781427272750846543864801 7 15089140495956285454550169308772960 52755092631156469601217826477970212 hc]
      exact zmod_ne_one 75445702479781427272750846543864801 52755092631156469601217826477970212 (by norm_num) (by norm_num) (by norm_num)
    rcases (Nat.Prime.dvd_mul hq).mp hd with h | hd
    · have hqe : q = 75707 := (Nat.prime_dvd_prime_iff_eq hq (by norm_num)).mp h
      subst hqe
      have he : (75445702479781427272750846543864801 - 1) / 75707 = 996548568557483816196003626400 := by norm_num
      rw [he]
      have hc : (7 : ℕ) ^ 996548568557483816196003626400 % 75445702479781427272750846543864801 = 57103426308028043857659793617446015 :=
        pow_mod_eq_of_powModAux 75445702479781427272750846543864801 7 996548568557483816196003626400 57103426308028043857659793617446015 (by norm_num) rfl
      rw [zmod_pow_eq 75445702479781427272750846543864801 7 996548568557483816196003626400 57103426308028043857659793617446015 hc]
      exact zmod_ne_one 75445702479781427272750846543864801 57103426308028043857659793617446015 (by norm_num) (by norm_num) (by norm_num)
    rcases (Nat.Prime.dvd_mul hq).mp hd with h | hd
    · have hqe : q = 72106336199 := (Nat.prime_dvd_prime_iff_eq hq prime_72106336199).mp h
      subst hqe
      have he : (75445702479781427272750846543864801 - 1) / 72106336199 = 1046311689884858398375200 := by norm_num
      rw [he]
      have hc : (7 : ℕ) ^ 1046311689884858398375200 % 75445702479781427272750846543864801 = 72344277920069036431504068385047591 :=
        pow_mod_eq_of_powModAux 75445702479781427272750846543864801 7 1046311689884858398375200 72344277920069036431504068385047591 (by norm_num) rfl
      rw [zmod_pow_eq 75445702479781427272750846543864801 7 1046311689884858398375200 72344277920069036431504068385047591 hc]
      exact zmod_ne_one 75445702479781427272750846543864801 72344277920069036431504068385047591 (by norm_num) (by norm_num) (by norm_num)
    have hqe : q = 1919519569386763 := (Nat.prime_dvd_prime_iff_eq hq prime_1919519569386763).mp hd
    subst hqe
    have he : (75445702479781427272750846543864801 - 1) / 1919519569386763 = 39304471641247389600 := by norm_num
    rw [he]
    have hc : (7 : ℕ) ^ 39304471641247389600 % 75445702479781427272750846543864801 = 33763476511538335360127990623883028 :=
      pow_mod_eq_of_powModAux 75445702479781427272750846543864801 7 39304471641247389600 33763476511538335360127990623883028 (by norm_num) rfl
    rw [zmod_pow_eq 75445702479781427272750846543864801 7 39304471641247389600 33763476511538335360127990623883028 hc]
    exact zmod_ne_one 75445702479781427272750846543864801 33763476511538335360127990623883028 (by norm_num) (by norm_num) (by norm_num)

set_option maxRecDepth 100000 in
theorem prime_74058212732561358302231226437062788676166966415465897661863160754340907 : Nat.Prime 74058212732561358302231226437062788676166966415465897661863160754340907 := by
  refine lucas_primality 74058212732561358302231226437062788676166966415465897661863160754340907 ((2 : ℕ) : ZMod 74058212732561358302231226437062788676166966415465897661863160754340907) ?_ ?_
  · show ((2 : ℕ) : ZMod 74058212732561358302231226437062788676166966415465897661863160754340907) ^ (74058212732561358302231226437062788676166966415465897661863160754340907 - 1) = 1
    have hc : (2 : ℕ) ^ (74058212732561358302231226437062788676166966415465897661863160754340907 - 1) % 74058212732561358302231226437062788676166966415465897661863160754340907 = 1 :=
      pow_mod_eq_of_powModAux 74058212732561358302231226437062788676166966415465897661863160754340907 2 (74058212732561358302231226437062788676166966415465897661863160754340907 - 1) 1 (by norm_num) rfl
    rw [zmod_pow_eq 74058212732561358302231226437062788676166966415465897661863160754340907 2 (74058212732561358302231226437062788676166966415465897661863160754340907 - 1) 1 hc, Nat.cast_one]
  · intro q hq hd
    have hfact : 74058212732561358302231226437062788676166966415465897661863160754340907 - 1 = 2 * (3 * (353 * (57467 * (132049 * (1923133 * (31757755568855353 * (75445702479781427272750846543864801))))))) := by norm_num
    rw [hfact] at hd
    rcases (Nat.Prime.dvd_mul hq).mp hd with h | hd
    · have hqe : q = 2 := (Nat.prime_dvd_prime_iff_eq hq (by norm_num)).mp h
      subst hqe
      have he : (74058212732561358302231226437062788676166966415465897661863160754340907 - 1) / 2 = 37029106366280679151115613218531394338083483207732948830931580377170453 := by norm_num
      rw [he]
      have hc : (2 : ℕ) ^ 37029106366280679151115613218531394338083483207732948830931580377170453 % 74058212732561358302231226437062788676166966415465897661863160754340907 = 74058212732561358302231226437062788676166966415465897661863160754340906 :=
        pow_mod_eq_of_powModAux 74058212732561358302231226437062788676166966415465897661863160754340907 2 37029106366280679151115613218531394338083483207732948830931580377170453 74058212732561358302231226437062788676166966415465897661863160754340906 (by norm_num) rfl
      rw [zmod_pow_eq 74058212732561358302231226437062788676166966415465897661863160754340907 2 37029106366280679151115613218531394338083483207732948830931580377170453 74058212732561358302231226437062788676166966415465897661863160754340906 hc]
      exact zmod_ne_one 74058212732561358302231226437062788676166966415465897661863160754340907 74058212732561358302231226437062788676166966415465897661863160754340906 (by norm_num) (by norm_num) (by norm_num)
    rcases (Nat.Prime.dvd_mul hq).mp hd with h | hd
    · have hqe : q = 3 := (Nat.prime_dvd_prime_iff_eq hq (by norm_num)).mp h
      subst hqe
      have he : (74058212732561358302231226437062788676166966415465897661863160754340907 - 1) / 3 = 24686070910853786100743742145687596225388988805155299220621053584780302 := by norm_num
      rw [he]
      have hc : (2 : ℕ) ^ 24686070910853786100743742145687596225388988805155299220621053584780302 % 74058212732561358302231226437062788676166966415465897661863160754340907 = 30397109428614726089754189191956088611235801571633239974164411255784155 :=
        pow_mod_eq_of_powModAux 74058212732561358302231226437062788676166966415465897661863160754340907 2 24686070910853786100743742145687596225388988805155299220621053584780302 30397109428614726089754189191956088611235801571633239974164411255784155 (by norm_num) rfl
      rw [zmod_pow_eq 74058212732561358302231226437062788676166966415465897661863160754340907 2 24686070910853786100743742145687596225388988805155299220621053584780302 30397109428614726089754189191956088611235801571633239974164411255784155 hc]
      exact zmod_ne_one 74058212732561358302231226437062788676166966415465897661863160754340907 30397109428614726089754189191956088611235801571633239974164411255784155 (by norm_num) (by norm_num) (by norm_num)
    rcases (Nat.Prime.dvd_mul hq).mp hd with h | hd
    · have hqe : q = 353 := (Nat.prime_dvd_prime_iff_eq hq (by norm_num)).mp h
      subst hqe
      have he : (74058212732561358302231226437062788676166966415465897661863160754340907 - 1) / 353 = 209796636636151156663544550813209033076960244803019540118592523383402 := by norm_num
      rw [he]
      have hc : (2 : ℕ) ^ 209796636636151156663544550813209033076960244803019540118592523383402 % 74058212732561358302231226437062788676166966415465897661863160754340907 = 8562916886866218785688304546164188478888058893729309188831496247839076 :=
        pow_mod_eq_of_powModAux 74058212732561358302231226437062788676166966415465897661863160754340907 2 209796636636151156663544550813209033076960244803019540118592523383402 8562916886866218785688304546164188478888058893729309188831496247839076 (by norm_num) rfl
      rw [zmod_pow_eq 74058212732561358302231226437062788676166966415465897661863160754340907 2 209796636636151156663544550813209033076960244803019540118592523383402 8562916886866218785688304546164188478888058893729309188831496247839076 hc]
      exact zmod_ne_one 74058212732561358302231226437062788676166966415465897661863160754340907 8562916886866218785688304546164188478888058893729309188831496247839076 (by norm_num) (by norm_num) (by norm_num)
    rcases (Nat.Prime.dvd_mul hq).mp hd with h | hd
    · have hqe : q = 57467 := (Nat.prime_dvd_prime_iff_eq hq (by norm_num)).mp h
      subst hqe
      have he : (74058212732561358302231226437062788676166966415465897661863160754340907 - 1) / 57467 = 1288708523719027586305727224964984924846728842909250485702458119518 := by norm_num
      rw [he]
      have hc : (2 : ℕ) ^ 1288708523719027586305727224964984924846728842909250485702458119518 % 74058212732561358302231226437062788676166966415465897661863160754340907 = 34423717228876157273670922671787235583289084632054732964365754153055025 :=
        pow_mod_eq_of_powModAux 74058212732561358302231226437062788676166966415465897661863160754340907 2 1288708523719027586305727224964984924846728842909250485702458119518 34423717228876157273670922671787235583289084632054732964365754153055025 (by norm_num) rfl
      rw [zmod_pow_eq 74058212732561358302231226437062788676166966415465897661863160754340907 2 1288708523719027586305727224964984924846728842909250485702458119518 34423717228876157273670922671787235583289084632054732964365754153055025 hc]
      exact zmod_ne_one 74058212732561358302231226437062788676166966415465897661863160754340907 34423717228876157273670922671787235583289084632054732964365754153055025 (by norm_num) (by norm_num) (by norm_num)
    rcases (Nat.Prime.dvd_mul hq).mp hd with h | hd
    · have hqe : q = 132049 := (Nat.prime_dvd_prime_iff_eq hq (by norm_num)).mp h
      subst hqe
      have he : (74058212732561358302231226437062788676166966415465897661863160754340907 - 1) / 132049 = 560838875966961948233089432233964578877287722099113947563882806794 := by norm_num
      rw [he]
      have hc : (2 : ℕ) ^ 560838875966961948233089432233964578877287722099113947563882806794 % 74058212732561358302231226437062788676166966415465897661863160754340907 = 54871647690314810166557542068595163151590274869528630571075996285882505 :=
        pow_mod_eq_of_powModAux 74058212732561358302231226437062788676166966415465897661863160754340907 2 560838875966961948233089432233964578877287722099113947563882806794 54871647690314810166557542068595163151590274869528630571075996285882505 (by norm_num) rfl
      rw [zmod_pow_eq 74058212732561358302231226437062788676166966415465897661863160754340907 2 560838875966961948233089432233964578877287722099113947563882806794 54871647690314810166557542068595163151590274869528630571075996285882505 hc]
      exact zmod_ne_one 74058212732561358302231226437062788676166966415465897661863160754340907 54871647690314810166557542068595163151590274869528630571075996285882505 (by norm_num) (by norm_num) (by norm_num)
    rcases (Nat.Prime.dvd_mul hq).mp hd with h | hd
    · have hqe : q = 1923133 := (Nat.prime_dvd_prime_iff_eq hq (by norm_num)).mp h
      subst hqe
      have he : (74058212732561358302231226437062788676166966415465897661863160754340907 - 1) / 1923133 = 38509147694185143878364744631319200843710219946028640589009268082 := by norm_num
      rw [he]
      have hc : (2 : ℕ) ^ 38509147694185143878364744631319200843710219946028640589009268082 % 74058212732561358302231226437062788676166966415465897661863160754340907 = 52266576830164329332527201090776533817489900267135412990654516667243924 :=
        pow_mod_eq_of_powModAux 74058212732561358302231226437062788676166966415465897661863160754340907 2 38509147694185143878364744631319200843710219946028640589009268082 52266576830164329332527201090776533817489900267135412990654516667243924 (by norm_num) rfl
      rw [zmod_pow_eq 74058212732561358302231226437062788676166966415465897661863160754340907 2 38509147694185143878364744631319200843710219946028640589009268082 52266576830164329332527201090776533817489900267135412990654516667243924 hc]
      exact zmod_ne_one 74058212732561358302231226437062788676166966415465897661863160754340907 52266576830164329332527201090776533817489900267135412990654516667243924 (by norm_num) (by norm_num) (by norm_num)
    rcases (Nat.Prime.dvd_mul hq).mp hd with h | hd
    · have hqe : q = 31757755568855353 := (Nat.prime_dvd_prime_iff_eq hq prime_31757755568855353).mp h
      subst hqe
      have he : (74058212732561358302231226437062788676166966415465897661863160754340907 - 1) / 31757755568855353 = 2331972502653487852620185443007392165117953542933313402 := by norm_num
      rw [he]
      have hc : (2 : ℕ) ^ 2331972502653487852620185443007392165117953542933313402 % 74058212732561358302231226437062788676166966415465897661863160754340907 = 50366660687963342066214195241331738400016478712605795091965648721912165 :=
        pow_mod_eq_of_powModAux 74058212732561358302231226437062788676166966415465897661863160754340907 2 2331972502653487852620185443007392165117953542933313402 50366660687963342066214195241331738400016478712605795091965648721912165 (by norm_num) rfl
      rw [zmod_pow_eq 74058212732561358302231226437062788676166966415465897661863160754340907 2 2331972502653487852620185443007392165117953542933313402 50366660687963342066214195241331738400016478712605795091965648721912165 hc]
      exact zmod_ne_one 74058212732561358302231226437062788676166966415465897661863160754340907 50366660687963342066214195241331738400016478712605795091965648721912165 (by norm_num) (by norm_num) (by norm_num)
    have hqe : q = 75445702479781427272750846543864801 := (Nat.prime_dvd_prime_iff_eq hq prime_75445702479781427272750846543864801).mp hd
    subst hqe
    have he : (74058212732561358302231226437062788676166966415465897661863160754340907 - 1) / 75445702479781427272750846543864801 = 981609426360740691344999861639072106 := by norm_num
    rw [he]
    have hc : (2 : ℕ) ^ 981609426360740691344999861639072106 % 74058212732561358302231226437062788676166966415465897661863160754340907 = 69490809710348678725736597923071784769591275419387514694139338586948360 :=
      pow_mod_eq_of_powModAux 74058212732561358302231226437062788676166966415465897661863160754340907 2 981609426360740691344999861639072106 69490809710348678725736597923071784769591275419387514694139338586948360 (by norm_num) rfl
    rw [zmod_pow_eq 74058212732561358302231226437062788676166966415465897661863160754340907 2 981609426360740691344999861639072106 69490809710348678725736597923071784769591275419387514694139338586948360 hc]
    exact zmod_ne_one 74058212732561358302231226437062788676166966415465897661863160754340907 69490809710348678725736597923071784769591275419387514694139338586948360 (by norm_num) (by norm_num) (by norm_num)

set_option maxRecDepth 100000 in
theorem pN_prime_aux : Nat.Prime 57896044618658097711785492504343953926634992332820282019728792003956564819949 := by
  refine lucas_primality 57896044618658097711785492504343953926634992332820282019728792003956564819949 ((2 : ℕ) : ZMod 57896044618658097711785492504343953926634992332820282019728792003956564819949) ?_ ?_
  · show ((2 : ℕ) : ZMod 57896044618658097711785492504343953926634992332820282019728792003956564819949) ^ (57896044618658097711785492504343953926634992332820282019728792003956564819949 - 1) = 1
    have hc : (2 : ℕ) ^ (57896044618658097711785492504343953926634992332820282019728792003956564819949 - 1) % 57896044618658097711785492504343953926634992332820282019728792003956564819949 = 1 :=
      pow_mod_eq_of_powModAux 57896044618658097711785492504343953926634992332820282019728792003956564819949 2 (57896044618658097711785492504343953926634992332820282019728792003956564819949 - 1) 1 (by norm_num) rfl
    rw [zmod_pow_eq 57896044618658097711785492504343953926634992332820282019728792003956564819949 2 (57896044618658097711785492504343953926634992332820282019728792003956564819949 - 1) 1 hc, Nat.cast_one]
  · intro q hq hd
    have hfact : 57896044618658097711785492504343953926634992332820282019728792003956564819949 - 1 = 2 ^ 2 * (3 * (65147 * (74058212732561358302231226437062788676166966415465897661863160754340907))) := by norm_num
    rw [hfact] at hd
    rcases (Nat.Prime.dvd_mul hq).mp hd with h | hd
    · have hqe : q = 2 := prime_eq_of_dvd_pow q 2 2 hq (by norm_num) h
      subst hqe
      have he : (57896044618658097711785492504343953926634992332820282019728792003956564819949 - 1) / 2 = 28948022309329048855892746252171976963317496166410141009864396001978282409974 := by norm_num
      rw [he]
      have hc : (2 : ℕ) ^ 28948022309329048855892746252171976963317496166410141009864396001978282409974 % 57896044618658097711785492504343953926634992332820282019728792003956564819949 = 57896044618658097711785492504343953926634992332820282019728792003956564819948 :=
        pow_mod_eq_of_powModAux 57896044618658097711785492504343953926634992332820282019728792003956564819949 2 28948022309329048855892746252171976963317496166410141009864396001978282409974 57896044618658097711785492504343953926634992332820282019728792003956564819948 (by norm_num) rfl
      rw [zmod_pow_eq 57896044618658097711785492504343953926634992332820282019728792003956564819949 2 28948022309329048855892746252171976963317496166410141009864396001978282409974 57896044618658097711785492504343953926634992332820282019728792003956564819948 hc]
      exact zmod_ne_one 57896044618658097711785492504343953926634992332820282019728792003956564819949 57896044618658097711785492504343953926634992332820282019728792003956564819948 (by norm_num) (by norm_num) (by norm_num)
    rcases (Nat.Prime.dvd_mul hq).mp hd with h | hd
    · have hqe : q = 3 := (Nat.prime_dvd_prime_iff_eq hq (by norm_num)).mp h
      subst hqe
      have he : (57896044618658097711785492504343953926634992332820282019728792003956564819949 - 1) / 3 = 19298681539552699237261830834781317975544997444273427339909597334652188273316 := by norm_num
      rw [he]
      have hc : (2 : ℕ) ^ 19298681539552699237261830834781317975544997444273427339909597334652188273316 % 57896044618658097711785492504343953926634992332820282019728792003956564819949 = 25380276437079137597092236364571181010632177832931468165172742469126098314552 :=
        pow_mod_eq_of_powModAux 57896044618658097711785492504343953926634992332820282019728792003956564819949 2 19298681539552699237261830834781317975544997444273427339909597334652188273316 25380276437079137597092236364571181010632177832931468165172742469126098314552 (by norm_num) rfl
      rw [zmod_pow_eq 57896044618658097711785492504343953926634992332820282019728792003956564819949 2 19298681539552699237261830834781317975544997444273427339909597334652188273316 25380276437079137597092236364571181010632177832931468165172742469126098314552 hc]
      exact zmod_ne_one 57896044618658097711785492504343953926634992332820282019728792003956564819949 25380276437079137597092236364571181010632177832931468165172742469126098314552 (by norm_num) (by norm_num) (by norm_num)
    rcases (Nat.Prime.dvd_mul hq).mp hd with h | hd
    · have hqe : q = 65147 := (Nat.prime_dvd_prime_iff_eq hq (by norm_num)).mp h
      subst hqe
      have he : (57896044618658097711785492504343953926634992332820282019728792003956564819949 - 1) / 65147 = 888698552790736299626774717244753464114003596985590771942357929052090884 := by norm_num
      rw [he]
      have hc : (2 : ℕ) ^ 888698552790736299626774717244753464114003596985590771942357929052090884 % 57896044618658097711785492504343953926634992332820282019728792003956564819949 = 22602559476203468486837656474023958799180643873278202064348025470901666305470 :=
        pow_mod_eq_of_powModAux 57896044618658097711785492504343953926634992332820282019728792003956564819949 2 888698552790736299626774717244753464114003596985590771942357929052090884 22602559476203468486837656474023958799180643873278202064348025470901666305470 (by norm_num) rfl
      rw [zmod_pow_eq 57896044618658097711785492504343953926634992332820282019728792003956564819949 2 888698552790736299626774717244753464114003596985590771942357929052090884 22602559476203468486837656474023958799180643873278202064348025470901666305470 hc]
      exact zmod_ne_one 57896044618658097711785492504343953926634992332820282019728792003956564819949 22602559476203468486837656474023958799180643873278202064348025470901666305470 (by norm_num) (by norm_num) (by norm_num)
    have hqe : q = 74058212732561358302231226437062788676166966415465897661863160754340907 := (Nat.prime_dvd_prime_iff_eq hq prime_74058212732561358302231226437062788676166966415465897661863160754340907).mp hd
    subst hqe
    have he : (57896044618658097711785492504343953926634992332820282019728792003956564819949 - 1) / 74058212732561358302231226437062788676166966415465897661863160754340907 = 781764 := by norm_num
    rw [he]
    have hc : (2 : ℕ) ^ 781764 % 57896044618658097711785492504343953926634992332820282019728792003956564819949 = 427094198651976259540344842774561673889945192655078505504941250475370961481 :=
      pow_mod_eq_of_powModAux 57896044618658097711785492504343953926634992332820282019728792003956564819949 2 781764 427094198651976259540344842774561673889945192655078505504941250475370961481 (by norm_num) rfl
    rw [zmod_pow_eq 57896044618658097711785492504343953926634992332820282019728792003956564819949 2 781764 427094198651976259540344842774561673889945192655078505504941250475370961481 hc]
    exact zmod_ne_one 57896044618658097711785492504343953926634992332820282019728792003956564819949 427094198651976259540344842774561673889945192655078505504941250475370961481 (by norm_num) (by norm_num) (by norm_num)

theorem pN_prime : Nat.Prime pN := by
  have h : pN = 57896044618658097711785492504343953926634992332820282019728792003956564819949 := by norm_num [pN]
  rw [h]
  exact pN_prime_aux



theorem pN_cast : (pN : ℤ) = P := by
  unfold pN P
  rw [Nat.cast_sub (by norm_num)]
  push_cast


/-- Fermat inversion: for x not divisible by p, x · x^(p-2) ≡ 1 (mod p). -/
theorem fermat_inverse (x : ℤ) (hx : ¬ (x % P = 0)) :
    x * x ^ (2 ^ 255 - 21 : ℕ) ≡ 1 [ZMOD P] := by
  haveI : Fact (Nat.Prime pN) := ⟨pN_prime⟩
  have hy : ((x : ZMod pN)) ≠ 0 := by
    intro h0
    rw [ZMod.intCast_zmod_eq_zero_iff_dvd] at h0
    apply hx
    rw [pN_cast] at h0
    exact Int.emod_eq_zero_of_dvd h0
  have hfer : ((x : ZMod pN)) ^ (pN - 1) = 1 := ZMod.pow_card_sub_one_eq_one hy
  have hexp : pN - 1 = 57896044618658097711785492504343953926634992332820282019728792003956564819947 + 1 := by norm_num [pN]
  have hmain : ((x * x ^ (2 ^ 255 - 21 : ℕ) : ℤ) : ZMod pN) = ((1 : ℤ) : ZMod pN) := by
    push_cast
    rw [← pow_succ', ← hexp, hfer]
  rw [ZMod.intCast_eq_intCast_iff] at hmain
  rwa [pN_cast] at hmain


/-! ### Helper constants and lemmas for the claim theorems. -/

/-- The all-zero limb element. -/
def zeroF : F := mk16 0 0 0 0 0 0 0 0 0 0 0 0 0 0 0 0

/-- The limb element representing 2. -/
def twoF : F := mk16 2 0 0 0 0 0 0 0 0 0 0 0 0 0 0 0

/-- A limb element of InD1 outside the unpack image: limb 0 = 2^16 + 37,
all higher limbs 2^16 - 1, so its value exceeds p. -/
def bigF : F := mk16 65573 65535 65535 65535 65535 65535 65535 65535 65535 65535 65535 65535 65535 65535 65535 65535

/-- The canonical encoding of 2. -/
def enc2 : Bytes := mk32 2 0 0 0 0 0 0 0 0 0 0 0 0 0 0 0 0 0 0 0 0 0 0 0 0 0 0 0 0 0 0 0

/-- The canonical encoding of 1. -/
def encOne : Bytes := mk32 1 0 0 0 0 0 0 0 0 0 0 0 0 0 0 0 0 0 0 0 0 0 0 0 0 0 0 0 0 0 0 0

/-- The canonical encoding of p = 2^255 - 19 itself: top bit clear, yet the
represented value is not below p. -/
def pEnc : Bytes := mk32 237 255 255 255 255 255 255 255 255 255 255 255 255 255 255 255 255 255 255 255 255 255 255 255 255 255 255 255 255 255 255 127

set_option maxRecDepth 8000 in
theorem bval_bounds (b : Bytes) (hb : IsBytes b) :
    0 ≤ bval b ∧ bval b < 2 ^ 256 ∧ (b 31 < 128 → bval b < 2 ^ 255) := by
  have h0 := hb 0
  have h1 := hb 1
  have h2 := hb 2
  have h3 := hb 3
  have h4 := hb 4
  have h5 := hb 5
  have h6 := hb 6
  have h7 := hb 7
  have h8 := hb 8
  have h9 := hb 9
  have h10 := hb 10
  have h11 := hb 11
  have h12 := hb 12
  have h13 := hb 13
  have h14 := hb 14
  have h15 := hb 15
  have h16 := hb 16
  have h17 := hb 17
  have h18 := hb 18
  have h19 := hb 19
  have h20 := hb 20
  have h21 := hb 21
  have h22 := hb 22
  have h23 := hb 23
  have h24 := hb 24
  have h25 := hb 25
  have h26 := hb 26
  have h27 := hb 27
  have h28 := hb 28
  have h29 := hb 29
  have h30 := hb 30
  have h31 := hb 31
  unfold bval
  omega

theorem val_unpack_eq (b : Bytes) (hb : IsBytes b) (h31 : b 31 < 128) :
    val (unpack b) = bval b := by
  rw [(unpack_spec b hb).2.2]
  have h := bval_bounds b hb
  have h255 := h.2.2 h31
  omega

theorem serialize_unpack (b : Bytes) (hb : IsBytes b) (h31 : b 31 < 128) :
    serialize (unpack b) = b := by
  have key : serialize (unpack b) 0 = b 0 ∧
      serialize (unpack b) 1 = b 1 ∧
      serialize (unpack b) 2 = b 2 ∧
      serialize (unpack b) 3 = b 3 ∧
      serialize (unpack b) 4 = b 4 ∧
      serialize (unpack b) 5 = b 5 ∧
      serialize (unpack b) 6 = b 6 ∧
      serialize (unpack b) 7 = b 7 ∧
      serialize (unpack b) 8 = b 8 ∧
      serialize (unpack b) 9 = b 9 ∧
      serialize (unpack b) 10 = b 10 ∧
      serialize (unpack b) 11 = b 11 ∧
      serialize (unpack b) 12 = b 12 ∧
      serialize (unpack b) 13 = b 13 ∧
      serialize (unpack b) 14 = b 14 ∧
      serialize (unpack b) 15 = b 15 ∧
      serialize (unpack b) 16 = b 16 ∧
      serialize (unpack b) 17 = b 17 ∧
      serialize (unpack b) 18 = b 18 ∧
      serialize (unpack b) 19 = b 19 ∧
      serialize (unpack b) 20 = b 20 ∧
      serialize (unpack b) 21 = b 21 ∧
      serialize (unpack b) 22 = b 22 ∧
      serialize (unpack b) 23 = b 23 ∧
      serialize (unpack b) 24 = b 24 ∧
      serialize (unpack b) 25 = b 25 ∧
      serialize (unpack b) 26 = b 26 ∧
      serialize (unpack b) 27 = b 27 ∧
      serialize (unpack b) 28 = b 28 ∧
      serialize (unpack b) 29 = b 29 ∧
      serialize (unpack b) 30 = b 30 ∧
      serialize (unpack b) 31 = b 31 := by
    have h0 := hb 0
    have h1 := hb 1
    have h2 := hb 2
    have h3 := hb 3
    have h4 := hb 4
    have h5 := hb 5
    have h6 := hb 6
    have h7 := hb 7
    have h8 := hb 8
    have h9 := hb 9
    have h10 := hb 10
    have h11 := hb 11
    have h12 := hb 12
    have h13 := hb 13
    have h14 := hb 14
    have h15 := hb 15
    have h16 := hb 16
    have h17 := hb 17
    have h18 := hb 18
    have h19 := hb 19
    have h20 := hb 20
    have h21 := hb 21
    have h22 := hb 22
    have h23 := hb 23
    have h24 := hb 24
    have h25 := hb 25
    have h26 := hb 26
    have h27 := hb 27
    have h28 := hb 28
    have h29 := hb 29
    have h30 := hb 30
    have h31 := hb 31
    unfold serialize unpack
    simp only [mk16_0, mk16_1, mk16_2, mk16_3, mk16_4, mk16_5, mk16_6, mk16_7, mk16_8, mk16_9, mk16_10, mk16_11, mk16_12, mk16_13, mk16_14, mk16_15, mk32_0, mk32_1, mk32_2, mk32_3, mk32_4, mk32_5, mk32_6, mk32_7, mk32_8, mk32_9, mk32_10, mk32_11, mk32_12, mk32_13, mk32_14, mk32_15, mk32_16, mk32_17, mk32_18, mk32_19, mk32_20, mk32_21, mk32_22, mk32_23, mk32_24, mk32_25, mk32_26, mk32_27, mk32_28, mk32_29, mk32_30, mk32_31, sl8, sr8, land_mask_ff, land_mask_7fff]
    omega
  funext i
  fin_cases i
  exacts [key.1, key.2.1, key.2.2.1, key.2.2.2.1, key.2.2.2.2.1, key.2.2.2.2.2.1, key.2.2.2.2.2.2.1, key.2.2.2.2.2.2.2.1, key.2.2.2.2.2.2.2.2.1, key.2.2.2.2.2.2.2.2.2.1, key.2.2.2.2.2.2.2.2.2.2.1, key.2.2.2.2.2.2.2.2.2.2.2.1, key.2.2.2.2.2.2.2.2.2.2.2.2.1, key.2.2.2.2.2.2.2.2.2.2.2.2.2.1, key.2.2.2.2.2.2.2.2.2.2.2.2.2.2.1, key.2.2.2.2.2.2.2.2.2.2.2.2.2.2.2.1, key.2.2.2.2.2.2.2.2.2.2.2.2.2.2.2.2.1, key.2.2.2.2.2.2.2.2.2.2.2.2.2.2.2.2.2.1, key.2.2.2.2.2.2.2.2.2.2.2.2.2.2.2.2.2.2.1, key.2.2.2.2.2.2.2.2.2.2.2.2.2.2.2.2.2.2.2.1, key.2.2.2.2.2.2.2.2.2.2.2.2.2.2.2.2.2.2.2.2.1, key.2.2.2.2.2.2.2.2.2.2.2.2.2.2.2.2.2.2.2.2.2.1, key.2.2.2.2.2.2.2.2.2.2.2.2.2.2.2.2.2.2.2.2.2.2.1, key.2.2.2.2.2.2.2.2.2.2.2.2.2.2.2.2.2.2.2.2.2.2.2.1, key.2.2.2.2.2.2.2.2.2.2.2.2.2.2.2.2.2.2.2.2.2.2.2.2.1, key.2.2.2.2.2.2.2.2.2.2.2.2.2.2.2.2.2.2.2.2.2.2.2.2.2.1, key.2.2.2.2.2.2.2.2.2.2.2.2.2.2.2.2.2.2.2.2.2.2.2.2.2.2.1, key.2.2.2.2.2.2.2.2.2.2.2.2.2.2.2.2.2.2.2.2.2.2.2.2.2.2.2.1, key.2.2.2.2.2.2.2.2.2.2.2.2.2.2.2.2.2.2.2.2.2.2.2.2.2.2.2.2.1, key.2.2.2.2.2.2.2.2.2.2.2.2.2.2.2.2.2.2.2.2.2.2.2.2.2.2.2.2.2.1, key.2.2.2.2.2.2.2.2.2.2.2.2.2.2.2.2.2.2.2.2.2.2.2.2.2.2.2.2.2.2.1, key.2.2.2.2.2.2.2.2.2.2.2.2.2.2.2.2.2.2.2.2.2.2.2.2.2.2.2.2.2.2.2]

theorem mulFold_zeroF : mulFold zeroF zeroF = zeroF := by decide

theorem carry_zeroF : carry zeroF = zeroF := by decide

theorem mul_zeroF : mul zeroF zeroF = zeroF := by
  unfold mul
  rw [mulFold_zeroF, carry_zeroF, carry_zeroF]

theorem inverseLoop_zeroF (n : ℕ) : inverseLoop zeroF n zeroF = zeroF := by
  induction n with
  | zero => rfl
  | succ n ih =>
    show inverseLoop zeroF n (inverseStep zeroF n zeroF) = zeroF
    have hstep : inverseStep zeroF n zeroF = zeroF := by
      unfold inverseStep
      simp only [mul_zeroF, ite_self]
    rw [hstep]
    exact ih

theorem inverse_zeroF : inverse zeroF = zeroF := by
  unfold inverse
  exact inverseLoop_zeroF 254

theorem mulFold_comm (a b : F) : mulFold a b = mulFold b a := by
  have key : mulFold a b 0 = mulFold b a 0 ∧
      mulFold a b 1 = mulFold b a 1 ∧
      mulFold a b 2 = mulFold b a 2 ∧
      mulFold a b 3 = mulFold b a 3 ∧
      mulFold a b 4 = mulFold b a 4 ∧
      mulFold a b 5 = mulFold b a 5 ∧
      mulFold a b 6 = mulFold b a 6 ∧
      mulFold a b 7 = mulFold b a 7 ∧
      mulFold a b 8 = mulFold b a 8 ∧
      mulFold a b 9 = mulFold b a 9 ∧
      mulFold a b 10 = mulFold b a 10 ∧
      mulFold a b 11 = mulFold b a 11 ∧
      mulFold a b 12 = mulFold b a 12 ∧
      mulFold a b 13 = mulFold b a 13 ∧
      mulFold a b 14 = mulFold b a 14 ∧
      mulFold a b 15 = mulFold b a 15 := by
    unfold mulFold
    simp only [mk16_0, mk16_1, mk16_2, mk16_3, mk16_4, mk16_5, mk16_6, mk16_7, mk16_8, mk16_9, mk16_10, mk16_11, mk16_12, mk16_13, mk16_14, mk16_15]
    refine ⟨?_, ?_, ?_, ?_, ?_, ?_, ?_, ?_, ?_, ?_, ?_, ?_, ?_, ?_, ?_, ?_⟩ <;> ring
  funext i
  fin_cases i
  exacts [key.1, key.2.1, key.2.2.1, key.2.2.2.1, key.2.2.2.2.1, key.2.2.2.2.2.1, key.2.2.2.2.2.2.1, key.2.2.2.2.2.2.2.1, key.2.2.2.2.2.2.2.2.1, key.2.2.2.2.2.2.2.2.2.1, key.2.2.2.2.2.2.2.2.2.2.1, key.2.2.2.2.2.2.2.2.2.2.2.1, key.2.2.2.2.2.2.2.2.2.2.2.2.1, key.2.2.2.2.2.2.2.2.2.2.2.2.2.1, key.2.2.2.2.2.2.2.2.2.2.2.2.2.2.1, key.2.2.2.2.2.2.2.2.2.2.2.2.2.2.2]

theorem mul_comm_toy (a b : F) : mul a b = mul b a := by
  unfold mul
  rw [mulFold_comm]

theorem fd16 (x : ℤ) : Int.fdiv x 65536 = x / 65536 :=
  Int.fdiv_eq_ediv x (by norm_num)

/-- Modelled on the specification text of the carry pass (spec section 4.5):
for each limb i, `c = limb[i] >> 16` as a sign-preserving arithmetic shift
(floor division by 2^16), `limb[i] -= c << 16` (subtract c·2^16), and the
carry is propagated to limb i+1, or multiplied by 38 into limb 0 at i = 15. -/
def carrySpec (f : F) : F :=
  let c0 := Int.fdiv (f 0) 65536
  let a0 := f 0 - c0 * 65536
  let x1 := f 1 + c0
  let c1 := Int.fdiv x1 65536
  let a1 := x1 - c1 * 65536
  let x2 := f 2 + c1
  let c2 := Int.fdiv x2 65536
  let a2 := x2 - c2 * 65536
  let x3 := f 3 + c2
  let c3 := Int.fdiv x3 65536
  let a3 := x3 - c3 * 65536
  let x4 := f 4 + c3
  let c4 := Int.fdiv x4 65536
  let a4 := x4 - c4 * 65536
  let x5 := f 5 + c4
  let c5 := Int.fdiv x5 65536
  let a5 := x5 - c5 * 65536
  let x6 := f 6 + c5
  let c6 := Int.fdiv x6 65536
  let a6 := x6 - c6 * 65536
  let x7 := f 7 + c6
  let c7 := Int.fdiv x7 65536
  let a7 := x7 - c7 * 65536
  let x8 := f 8 + c7
  let c8 := Int.fdiv x8 65536
  let a8 := x8 - c8 * 65536
  let x9 := f 9 + c8
  let c9 := Int.fdiv x9 65536
  let a9 := x9 - c9 * 65536
  let x10 := f 10 + c9
  let c10 := Int.fdiv x10 65536
  let a10 := x10 - c10 * 65536
  let x11 := f 11 + c10
  let c11 := Int.fdiv x11 65536
  let a11 := x11 - c11 * 65536
  let x12 := f 12 + c11
  let c12 := Int.fdiv x12 65536
  let a12 := x12 - c12 * 65536
  let x13 := f 13 + c12
  let c13 := Int.fdiv x13 65536
  let a13 := x13 - c13 * 65536
  let x14 := f 14 + c13
  let c14 := Int.fdiv x14 65536
  let a14 := x14 - c14 * 65536
  let x15 := f 15 + c14
  let c15 := Int.fdiv x15 65536
  let a15 := x15 - c15 * 65536
  mk16 (a0 + 38 * c15) a1 a2 a3 a4 a5 a6 a7 a8 a9 a10 a11 a12 a13 a14 a15

set_option maxRecDepth 8000 in
theorem carry_eq_carrySpec (f : F) : carry f = carrySpec f := by
  have key : carry f 0 = carrySpec f 0 ∧
      carry f 1 = carrySpec f 1 ∧
      carry f 2 = carrySpec f 2 ∧
      carry f 3 = carrySpec f 3 ∧
      carry f 4 = carrySpec f 4 ∧
      carry f 5 = carrySpec f 5 ∧
      carry f 6 = carrySpec f 6 ∧
      carry f 7 = carrySpec f 7 ∧
      carry f 8 = carrySpec f 8 ∧
      carry f 9 = carrySpec f 9 ∧
      carry f 10 = carrySpec f 10 ∧
      carry f 11 = carrySpec f 11 ∧
      carry f 12 = carrySpec f 12 ∧
      carry f 13 = carrySpec f 13 ∧
      carry f 14 = carrySpec f 14 ∧
      carry f 15 = carrySpec f 15 := by
    unfold carry carrySpec
    simp only [mk16_0, mk16_1, mk16_2, mk16_3, mk16_4, mk16_5, mk16_6, mk16_7, mk16_8, mk16_9, mk16_10, mk16_11, mk16_12, mk16_13, mk16_14, mk16_15, sr16, sl16, fd16]
    exact ⟨trivial, trivial, trivial, trivial, trivial, trivial, trivial, trivial, trivial, trivial, trivial, trivial, trivial, trivial, trivial, trivial⟩
  funext i
  fin_cases i
  exacts [key.1, key.2.1, key.2.2.1, key.2.2.2.1, key.2.2.2.2.1, key.2.2.2.2.2.1, key.2.2.2.2.2.2.1, key.2.2.2.2.2.2.2.1, key.2.2.2.2.2.2.2.2.1, key.2.2.2.2.2.2.2.2.2.1, key.2.2.2.2.2.2.2.2.2.2.1, key.2.2.2.2.2.2.2.2.2.2.2.1, key.2.2.2.2.2.2.2.2.2.2.2.2.1, key.2.2.2.2.2.2.2.2.2.2.2.2.2.1, key.2.2.2.2.2.2.2.2.2.2.2.2.2.2.1, key.2.2.2.2.2.2.2.2.2.2.2.2.2.2.2]

/-! ### The second snapshot of the arithmetic: `src/field.rs`. -/

/-- Embedding of `FieldElement::<i64,16>::carry` from field.rs (lines 118-130);
textually the same algorithm as lib.rs. -/
def FldCarry (f : F) : F :=
  let c0 := f 0 >>> (16:ℤ)
  let a0 := f 0 - c0 <<< (16:ℤ)
  let x1 := f 1 + c0
  let c1 := x1 >>> (16:ℤ)
  let a1 := x1 - c1 <<< (16:ℤ)
  let x2 := f 2 + c1
  let c2 := x2 >>> (16:ℤ)
  let a2 := x2 - c2 <<< (16:ℤ)
  let x3 := f 3 + c2
  let c3 := x3 >>> (16:ℤ)
  let a3 := x3 - c3 <<< (16:ℤ)
  let x4 := f 4 + c3
  let c4 := x4 >>> (16:ℤ)
  let a4 := x4 - c4 <<< (16:ℤ)
  let x5 := f 5 + c4
  let c5 := x5 >>> (16:ℤ)
  let a5 := x5 - c5 <<< (16:ℤ)
  let x6 := f 6 + c5
  let c6 := x6 >>> (16:ℤ)
  let a6 := x6 - c6 <<< (16:ℤ)
  let x7 := f 7 + c6
  let c7 := x7 >>> (16:ℤ)
  let a7 := x7 - c7 <<< (16:ℤ)
  let x8 := f 8 + c7
  let c8 := x8 >>> (16:ℤ)
  let a8 := x8 - c8 <<< (16:ℤ)
  let x9 := f 9 + c8
  let c9 := x9 >>> (16:ℤ)
  let a9 := x9 - c9 <<< (16:ℤ)
  let x10 := f 10 + c9
  let c10 := x10 >>> (16:ℤ)
  let a10 := x10 - c10 <<< (16:ℤ)
  let x11 := f 11 + c10
  let c11 := x11 >>> (16:ℤ)
  let a11 := x11 - c11 <<< (16:ℤ)
  let x12 := f 12 + c11
  let c12 := x12 >>> (16:ℤ)
  let a12 := x12 - c12 <<< (16:ℤ)
  let x13 := f 13 + c12
  let c13 := x13 >>> (16:ℤ)
  let a13 := x13 - c13 <<< (16:ℤ)
  let x14 := f 14 + c13
  let c14 := x14 >>> (16:ℤ)
  let a14 := x14 - c14 <<< (16:ℤ)
  let x15 := f 15 + c14
  let c15 := x15 >>> (16:ℤ)
  let a15 := x15 - c15 <<< (16:ℤ)
  mk16 (a0 + 38 * c15) a1 a2 a3 a4 a5 a6 a7 a8 a9 a10 a11 a12 a13 a14 a15

/-- Embedding of the in-place `FieldElement::<i64,16>::mul` from field.rs
(lines 53-72): the mutated receiver ends up holding the same convolution,
fold-back and double carry as the lib.rs version. -/
def FldMul (a b : F) : F :=
  let p0 := a 0 * b 0
  let p1 := a 0 * b 1 + a 1 * b 0
  let p2 := a 0 * b 2 + a 1 * b 1 + a 2 * b 0
  let p3 := a 0 * b 3 + a 1 * b 2 + a 2 * b 1 + a 3 * b 0
  let p4 := a 0 * b 4 + a 1 * b 3 + a 2 * b 2 + a 3 * b 1 + a 4 * b 0
  let p5 := a 0 * b 5 + a 1 * b 4 + a 2 * b 3 + a 3 * b 2 + a 4 * b 1 + a 5 * b 0
  let p6 := a 0 * b 6 + a 1 * b 5 + a 2 * b 4 + a 3 * b 3 + a 4 * b 2 + a 5 * b 1 + a 6 * b 0
  let p7 := a 0 * b 7 + a 1 * b 6 + a 2 * b 5 + a 3 * b 4 + a 4 * b 3 + a 5 * b 2 + a 6 * b 1 + a 7 * b 0
  let p8 := a 0 * b 8 + a 1 * b 7 + a 2 * b 6 + a 3 * b 5 + a 4 * b 4 + a 5 * b 3 + a 6 * b 2 + a 7 * b 1 + a 8 * b 0
  let p9 := a 0 * b 9 + a 1 * b 8 + a 2 * b 7 + a 3 * b 6 + a 4 * b 5 + a 5 * b 4 + a 6 * b 3 + a 7 * b 2 + a 8 * b 1 + a 9 * b 0
  let p10 := a 0 * b 10 + a 1 * b 9 + a 2 * b 8 + a 3 * b 7 + a 4 * b 6 + a 5 * b 5 + a 6 * b 4 + a 7 * b 3 + a 8 * b 2 + a 9 * b 1 + a 10 * b 0
  let p11 := a 0 * b 11 + a 1 * b 10 + a 2 * b 9 + a 3 * b 8 + a 4 * b 7 + a 5 * b 6 + a 6 * b 5 + a 7 * b 4 + a 8 * b 3 + a 9 * b 2 + a 10 * b 1 + a 11 * b 0
  let p12 := a 0 * b 12 + a 1 * b 11 + a 2 * b 10 + a 3 * b 9 + a 4 * b 8 + a 5 * b 7 + a 6 * b 6 + a 7 * b 5 + a 8 * b 4 + a 9 * b 3 + a 10 * b 2 + a 11 * b 1 + a 12 * b 0
  let p13 := a 0 * b 13 + a 1 * b 12 + a 2 * b 11 + a 3 * b 10 + a 4 * b 9 + a 5 * b 8 + a 6 * b 7 + a 7 * b 6 + a 8 * b 5 + a 9 * b 4 + a 10 * b 3 + a 11 * b 2 + a 12 * b 1 + a 13 * b 0
  let p14 := a 0 * b 14 + a 1 * b 13 + a 2 * b 12 + a 3 * b 11 + a 4 * b 10 + a 5 * b 9 + a 6 * b 8 + a 7 * b 7 + a 8 * b 6 + a 9 * b 5 + a 10 * b 4 + a 11 * b 3 + a 12 * b 2 + a 13 * b 1 + a 14 * b 0
  let p15 := a 0 * b 15 + a 1 * b 14 + a 2 * b 13 + a 3 * b 12 + a 4 * b 11 + a 5 * b 10 + a 6 * b 9 + a 7 * b 8 + a 8 * b 7 + a 9 * b 6 + a 10 * b 5 + a 11 * b 4 + a 12 * b 3 + a 13 * b 2 + a 14 * b 1 + a 15 * b 0
  let p16 := a 1 * b 15 + a 2 * b 14 + a 3 * b 13 + a 4 * b 12 + a 5 * b 11 + a 6 * b 10 + a 7 * b 9 + a 8 * b 8 + a 9 * b 7 + a 10 * b 6 + a 11 * b 5 + a 12 * b 4 + a 13 * b 3 + a 14 * b 2 + a 15 * b 1
  let p17 := a 2 * b 15 + a 3 * b 14 + a 4 * b 13 + a 5 * b 12 + a 6 * b 11 + a 7 * b 10 + a 8 * b 9 + a 9 * b 8 + a 10 * b 7 + a 11 * b 6 + a 12 * b 5 + a 13 * b 4 + a 14 * b 3 + a 15 * b 2
  let p18 := a 3 * b 15 + a 4 * b 14 + a 5 * b 13 + a 6 * b 12 + a 7 * b 11 + a 8 * b 10 + a 9 * b 9 + a 10 * b 8 + a 11 * b 7 + a 12 * b 6 + a 13 * b 5 + a 14 * b 4 + a 15 * b 3
  let p19 := a 4 * b 15 + a 5 * b 14 + a 6 * b 13 + a 7 * b 12 + a 8 * b 11 + a 9 * b 10 + a 10 * b 9 + a 11 * b 8 + a 12 * b 7 + a 13 * b 6 + a 14 * b 5 + a 15 * b 4
  let p20 := a 5 * b 15 + a 6 * b 14 + a 7 * b 13 + a 8 * b 12 + a 9 * b 11 + a 10 * b 10 + a 11 * b 9 + a 12 * b 8 + a 13 * b 7 + a 14 * b 6 + a 15 * b 5
  let p21 := a 6 * b 15 + a 7 * b 14 + a 8 * b 13 + a 9 * b 12 + a 10 * b 11 + a 11 * b 10 + a 12 * b 9 + a 13 * b 8 + a 14 * b 7 + a 15 * b 6
  let p22 := a 7 * b 15 + a 8 * b 14 + a 9 * b 13 + a 10 * b 12 + a 11 * b 11 + a 12 * b 10 + a 13 * b 9 + a 14 * b 8 + a 15 * b 7
  let p23 := a 8 * b 15 + a 9 * b 14 + a 10 * b 13 + a 11 * b 12 + a 12 * b 11 + a 13 * b 10 + a 14 * b 9 + a 15 * b 8
  let p24 := a 9 * b 15 + a 10 * b 14 + a 11 * b 13 + a 12 * b 12 + a 13 * b 11 + a 14 * b 10 + a 15 * b 9
  let p25 := a 10 * b 15 + a 11 * b 14 + a 12 * b 13 + a 13 * b 12 + a 14 * b 11 + a 15 * b 10
  let p26 := a 11 * b 15 + a 12 * b 14 + a 13 * b 13 + a 14 * b 12 + a 15 * b 11
  let p27 := a 12 * b 15 + a 13 * b 14 + a 14 * b 13 + a 15 * b 12
  let p28 := a 13 * b 15 + a 14 * b 14 + a 15 * b 13
  let p29 := a 14 * b 15 + a 15 * b 14
  let p30 := a 15 * b 15
  FldCarry (FldCarry (mk16 (p0 + 38 * p16) (p1 + 38 * p17) (p2 + 38 * p18) (p3 + 38 * p19) (p4 + 38 * p20) (p5 + 38 * p21) (p6 + 38 * p22) (p7 + 38 * p23) (p8 + 38 * p24) (p9 + 38 * p25) (p10 + 38 * p26) (p11 + 38 * p27) (p12 + 38 * p28) (p13 + 38 * p29) (p14 + 38 * p30) p15))

/-- The loop of `inverse` from field.rs (lines 89-100): the receiver is
squared in place and multiplied by the saved initial value except at bits 2
and 4. -/
def FldInverseLoop (initial : F) : ℕ → F → F
  | 0, s => s
  | n + 1, s =>
    FldInverseLoop initial n
      (let s2 := FldMul s s
       if n ≠ 2 ∧ n ≠ 4 then FldMul s2 initial else s2)

/-- Embedding of `FieldElement::<i64,16>::inverse` from field.rs. -/
def FldInverse (a : F) : F := FldInverseLoop a 254 a

theorem FldCarry_eq : FldCarry = carry := rfl

set_option maxHeartbeats 2000000 in
theorem FldMul_eq (a b : F) : FldMul a b = mul a b := by
  unfold FldMul mul mulFold
  rw [FldCarry_eq]

theorem FldStep_eq (a : F) (n : ℕ) (r : F) :
    (let s2 := FldMul r r
     if n ≠ 2 ∧ n ≠ 4 then FldMul s2 a else s2) = inverseStep a n r := by
  show (if n ≠ 2 ∧ n ≠ 4 then FldMul (FldMul r r) a else FldMul r r) = inverseStep a n r
  rw [FldMul_eq, FldMul_eq]
  unfold inverseStep
  rfl

theorem FldInverseLoop_eq (a : F) (n : ℕ) (r : F) :
    FldInverseLoop a n r = inverseLoop a n r := by
  induction n generalizing r with
  | zero => rfl
  | succ n ih =>
    show FldInverseLoop a n
        (let s2 := FldMul r r
         if n ≠ 2 ∧ n ≠ 4 then FldMul s2 a else s2) = inverseLoop a (n + 1) r
    rw [ih, FldStep_eq]
    rfl

/-! ### The claims. -/

/-- Claim C1 (amended): for every 32-byte array b whose last byte has its top
bit cleared AND whose encoded integer is below p = 2^255 - 19, pack (unpack b)
returns exactly the bytes b.  The amendment (value below p rather than below
2^255) is forced by the counterexample `claim_C1_counterexample`: pack
canonicalizes into [0, p), so the 19 encodings of values in [p, 2^255) do not
round-trip. -/
theorem claim_C1 (b : Bytes) (hb : IsBytes b) (h31 : b 31 < 128)
    (hlt : bval b < P) : pack (unpack b) = b := by
  have hu := unpack_spec b hb
  have hb0 := (bval_bounds b hb).1
  calc pack (unpack b) = canonEnc (val (unpack b) % P) :=
        pack_correct (unpack b) (InD0_to_InD1 _ hu.1)
    _ = canonEnc (bval b % P) := by rw [val_unpack_eq b hb h31]
    _ = canonEnc (bval b) := by rw [Int.emod_eq_of_lt hb0 hlt]
    _ = canonEnc (val (unpack b)) := by rw [val_unpack_eq b hb h31]
    _ = serialize (unpack b) := (serialize_canonEnc _ hu.1).symm
    _ = b := serialize_unpack b hb h31

/-- Counterexample for claim C1 as stated: the canonical encoding of p itself
has its top bit cleared, but pack (unpack ·) sends it to the encoding of 0. -/
theorem claim_C1_counterexample :
    pEnc 31 < 128 ∧ IsBytes pEnc ∧ pack (unpack pEnc) ≠ pEnc := by
  refine ⟨by decide, by decide, ?_⟩
  have hu := unpack_spec pEnc (by decide)
  have hpc := pack_correct (unpack pEnc) (InD0_to_InD1 _ hu.1)
  have hv : val (unpack pEnc) % P = 0 := by decide
  rw [hv] at hpc
  intro heq
  rw [hpc] at heq
  have h0 := congrFun heq 0
  exact absurd h0 (by decide)

/-- Witness for claim C1 at the encoding of 2. -/
theorem claim_C1_witness :
    IsBytes enc2 ∧ enc2 31 < 128 ∧ bval enc2 < P ∧ pack (unpack enc2) = enc2 :=
  ⟨by decide, by decide, by decide, claim_C1 enc2 (by decide) (by decide) (by decide)⟩

/-- Claim C2: for every 32-byte encoding b whose represented value is not
congruent to 0 mod p and whose top bit is cleared,
pack (mul (unpack b) (inverse (unpack b))) is the canonical encoding of 1
(byte 0 = 1, all other bytes 0). -/
theorem claim_C2 (b : Bytes) (hb : IsBytes b) (h31 : b 31 < 128)
    (hnz : ¬ (bval b % P = 0)) :
    pack (mul (unpack b) (inverse (unpack b))) = encOne := by
  have hu := unpack_spec b hb
  have hD1 : InD1 (unpack b) := InD0_to_InD1 _ hu.1
  have hw : InD1 (mul (unpack b) (inverse (unpack b))) :=
    mul_D1 _ _ hD1 (inverse_D1 _ hD1)
  have hm1 : val (mul (unpack b) (inverse (unpack b))) ≡
      val (unpack b) * val (unpack b) ^ (2 ^ 255 - 21 : ℕ) [ZMOD P] :=
    (mul_modeq _ _).trans (Int.ModEq.mul Int.ModEq.rfl (inverse_modeq _))
  have hnz2 : ¬ (val (unpack b) % P = 0) := by
    rw [val_unpack_eq b hb h31]
    exact hnz
  have h1 : val (mul (unpack b) (inverse (unpack b))) ≡ 1 [ZMOD P] :=
    hm1.trans (fermat_inverse (val (unpack b)) hnz2)
  rw [pack_correct _ hw]
  have hone : (1 : ℤ) % P = 1 := by decide
  have hmod : val (mul (unpack b) (inverse (unpack b))) % P = 1 := by
    have h2 : val (mul (unpack b) (inverse (unpack b))) % P = 1 % P := h1
    rw [hone] at h2
    exact h2
  rw [hmod]
  decide

/-- Witness for claim C2 at the encoding of 2. -/
theorem claim_C2_witness :
    IsBytes enc2 ∧ enc2 31 < 128 ∧ ¬ (bval enc2 % P = 0) ∧
      pack (mul (unpack enc2) (inverse (unpack enc2))) = encOne :=
  ⟨by decide, by decide, by decide, claim_C2 enc2 (by decide) (by decide) (by decide)⟩

/-- Claim C3: pack is total (no error path) and canonicalizing on the whole
limb domain reachable from unpack and the documented arithmetic chain.  The
domain InD1 (limb 0 in [0, 2^16 + 38), limbs 1..15 in [0, 2^16)) contains
every unpack output (each limb in [0, 2^16), limb 15 in [0, 2^15)) and is
closed under mul and inverse; on all of InD1 the 32-byte output of pack, read
as a little-endian integer, lies in [0, p) and is congruent mod p to the
value of the input limbs. -/
theorem claim_C3 :
    (∀ b : Bytes, IsBytes b → InD1 (unpack b)) ∧
    (∀ a b : F, InD1 a → InD1 b → InD1 (mul a b)) ∧
    (∀ a : F, InD1 a → InD1 (inverse a)) ∧
    (∀ f : F, InD1 f →
      0 ≤ bval (pack f) ∧ bval (pack f) < P ∧ bval (pack f) ≡ val f [ZMOD P]) := by
  refine ⟨fun b hb => InD0_to_InD1 _ (unpack_spec b hb).1,
    fun a b ha hb => mul_D1 a b ha hb, fun a ha => inverse_D1 a ha,
    fun f h => ?_⟩
  rw [pack_correct f h]
  have hPpos : (0 : ℤ) < P := by decide
  have hPlt : P < 2 ^ 256 := by decide
  have h1 : 0 ≤ val f % P := Int.emod_nonneg _ (by omega)
  have h2 : val f % P < P := Int.emod_lt_of_pos _ hPpos
  rw [bval_canonEnc (val f % P) ⟨h1, by omega⟩]
  refine ⟨h1, h2, ?_⟩
  show val f % P ≡ val f [ZMOD P]
  unfold Int.ModEq
  rw [Int.emod_emod_of_dvd _ dvd_rfl]

/-- Witness for claim C3: the pack part, applied at a limb element in InD1
but outside the unpack image (limb 0 = 2^16 + 37, limb 15 = 2^16 - 1), whose
value also exceeds p, so both canonicalization rounds act. -/
theorem claim_C3_witness :
    InD1 bigF ∧
      (0 ≤ bval (pack bigF) ∧ bval (pack bigF) < P ∧
        bval (pack bigF) ≡ val bigF [ZMOD P]) :=
  ⟨by unfold InD1; decide, claim_C3.2.2.2 bigF (by unfold InD1; decide)⟩

/-- Claim C4: inverse applied to the zero element returns the zero element, as
a total function; and for every field element a it returns a^(p-2) mod p
(p - 2 = 2^255 - 21), which for a not divisible by p is the modular inverse:
a · inverse a ≡ 1 (mod p). -/
theorem claim_C4 :
    inverse zeroF = zeroF ∧
    (∀ a : F, val (inverse a) ≡ val a ^ (2 ^ 255 - 21 : ℕ) [ZMOD P]) ∧
    (∀ a : F, ¬ (val a % P = 0) → val a * val (inverse a) ≡ 1 [ZMOD P]) := by
  refine ⟨inverse_zeroF, fun a => inverse_modeq a, fun a ha => ?_⟩
  exact (Int.ModEq.mul Int.ModEq.rfl (inverse_modeq a)).trans
    (fermat_inverse (val a) ha)

/-- Witness for claim C4 at the element representing 2. -/
theorem claim_C4_witness :
    ¬ (val twoF % P = 0) ∧ (val twoF * val (inverse twoF) ≡ 1 [ZMOD P]) :=
  ⟨by decide, claim_C4.2.2 twoF (by decide)⟩

/-- Claim C5: one carry call on the limb array with limb 0 = 0x1ffff and all
other limbs 0 yields limb 0 = 0xffff, limb 1 = 1, all other limbs unchanged;
and in general the carry pass performs, for each limb in order, the
sign-preserving arithmetic shift c = limb[i] >> 16, subtracts c << 16, and
adds c to limb[i+1] (or 38·c to limb[0] at i = 15), as described by
`carrySpec`. -/
theorem claim_C5 :
    carry (mk16 0x1ffff 0 0 0 0 0 0 0 0 0 0 0 0 0 0 0) =
      mk16 0xffff 1 0 0 0 0 0 0 0 0 0 0 0 0 0 0 ∧
    ∀ f : F, carry f = carrySpec f :=
  ⟨by decide, fun f => carry_eq_carrySpec f⟩

/-- Claim C6: multiplication is commutative at the byte level:
pack (mul a b) = pack (mul b a) for all 16-limb elements a and b (in
particular for all elements produced by unpack). -/
theorem claim_C6 (a b : F) : pack (mul a b) = pack (mul b a) := by
  rw [mul_comm_toy]

/-- Claim C7: unpack combines byte pairs little-endian, limb i = byte 2i +
256 · byte (2i+1) for i < 15, and masks limb 15 with 0x7fff; an encoding of a
value at least 2^255 is not rejected, but silently truncated, so the
represented value is always below 2^255. -/
theorem claim_C7 (b : Bytes) (hb : IsBytes b) :
    (unpack b 0 = b 0 + 256 * b 1) ∧
    (unpack b 1 = b 2 + 256 * b 3) ∧
    (unpack b 2 = b 4 + 256 * b 5) ∧
    (unpack b 3 = b 6 + 256 * b 7) ∧
    (unpack b 4 = b 8 + 256 * b 9) ∧
    (unpack b 5 = b 10 + 256 * b 11) ∧
    (unpack b 6 = b 12 + 256 * b 13) ∧
    (unpack b 7 = b 14 + 256 * b 15) ∧
    (unpack b 8 = b 16 + 256 * b 17) ∧
    (unpack b 9 = b 18 + 256 * b 19) ∧
    (unpack b 10 = b 20 + 256 * b 21) ∧
    (unpack b 11 = b 22 + 256 * b 23) ∧
    (unpack b 12 = b 24 + 256 * b 25) ∧
    (unpack b 13 = b 26 + 256 * b 27) ∧
    (unpack b 14 = b 28 + 256 * b 29) ∧
    (unpack b 15 = Int.land (b 30 + 256 * b 31) 0x7fff) ∧
    0 ≤ val (unpack b) ∧
    val (unpack b) < 2 ^ 255 := by
  have h0 := hb 0
  have h1 := hb 1
  have h2 := hb 2
  have h3 := hb 3
  have h4 := hb 4
  have h5 := hb 5
  have h6 := hb 6
  have h7 := hb 7
  have h8 := hb 8
  have h9 := hb 9
  have h10 := hb 10
  have h11 := hb 11
  have h12 := hb 12
  have h13 := hb 13
  have h14 := hb 14
  have h15 := hb 15
  have h16 := hb 16
  have h17 := hb 17
  have h18 := hb 18
  have h19 := hb 19
  have h20 := hb 20
  have h21 := hb 21
  have h22 := hb 22
  have h23 := hb 23
  have h24 := hb 24
  have h25 := hb 25
  have h26 := hb 26
  have h27 := hb 27
  have h28 := hb 28
  have h29 := hb 29
  have h30 := hb 30
  have h31 := hb 31
  unfold val
  simp only [unpack, mk16_0, mk16_1, mk16_2, mk16_3, mk16_4, mk16_5, mk16_6, mk16_7, mk16_8, mk16_9, mk16_10, mk16_11, mk16_12, mk16_13, mk16_14, mk16_15, sl8, land_mask_7fff]
  omega

/-- Witness for claim C7 at the encoding of 2. -/
theorem claim_C7_witness :
    IsBytes enc2 ∧ ((unpack enc2 0 = enc2 0 + 256 * enc2 1) ∧
    (unpack enc2 1 = enc2 2 + 256 * enc2 3) ∧
    (unpack enc2 2 = enc2 4 + 256 * enc2 5) ∧
    (unpack enc2 3 = enc2 6 + 256 * enc2 7) ∧
    (unpack enc2 4 = enc2 8 + 256 * enc2 9) ∧
    (unpack enc2 5 = enc2 10 + 256 * enc2 11) ∧
    (unpack enc2 6 = enc2 12 + 256 * enc2 13) ∧
    (unpack enc2 7 = enc2 14 + 256 * enc2 15) ∧
    (unpack enc2 8 = enc2 16 + 256 * enc2 17) ∧
    (unpack enc2 9 = enc2 18 + 256 * enc2 19) ∧
    (unpack enc2 10 = enc2 20 + 256 * enc2 21) ∧
    (unpack enc2 11 = enc2 22 + 256 * enc2 23) ∧
    (unpack enc2 12 = enc2 24 + 256 * enc2 25) ∧
    (unpack enc2 13 = enc2 26 + 256 * enc2 27) ∧
    (unpack enc2 14 = enc2 28 + 256 * enc2 29) ∧
    (unpack enc2 15 = Int.land (enc2 30 + 256 * enc2 31) 0x7fff) ∧
    0 ≤ val (unpack enc2) ∧
    val (unpack enc2) < 2 ^ 255) :=
  ⟨by decide, claim_C7 enc2 (by decide)⟩

/-- Claim C8: swap with bit 0 leaves both elements unchanged; swap with bit 1
exchanges all 16 limb pairs; applying swap with bit 1 twice restores both
elements. -/
theorem claim_C8 (f g : F) :
    swap f g 0 = (f, g) ∧ swap f g 1 = (g, f) ∧
    swap (swap f g 1).1 (swap f g 1).2 1 = (f, g) := by
  refine ⟨swap_zero f g, swap_one f g, ?_⟩
  rw [swap_one f g]
  exact swap_one g f

/-- Claim C10: the two duplicated snapshots of the field arithmetic agree:
the pure-functional mul and inverse of lib.rs and the in-place mul and
inverse of field.rs compute the same functions on 16-limb elements. -/
theorem claim_C10 :
    (∀ a b : F, FldMul a b = mul a b) ∧ (∀ a : F, FldInverse a = inverse a) :=
  ⟨fun a b => FldMul_eq a b, fun a => FldInverseLoop_eq a 254 a⟩


end Toy
